import Mathlib

/-!
# PlayerOne camera facade: exposure engine

A shallow embedding of `ccdplayerone.cpp` (class `PlayerOneCamera`, class
`CcdPlayerOne` and the free function `PlayerOneImgFormatSize`).

* The vendor SDK (`PlayerOneCamera.h`) is an external collaborator.  Every SDK
  call is recorded in a trace together with the answer it received, and the
  answers themselves are inputs ("scripts"): a theorem that quantifies over
  all scripts covers every possible device.
* `int` is a 32-bit two's complement integer (`wrapInt32`), `long` values are
  unbounded integers that the code only copies or divides.
* The exposure worker (the lambda handed to `std::thread`) is a small-step
  machine; the calling thread and the worker are interleaved by an explicit
  schedule, and shared fields are read and written sequentially consistently.
-/

namespace PlayerOne

/-! ## Definitions -/

/-- Compile-time switches that decide what `assert` does: `ndebug` is the
macro `NDEBUG` (with it `assert(e)` expands to nothing), `debug` is the macro
`_DEBUG` tested by `#ifdef _DEBUG` in `PlayerOneImgFormatSize`. -/
structure Build where
  ndebug : Bool
  debug : Bool
deriving DecidableEq, Repr

/-- Modelled from the spec: the SDK enumeration `POAImgFormat` of
`PlayerOneCamera.h` (not part of the repository).  The five enumerators are
the ones named by the `switch` in `PlayerOneImgFormatSize`; `unrecognised`
stands for any other value of the underlying integer type. -/
inductive POAImgFormat
  | POA_RAW8
  | POA_RAW16
  | POA_RGB24
  | POA_MONO8
  | POA_END
  | unrecognised (raw : Int)
deriving DecidableEq, Repr

/-- Modelled from the spec: the SDK enumeration `POACameraState`.  The source
only ever compares a state with `STATE_EXPOSING`; every other enumerator is
a terminal (non-exposing) state. -/
inductive POACameraState
  | STATE_EXPOSING
  | terminal (raw : Int)
deriving DecidableEq, Repr

/-- Modelled from the spec: the SDK enumeration `POAConfig`; the source names
`POA_EXPOSURE` and `POA_GAIN`, every other key is `other`. -/
inductive POAConfig
  | POA_EXPOSURE
  | POA_GAIN
  | other (id : Int)
deriving DecidableEq, Repr

/-- Modelled from the spec: the SDK enumeration `POAValueType`. -/
inductive POAValueType
  | VAL_INT
  | VAL_FLOAT
  | VAL_BOOL
deriving DecidableEq, Repr

/-- Modelled from the spec: the SDK record `POAConfigAttributes` (the fields the
source reads; the value unions are seen through their `intValue` member). -/
structure POAConfigAttributes where
  configID : POAConfig
  valueType : POAValueType
  minValue : Int
  maxValue : Int
  defaultValue : Int
deriving DecidableEq, Repr

/-- Modelled from the spec: the SDK record `POACameraProperties` (the fields the
source reads). -/
structure POACameraProperties where
  cameraID : Int
  maxWidth : Int
  maxHeight : Int
deriving DecidableEq, Repr

/-- The thread an event was produced on. -/
inductive Origin
  | caller
  | worker
deriving DecidableEq, Repr

/-- One observable step: an SDK call with the answer it received, a sleep, a
Qt signal, or a `std::thread` operation of the facade.  `threadSwap j`
records `imageWaitingThread.swap(thread)` in `StartExposure`; `j` tells
whether the thread object that is swapped out (and destroyed when
`StartExposure` returns) was joinable.  `imageReady` carries the length of the
delivered buffer; its bytes are whatever the device wrote. -/
inductive Event
  | POAGetCameraCount (n : Int)
  | POAGetCameraProperties (index : Int) (ok : Bool)
  | POAOpenCamera (id : Int) (ok : Bool)
  | POAInitCamera (id : Int) (ok : Bool)
  | POAGetConfigsCount (r : Option Int)
  | POAGetConfigAttributes (index : Int) (ok : Bool)
  | POACloseCamera (id : Int)
  | POAGetConfig (c : POAConfig) (r : Option Int)
  | POASetConfig (c : POAConfig) (v : Int) (ok : Bool)
  | POAGetImageSize (r : Option (Int × Int))
  | POAGetImageFormat (r : Option POAImgFormat)
  | POAGetImageBin (r : Option Int)
  | POASetImageBin (v : Int) (ok : Bool)
  | POAGetCameraState (r : Option POACameraState)
  | POAStartExposure (singleFrame : Bool) (ok : Bool)
  | POAStopExposure (ok : Bool)
  | POAImageReady (r : Option Bool)
  | POAGetImageData (len : Nat) (timeout : Int) (ok : Bool)
  | sleep (ms : Nat)
  | threadSwap (replacedJoinable : Bool)
  | threadJoin
  | imageReady (nWidth nHeight : Int) (len : Nat)
  | aborted
deriving DecidableEq, Repr

/-- A trace: events in program order, oldest first, each with its thread. -/
abbrev Trace := List (Origin × Event)

/-- Reduction of an integer to the range of a 32-bit `int`. -/
def wrapInt32 (x : Int) : Int :=
  (x + 2147483648) % 4294967296 - 2147483648

/-- Multiplication of two `int` values. -/
def mulInt32 (x y : Int) : Int :=
  wrapInt32 (x * y)

/-- The statements after the `switch` of `PlayerOneImgFormatSize`:
`#ifdef _DEBUG assert(false); #endif return std::make_tuple(1, 1);`.
`none` is a failed assertion (the process aborts). -/
def PlayerOneImgFormatSize.fallback (b : Build) : Option (Int × Int) :=
  if b.debug && !b.ndebug then none else some (1, 1)

/-- Function `PlayerOneImgFormatSize`: (bits, bytes) per pixel.  `none` is a
failed assertion. -/
def PlayerOneImgFormatSize (b : Build) (fmt : POAImgFormat) : Option (Int × Int) :=
  match fmt with
  | .POA_RAW8 => some (8, 1)
  | .POA_MONO8 => some (8, 1)
  | .POA_RAW16 => some (16, 2)
  | .POA_RGB24 => some (24, 3)
  | .POA_END => if b.ndebug then PlayerOneImgFormatSize.fallback b else none
  | .unrecognised _ => PlayerOneImgFormatSize.fallback b

/-- Class `PlayerOneCamera`: the properties and the attribute map filled in by
`Create` (a `std::map`, kept as an association list without duplicate keys). -/
structure PlayerOneCamera where
  m_CamProp : POACameraProperties
  m_Attrib : List (POAConfig × POAConfigAttributes)
deriving DecidableEq, Repr

namespace PlayerOneCamera

/-- Method `cameraID`. -/
def cameraID (cam : PlayerOneCamera) : Int :=
  cam.m_CamProp.cameraID

/-- Method `GetIntRange`: (min, max, default) of an integer-valued key. -/
def GetIntRange (cam : PlayerOneCamera) (configID : POAConfig) : Option (Int × Int × Int) :=
  match cam.m_Attrib.lookup configID with
  | none => none
  | some a => if a.valueType ≠ .VAL_INT then none else some (a.minValue, a.maxValue, a.defaultValue)

/-- Method `GetExposureRange`. -/
def GetExposureRange (cam : PlayerOneCamera) : Option (Int × Int × Int) :=
  cam.GetIntRange .POA_EXPOSURE

/-- Method `GetGainRange`. -/
def GetGainRange (cam : PlayerOneCamera) : Option (Int × Int × Int) :=
  cam.GetIntRange .POA_GAIN

/-- Method `Close`: one `POACloseCamera`. -/
def Close (cam : PlayerOneCamera) : List Event :=
  [.POACloseCamera cam.cameraID]

/-- Method `GetIntConfig` with the SDK answer `r` (`none`: an error code). -/
def GetIntConfig (config : POAConfig) (r : Option Int) : List Event × Option Int :=
  ([.POAGetConfig config r], r)

/-- Method `SetIntConfig` with the SDK answer `ok` (`nErr == POA_OK`). -/
def SetIntConfig (config : POAConfig) (nValue : Int) (ok : Bool) : List Event × Bool :=
  ([.POASetConfig config nValue ok], ok)

/-- Method `GetExposure`. -/
def GetExposure (r : Option Int) : List Event × Option Int :=
  GetIntConfig .POA_EXPOSURE r

/-- Method `SetExposure`. -/
def SetExposure (nExposure : Int) (ok : Bool) : List Event × Bool :=
  SetIntConfig .POA_EXPOSURE nExposure ok

/-- Method `GetGain`. -/
def GetGain (r : Option Int) : List Event × Option Int :=
  GetIntConfig .POA_GAIN r

/-- Method `SetGain`. -/
def SetGain (nGain : Int) (ok : Bool) : List Event × Bool :=
  SetIntConfig .POA_GAIN nGain ok

/-- Method `GetImageSize`. -/
def GetImageSize (r : Option (Int × Int)) : List Event × Option (Int × Int) :=
  ([.POAGetImageSize r], r)

/-- Method `GetImageFormat`. -/
def GetImageFormat (r : Option POAImgFormat) : List Event × Option POAImgFormat :=
  ([.POAGetImageFormat r], r)

/-- Method `ImageReady`. -/
def ImageReady (r : Option Bool) : List Event × Option Bool :=
  ([.POAImageReady r], r)

/-- Method `GetCameraState`. -/
def GetCameraState (r : Option POACameraState) : List Event × Option POACameraState :=
  ([.POAGetCameraState r], r)

/-- Method `GetImageData` on a buffer of `len` bytes. -/
def GetImageData (len : Nat) (timeout_ms : Int) (ok : Bool) : List Event × Bool :=
  ([.POAGetImageData len timeout_ms ok], ok)

/-- Method `StartExposure`: `POAStartExposure(id, POA_TRUE)`. -/
def StartExposure (ok : Bool) : List Event × Bool :=
  ([.POAStartExposure true ok], ok)

/-- Method `StopExposure`. -/
def StopExposure (ok : Bool) : List Event × Bool :=
  ([.POAStopExposure ok], ok)

/-- Method `GetImageBin`. -/
def GetImageBin (r : Option Int) : List Event × Option Int :=
  ([.POAGetImageBin r], r)

/-- Method `SetImageBin`. -/
def SetImageBin (nBin : Int) (ok : Bool) : List Event × Bool :=
  ([.POASetImageBin nBin ok], ok)

end PlayerOneCamera

/-- Answer of the device to one `POAGetCameraState` of the worker.  When the
query fails (`result = none`) the worker still executes `state = *result`
on the empty optional; `indeterminate` is the value that read produces. -/
structure StateAnswer where
  result : Option POACameraState
  indeterminate : POACameraState

/-- Answers of the device to the SDK calls of one exposure worker:
`state i` answers its `i`-th state query (from 0), `read len t` the image read
into a buffer of `len` bytes with timeout `t`, `stop` the `POAStopExposure` of
`abortProc`. -/
structure ExposureScript where
  start : Bool
  state : Nat → StateAnswer
  ready : Option Bool
  read : Nat → Int → Bool
  stop : Bool

/-- Program points of the worker lambda of `StartExposure`. -/
inductive Pc
  | start
  | sleep
  | check
  | query
  | assign
  | afterLoop
  | ready
  | alloc
  | read
  | emit
  | abortStop
  | abortEmit
  | done
  | crashed
deriving DecidableEq, Repr

/-- The worker thread: the values captured by copy (`nWidth`, `nHeight`), its
locals (`result`, `state`, the buffer through its length), its program point,
the number of state queries it has made and the device script it runs against. -/
structure Worker where
  nWidth : Int
  nHeight : Int
  dev : ExposureScript
  pc : Pc
  queries : Nat
  result : Option StateAnswer
  state : Option POACameraState
  bufLen : Nat

/-- Class `CcdPlayerOne`.  `imageWaitingThread = some w` means the thread object
is joinable (its thread is running, or has finished and was not joined yet).
The members `bulbThread`, `mtxWaiting`, `bImageWaiting` and
`bDisconnectedSent` are never assigned or read to any effect and are left
out: `bulbThread` is default-constructed and so never joinable. -/
structure CcdPlayerOne where
  pCamera : Option PlayerOneCamera
  m_nCurrentExposureCache : Int
  m_nCurrentBufferSize : Int
  imageWaitingThread : Option Worker
  bAbortBulb : Bool
  log : Trace

/-- Why a call does not return: the caller waits in `join` for a worker that
has not finished within the steps the schedule grants, or the process was
terminated (failed `assert`, uncaught exception). -/
inductive Halt
  | blocked
  | terminated
deriving DecidableEq, Repr

namespace CcdPlayerOne

/-- Constructor `CcdPlayerOne::CcdPlayerOne`. -/
def ctor : CcdPlayerOne :=
  { pCamera := none, m_nCurrentExposureCache := 0, m_nCurrentBufferSize := 0,
    imageWaitingThread := none, bAbortBulb := false, log := [] }

/-- Append events produced on thread `o` to the trace. -/
def record (s : CcdPlayerOne) (o : Origin) (es : List Event) : CcdPlayerOne :=
  { s with log := s.log ++ es.map fun e => (o, e) }

/-- Replace the worker. -/
def setWorker (s : CcdPlayerOne) (w : Worker) : CcdPlayerOne :=
  { s with imageWaitingThread := some w }

/-- Method `GetBufferSize`. -/
def GetBufferSize (s : CcdPlayerOne) : Int :=
  s.m_nCurrentBufferSize

end CcdPlayerOne

/-- The timeout argument of the image read:
`m_nCurrentExposureCache / 1000 + 500`, a `long`, converted to the `int`
parameter `timeout_ms`. -/
def readTimeout (cache : Int) : Int :=
  wrapInt32 (Int.tdiv cache 1000 + 500)

/-- One atomic step of the worker lambda of `StartExposure` (lines 508-545).
A device call through a null `pCamera` and the construction of a
`std::vector` with a negative size (it throws, nothing catches) end in
`crashed`: the process is terminated. -/
def workerStep (s : CcdPlayerOne) : CcdPlayerOne :=
  match s.imageWaitingThread with
  | none => s
  | some w =>
    match w.pc with
    | .start =>
      match s.pCamera with
      | none => s.setWorker { w with pc := .crashed }
      | some _ =>
        let r := PlayerOneCamera.StartExposure w.dev.start
        (s.record .worker r.1).setWorker { w with pc := if r.2 then .sleep else .abortStop }
    | .sleep => (s.record .worker [.sleep 100]).setWorker { w with pc := .check }
    | .check => s.setWorker { w with pc := if s.bAbortBulb then .afterLoop else .query }
    | .query =>
      match s.pCamera with
      | none => s.setWorker { w with pc := .crashed }
      | some _ =>
        let a := w.dev.state w.queries
        let r := PlayerOneCamera.GetCameraState a.result
        (s.record .worker r.1).setWorker
          { w with pc := .assign, queries := w.queries + 1, result := some a }
    | .assign =>
      match w.result with
      | none => s.setWorker { w with pc := .crashed }
      | some a =>
        let st := a.result.getD a.indeterminate
        let s1 := if a.result.isNone then { s with bAbortBulb := true } else s
        s1.setWorker
          { w with state := some st, pc := if st = .STATE_EXPOSING then .sleep else .afterLoop }
    | .afterLoop => s.setWorker { w with pc := if s.bAbortBulb then .abortStop else .ready }
    | .ready =>
      match s.pCamera with
      | none => s.setWorker { w with pc := .crashed }
      | some _ =>
        let r := PlayerOneCamera.ImageReady w.dev.ready
        (s.record .worker r.1).setWorker
          { w with pc := if r.2 = some true then .alloc else .abortStop }
    | .alloc =>
      if s.m_nCurrentBufferSize < 0 then s.setWorker { w with pc := .crashed }
      else s.setWorker { w with bufLen := s.m_nCurrentBufferSize.toNat, pc := .read }
    | .read =>
      match s.pCamera with
      | none => s.setWorker { w with pc := .crashed }
      | some _ =>
        let t := readTimeout s.m_nCurrentExposureCache
        let r := PlayerOneCamera.GetImageData w.bufLen t (w.dev.read w.bufLen t)
        (s.record .worker r.1).setWorker { w with pc := if r.2 then .emit else .abortStop }
    | .emit =>
      (s.record .worker [.imageReady w.nWidth w.nHeight w.bufLen]).setWorker { w with pc := .done }
    | .abortStop =>
      match s.pCamera with
      | none => s.setWorker { w with pc := .crashed }
      | some _ =>
        let r := PlayerOneCamera.StopExposure w.dev.stop
        (s.record .worker r.1).setWorker { w with pc := .abortEmit }
    | .abortEmit => (s.record .worker [.aborted]).setWorker { w with pc := .done }
    | .done => s
    | .crashed => s

/-- The worker takes `n` steps in a row. -/
def workerSteps : Nat → CcdPlayerOne → CcdPlayerOne
  | 0, s => s
  | n + 1, s => workerSteps n (workerStep s)

/-- The program point of the worker, if the thread object is joinable. -/
def workerPc (s : CcdPlayerOne) : Option Pc :=
  s.imageWaitingThread.map fun w => w.pc

/-- The statement `if (imageWaitingThread.joinable()) imageWaitingThread.join();`.
While the caller waits the worker takes `wait` steps; the call returns
when the worker has finished by then, it is `blocked` when the schedule
grants too few steps (or the worker polls for ever), and it never returns
when the worker terminated the process. -/
def joinIfJoinable (wait : Nat) (s : CcdPlayerOne) : Except Halt CcdPlayerOne :=
  match s.imageWaitingThread with
  | none => .ok s
  | some _ =>
    let s1 := workerSteps wait s
    match workerPc s1 with
    | some .done => .ok ({ s1 with imageWaitingThread := none }.record .caller [.threadJoin])
    | some .crashed => .error .terminated
    | _ => .error .blocked

/-- Answers of the device to the SDK calls of one `CcdPlayerOne::Open`:
`listCount` and `listProps` serve `CameraList`, the other fields serve
`PlayerOneCamera::Open` and `Create` (a second enumeration of the devices). -/
structure OpenScript where
  listCount : Int
  listProps : Nat → Bool
  count : Int
  props : Option POACameraProperties
  openOk : Bool
  initOk : Bool
  configsCount : Option Int
  attributes : Nat → Option POAConfigAttributes

/-- Answers of the device to the SDK calls the calling thread makes in one
`CcdPlayerOne::StartExposure`, in the order of the calls. -/
structure StartScript where
  stop : Bool
  state : Option POACameraState
  imageSize : Option (Int × Int)
  imageFormat : Option POAImgFormat
  exposure : Option Int
  gain : Option Int
  bin : Option Int

namespace PlayerOneCamera

/-- Method `CameraList`: the events and the size of the returned vector. -/
def CameraList (d : OpenScript) : List Event × Nat :=
  if d.listCount ≤ 0 then ([.POAGetCameraCount d.listCount], 0)
  else
    ([.POAGetCameraCount d.listCount] ++
      (List.range d.listCount.toNat).map fun i => .POAGetCameraProperties i (d.listProps i),
     d.listCount.toNat)

/-- The call `attributes.emplace(attrib.configID, attrib)`: a key that is
already present keeps its value. -/
def emplace (m : List (POAConfig × POAConfigAttributes)) (a : POAConfigAttributes) :
    List (POAConfig × POAConfigAttributes) :=
  if (m.lookup a.configID).isSome then m else m ++ [(a.configID, a)]

/-- Method `Create`: fetch the attributes, skipping the ones that fail. -/
def Create (prop : POACameraProperties) (d : OpenScript) : List Event × Option PlayerOneCamera :=
  match d.configsCount with
  | none => ([.POAGetConfigsCount none], none)
  | some n =>
    ([.POAGetConfigsCount (some n)] ++
      (List.range n.toNat).map fun i => .POAGetConfigAttributes i (d.attributes i).isSome,
     some
      { m_CamProp := prop,
        m_Attrib := (List.range n.toNat).foldl
          (fun m i => match d.attributes i with
            | none => m
            | some a => emplace m a) [] })

/-- Static method `Open`. -/
def Open (nIndex : Int) (d : OpenScript) : List Event × Option PlayerOneCamera :=
  if nIndex < 0 ∨ nIndex ≥ d.count then ([.POAGetCameraCount d.count], none)
  else
    match d.props with
    | none => ([.POAGetCameraCount d.count, .POAGetCameraProperties nIndex false], none)
    | some prop =>
      if ¬ d.openOk then
        ([.POAGetCameraCount d.count, .POAGetCameraProperties nIndex true,
          .POAOpenCamera prop.cameraID false], none)
      else if ¬ d.initOk then
        ([.POAGetCameraCount d.count, .POAGetCameraProperties nIndex true,
          .POAOpenCamera prop.cameraID true, .POAInitCamera prop.cameraID false], none)
      else
        ([.POAGetCameraCount d.count, .POAGetCameraProperties nIndex true,
          .POAOpenCamera prop.cameraID true, .POAInitCamera prop.cameraID true]
          ++ (Create prop d).1,
         (Create prop d).2)

end PlayerOneCamera

namespace CcdPlayerOne

/-- Method `Open`.  The result of `PlayerOneCamera::Open` is assigned to
`pCamera` before it is tested. -/
def Open (nNo : Int) (d : OpenScript) (s : CcdPlayerOne) : Bool × CcdPlayerOne :=
  let l := PlayerOneCamera.CameraList d
  let s1 := s.record .caller l.1
  if (l.2 : Int) ≤ nNo then (false, s1)
  else
    let r := PlayerOneCamera.Open nNo d
    let s2 := { s1.record .caller r.1 with pCamera := r.2 }
    match r.2 with
    | none => (false, s2)
    | some _ => (true, s2)

/-- Method `Close`. -/
def Close (wait : Nat) (s : CcdPlayerOne) : Except Halt CcdPlayerOne :=
  match joinIfJoinable wait s with
  | .error h => .error h
  | .ok s1 =>
    let s2 := { s1 with bAbortBulb := true }
    match s2.pCamera with
    | none => .ok s2
    | some cam => .ok { s2.record .caller cam.Close with pCamera := none }

/-- Method `EndExposure`. -/
def EndExposure (wait : Nat) (stop : Bool) (s : CcdPlayerOne) :
    Except Halt (Bool × CcdPlayerOne) :=
  match s.pCamera with
  | none => .ok (false, s)
  | some _ =>
    match joinIfJoinable wait (s.record .caller (PlayerOneCamera.StopExposure stop).1) with
    | .error h => .error h
    | .ok s1 => .ok (true, s1)

/-- Method `AbortExposure`.  The worker takes `between` steps after the
write of the flag and before `EndExposure` starts. -/
def AbortExposure (between wait : Nat) (stop : Bool) (s : CcdPlayerOne) :
    Except Halt (Bool × CcdPlayerOne) :=
  EndExposure wait stop (workerSteps between { s with bAbortBulb := true })

/-- Method `GetExposure`. -/
def GetExposure (r : Option Int) (s : CcdPlayerOne) : Option Int × CcdPlayerOne :=
  match s.pCamera with
  | none => (none, s)
  | some _ => ((PlayerOneCamera.GetExposure r).2, s.record .caller (PlayerOneCamera.GetExposure r).1)

/-- Method `GetGain`. -/
def GetGain (r : Option Int) (s : CcdPlayerOne) : Option Int × CcdPlayerOne :=
  match s.pCamera with
  | none => (none, s)
  | some _ => ((PlayerOneCamera.GetGain r).2, s.record .caller (PlayerOneCamera.GetGain r).1)

/-- Method `GetQuality`. -/
def GetQuality (r : Option Int) (s : CcdPlayerOne) : Option Int × CcdPlayerOne :=
  match s.pCamera with
  | none => (none, s)
  | some _ => ((PlayerOneCamera.GetImageBin r).2, s.record .caller (PlayerOneCamera.GetImageBin r).1)

/-- Method `GetExposureDef`. -/
def GetExposureDef (s : CcdPlayerOne) : Int × Int × Int :=
  match s.pCamera with
  | none => (0, 0, 0)
  | some cam => (cam.GetExposureRange).getD (0, 0, 0)

/-- Method `GetGainDef`. -/
def GetGainDef (s : CcdPlayerOne) : Int × Int × Int :=
  match s.pCamera with
  | none => (0, 0, 0)
  | some cam => (cam.GetGainRange).getD (0, 0, 0)

/-- Method `SetExposure`: `first` and `retry` are the answers of the device
to the first write and to the write repeated after 100 ms. -/
def SetExposure (nDependValue : Int) (first retry : Bool) (s : CcdPlayerOne) :
    Bool × CcdPlayerOne :=
  match s.pCamera with
  | none => (false, s)
  | some _ =>
    let r1 := PlayerOneCamera.SetExposure nDependValue first
    let s1 := s.record .caller r1.1
    let r2 := PlayerOneCamera.SetExposure nDependValue retry
    let s2 := if r1.2 then s1 else (s1.record .caller [.sleep 100]).record .caller r2.1
    let bRet := if r1.2 then true else r2.2
    (bRet, if bRet then { s2 with m_nCurrentExposureCache := nDependValue } else s2)

/-- Method `SetGain`. -/
def SetGain (wait : Nat) (nDependValue : Int) (ok : Bool) (s : CcdPlayerOne) :
    Except Halt (Bool × CcdPlayerOne) :=
  match s.pCamera with
  | none => .ok (false, s)
  | some _ =>
    match joinIfJoinable wait s with
    | .error h => .error h
    | .ok s1 =>
      .ok ((PlayerOneCamera.SetGain nDependValue ok).2,
           s1.record .caller (PlayerOneCamera.SetGain nDependValue ok).1)

/-- Method `SetQuality`: `nDependValue & 0xff` is the residue modulo 256. -/
def SetQuality (wait : Nat) (nDependValue : Int) (ok : Bool) (s : CcdPlayerOne) :
    Except Halt (Bool × CcdPlayerOne) :=
  match s.pCamera with
  | none => .ok (false, s)
  | some _ =>
    match joinIfJoinable wait s with
    | .error h => .error h
    | .ok s1 =>
      let nBin := nDependValue % 256
      .ok ((PlayerOneCamera.SetImageBin nBin ok).2,
           s1.record .caller (PlayerOneCamera.SetImageBin nBin ok).1)

/-- The worker object `StartExposure` creates for geometry `nWidth × nHeight`. -/
def newWorker (nWidth nHeight : Int) (e : ExposureScript) : Worker :=
  { nWidth := nWidth, nHeight := nHeight, dev := e, pc := .start, queries := 0,
    result := none, state := none, bufLen := 0 }

/-- Method `StartExposure`.  After the first join no worker exists, so the
nested `AbortExposure` runs with no worker steps.  A failed assertion in
`PlayerOneImgFormatSize` terminates the process. -/
def StartExposure (b : Build) (wait : Nat) (d : StartScript) (e : ExposureScript)
    (s : CcdPlayerOne) : Except Halt (Bool × CcdPlayerOne) :=
  match s.pCamera with
  | none => .ok (false, s)
  | some _ =>
    match joinIfJoinable wait s with
    | .error h => .error h
    | .ok s1 =>
      match AbortExposure 0 0 d.stop s1 with
      | .error h => .error h
      | .ok a =>
        let s2 := a.2.record .caller (PlayerOneCamera.GetCameraState d.state).1
        let s3 := { s2 with bAbortBulb := false }
        let s4 := s3.record .caller (PlayerOneCamera.GetImageSize d.imageSize).1
        match (PlayerOneCamera.GetImageSize d.imageSize).2 with
        | none => .ok (false, s4)
        | some imageSize =>
          let s5 := s4.record .caller (PlayerOneCamera.GetImageFormat d.imageFormat).1
          match (PlayerOneCamera.GetImageFormat d.imageFormat).2 with
          | none => .ok (false, s5)
          | some fmt =>
            match PlayerOneImgFormatSize b fmt with
            | none => .error .terminated
            | some size =>
              let optExposureTime := GetExposure d.exposure s5
              let optGain := GetGain d.gain optExposureTime.2
              let optQuality := GetQuality d.bin optGain.2
              if optExposureTime.1.isNone ∨ optGain.1.isNone ∨ optQuality.1.isNone then
                .ok (false, optQuality.2)
              else
                let s6 := { optQuality.2 with
                  m_nCurrentBufferSize := mulInt32 (mulInt32 imageSize.1 imageSize.2) size.2 }
                .ok (true,
                  { s6.record .caller [.threadSwap s6.imageWaitingThread.isSome] with
                    imageWaitingThread := some (newWorker imageSize.1 imageSize.2 e) })

end CcdPlayerOne

/-- One move of a schedule: a step of the worker, or a complete call of a
facade method by the calling thread together with the answers of the device
and the number of worker steps granted at each point where the call lets
the worker run. -/
inductive Action
  | worker
  | Open (nNo : Int) (d : OpenScript)
  | Close (wait : Nat)
  | StartExposure (wait : Nat) (d : StartScript) (e : ExposureScript)
  | AbortExposure (between wait : Nat) (stop : Bool)
  | EndExposure (wait : Nat) (stop : Bool)
  | SetExposure (v : Int) (first retry : Bool)
  | SetGain (wait : Nat) (v : Int) (ok : Bool)
  | SetQuality (wait : Nat) (v : Int) (ok : Bool)

/-- Drop the return value of a call. -/
def discard {α : Type} (r : Except Halt (α × CcdPlayerOne)) : Except Halt CcdPlayerOne :=
  match r with
  | .error h => .error h
  | .ok a => .ok a.2

/-- Effect of one move.  Nothing runs once the worker has terminated the
process. -/
def step (b : Build) (a : Action) (s : CcdPlayerOne) : Except Halt CcdPlayerOne :=
  if workerPc s = some .crashed then .error .terminated
  else
    match a with
    | .worker => .ok (workerStep s)
    | .Open nNo d => .ok (s.Open nNo d).2
    | .Close wait => s.Close wait
    | .StartExposure wait d e => discard (s.StartExposure b wait d e)
    | .AbortExposure between wait stop => discard (s.AbortExposure between wait stop)
    | .EndExposure wait stop => discard (s.EndExposure wait stop)
    | .SetExposure v first retry => .ok (s.SetExposure v first retry).2
    | .SetGain wait v ok => discard (s.SetGain wait v ok)
    | .SetQuality wait v ok => discard (s.SetQuality wait v ok)

/-- Effect of a schedule, move by move. -/
def exec (b : Build) : List Action → CcdPlayerOne → Except Halt CcdPlayerOne
  | [], s => .ok s
  | a :: as, s =>
    match step b a s with
    | .error h => .error h
    | .ok s1 => exec b as s1

/-- The events of a trace that the calling thread produced. -/
def callerEvents (t : Trace) : List Event :=
  (t.filter fun x => x.1 = .caller).map Prod.snd

/-- The events of a trace that the worker produced. -/
def workerEvents (t : Trace) : List Event :=
  (t.filter fun x => x.1 = .worker).map Prod.snd

/-- The two Qt signals of `CcdPlayerOne`. -/
def Event.isNotification : Event → Bool
  | .imageReady _ _ _ => true
  | .aborted => true
  | _ => false

/-- SDK calls that change the state of the device.  The remaining SDK
calls of the source are read-only queries. -/
def Event.isStateChanging : Event → Bool
  | .POAOpenCamera _ _ => true
  | .POAInitCamera _ _ => true
  | .POACloseCamera _ => true
  | .POASetConfig _ _ _ => true
  | .POASetImageBin _ _ => true
  | .POAStartExposure _ _ => true
  | .POAStopExposure _ => true
  | _ => false

/-- The hardware start command. -/
def Event.isStart : Event → Bool
  | .POAStartExposure _ _ => true
  | _ => false

/-- The device-stop command. -/
def Event.isStop : Event → Bool
  | .POAStopExposure _ => true
  | _ => false

/-- The device state query. -/
def Event.isStateQuery : Event → Bool
  | .POAGetCameraState _ => true
  | _ => false

/-- A facade with camera `cam` open and no worker. -/
def opened (cam : PlayerOneCamera) : CcdPlayerOne :=
  { CcdPlayerOne.ctor with pCamera := some cam }

/-- A camera whose exposure range is (1, 5_000_000, 1_000_000) and whose gain
range is (0, 500, 180). -/
def demoCamera : PlayerOneCamera :=
  { m_CamProp := { cameraID := 0, maxWidth := 4, maxHeight := 3 },
    m_Attrib :=
      [(.POA_EXPOSURE, { configID := .POA_EXPOSURE, valueType := .VAL_INT,
                         minValue := 1, maxValue := 5000000, defaultValue := 1000000 }),
       (.POA_GAIN, { configID := .POA_GAIN, valueType := .VAL_INT,
                     minValue := 0, maxValue := 500, defaultValue := 180 })] }

/-- A build with assertions compiled out. -/
def releaseBuild : Build :=
  { ndebug := true, debug := false }

/-- A build with assertions enabled. -/
def debugBuild : Build :=
  { ndebug := false, debug := true }

/-- Device answers for a start on a 4 × 3 sensor in `POA_RAW16`. -/
def demoStart : StartScript :=
  { stop := true, state := some (.terminal 1), imageSize := some (4, 3),
    imageFormat := some .POA_RAW16, exposure := some 1000000, gain := some 180, bin := some 1 }

/-- Device answers for a worker: the start succeeds, the state is
`STATE_EXPOSING` for the first `k` queries and terminal afterwards, the image is
ready and every read succeeds. -/
def exposingFor (k : Nat) : ExposureScript :=
  { start := true,
    state := fun i =>
      { result := some (if i < k then .STATE_EXPOSING else .terminal 1),
        indeterminate := .terminal 0 },
    ready := some true,
    read := fun _ _ => true,
    stop := true }

/-- The creation of a worker thread (`imageWaitingThread.swap(thread)`). -/
def Event.isSpawn : Event → Bool
  | .threadSwap _ => true
  | _ => false

/-- The return value and the trace of a call. -/
def observe (r : Except Halt (Bool × CcdPlayerOne)) : Except Halt (Bool × Trace) :=
  match r with
  | .error h => .error h
  | .ok a => .ok (a.1, a.2.log)

/-- The facade right after a successful `StartExposure` with `demoStart` from
a state `s` with an open camera and no worker: 4 * 3 * 2 = 24 bytes, a fresh
worker, the flag cleared. -/
def startedFrom (s : CcdPlayerOne) (e : ExposureScript) : CcdPlayerOne :=
  { s with
    m_nCurrentBufferSize := 24,
    imageWaitingThread := some (CcdPlayerOne.newWorker 4 3 e),
    bAbortBulb := false,
    log := s.log ++
      [(.caller, .POAStopExposure true),
       (.caller, .POAGetCameraState (some (.terminal 1))),
       (.caller, .POAGetImageSize (some (4, 3))),
       (.caller, .POAGetImageFormat (some .POA_RAW16)),
       (.caller, .POAGetConfig .POA_EXPOSURE (some 1000000)),
       (.caller, .POAGetConfig .POA_GAIN (some 180)),
       (.caller, .POAGetImageBin (some 1)),
       (.caller, .threadSwap false)] }

/-- The opened `demoCamera` after `SetExposure(1000000)` succeeded at once. -/
def demoConfigured : CcdPlayerOne :=
  ((opened demoCamera).SetExposure 1000000 true true).2

/-- The worker events a run from `s0` to `s` added to the trace. -/
def attemptEvents (s0 s : CcdPlayerOne) : List Event :=
  workerEvents (s.log.drop s0.log.length)

/-- What the calling thread can do on the open device while a worker is
alive without waiting for it: the write `bAbortBulb = true` of `AbortExposure`,
the direct `StopExposure` of `EndExposure`, a complete `SetExposure`,
`GetExposure`, `GetGain` or `GetQuality`; `worker` is one step of the worker. -/
inductive Move
  | worker
  | abortFlag
  | stop (ok : Bool)
  | setExposure (v : Int) (first retry : Bool)
  | getExposure (r : Option Int)
  | getGain (r : Option Int)
  | getQuality (r : Option Int)

/-- Effect of one move. -/
def move (m : Move) (s : CcdPlayerOne) : CcdPlayerOne :=
  match m with
  | .worker => workerStep s
  | .abortFlag => { s with bAbortBulb := true }
  | .stop ok =>
    match s.pCamera with
    | none => s
    | some _ => s.record .caller (PlayerOneCamera.StopExposure ok).1
  | .setExposure v first retry => (s.SetExposure v first retry).2
  | .getExposure r => (s.GetExposure r).2
  | .getGain r => (s.GetGain r).2
  | .getQuality r => (s.GetQuality r).2

/-- Effect of a list of moves, in order. -/
def run : List Move → CcdPlayerOne → CcdPlayerOne
  | [], s => s
  | m :: ms, s => run ms (move m s)

/-- The number of worker steps in a list of moves. -/
def workerMoves : List Move → Nat
  | [] => 0
  | .worker :: ms => workerMoves ms + 1
  | _ :: ms => workerMoves ms

/-- The worker events of `k` polling ticks on which the device reports
`STATE_EXPOSING`. -/
def exposingTicks : Nat → List Event
  | 0 => []
  | k + 1 => [.sleep 100, .POAGetCameraState (some .STATE_EXPOSING)] ++ exposingTicks k

/-- Tag events as produced by the worker. -/
def byWorker (es : List Event) : Trace :=
  es.map fun e => (Origin.worker, e)

/-- Tag events as produced by the calling thread. -/
def byCaller (es : List Event) : Trace :=
  es.map fun e => (Origin.caller, e)

/-- No Qt signal among the events. -/
def noNotification (W : List Event) : Prop :=
  W.filter Event.isNotification = []

/-- What the worker events `W` of one attempt look like, by program point of
the worker: no signal before the last step; a successful image read right
before `imageReady`; a stop command right before `aborted`. -/
def Shape (s : CcdPlayerOne) (W : List Event) : Prop :=
  match s.imageWaitingThread with
  | none => False
  | some w =>
    match w.pc with
    | .assign => noNotification W ∧ w.result.isSome = true
    | .alloc => noNotification W ∧ Event.POAImageReady (some true) ∈ W
    | .read => noNotification W ∧ Event.POAImageReady (some true) ∈ W
    | .emit =>
      noNotification W ∧
      ∃ W0 t, W = W0 ++ [.POAGetImageData w.bufLen t true] ∧ Event.POAImageReady (some true) ∈ W0
    | .abortEmit => noNotification W ∧ ∃ W0 r, W = W0 ++ [.POAStopExposure r]
    | .done =>
      (∃ W0 len t, W = W0 ++ [.POAGetImageData len t true, .imageReady w.nWidth w.nHeight len] ∧
        noNotification W0 ∧ Event.POAImageReady (some true) ∈ W0) ∨
      (∃ W0 r, W = W0 ++ [.POAStopExposure r, .aborted] ∧ noNotification W0)
    | _ => noNotification W

/-- The states of an attempt in which the abort flag is set, a device is
open and the worker has not yet passed its test of the flag after the loop
(or is already aborting), with the worker events `W` so far. -/
def Doomed (s : CcdPlayerOne) (W : List Event) : Prop :=
  s.bAbortBulb = true ∧ s.pCamera.isSome = true ∧
  match s.imageWaitingThread with
  | none => False
  | some w =>
    match w.pc with
    | .start => noNotification W
    | .sleep => noNotification W
    | .check => noNotification W
    | .query => noNotification W
    | .assign => noNotification W ∧ w.result.isSome = true
    | .afterLoop => noNotification W
    | .abortStop => noNotification W
    | .abortEmit => noNotification W ∧ ∃ W0 r, W = W0 ++ [.POAStopExposure r]
    | .done => ∃ W0 r, W = W0 ++ [.POAStopExposure r, .aborted] ∧ noNotification W0
    | _ => False

/-- An upper bound on the worker steps left once the flag is set before the
test after the loop. -/
def abortSteps : Pc → Nat
  | .query => 8
  | .assign => 7
  | .start => 7
  | .sleep => 6
  | .check => 5
  | .afterLoop => 4
  | .abortStop => 2
  | .abortEmit => 1
  | _ => 0

/-- An upper bound on the worker steps left after the polling loop. -/
def finishSteps : Pc → Nat
  | .afterLoop => 6
  | .ready => 5
  | .alloc => 4
  | .read => 3
  | .emit => 1
  | .abortStop => 2
  | .abortEmit => 1
  | _ => 0

/-- The program points after the polling loop. -/
def Pc.pastLoop : Pc → Bool
  | .afterLoop => true
  | .ready => true
  | .alloc => true
  | .read => true
  | .emit => true
  | .abortStop => true
  | .abortEmit => true
  | .done => true
  | _ => false

/-- The program points at which the worker has yet to test the flag after
the loop. -/
def Pc.beforeTest : Pc → Bool
  | .start => true
  | .sleep => true
  | .check => true
  | .query => true
  | .assign => true
  | .afterLoop => true
  | _ => false

/-- The trace of a schedule that ran to its end. -/
def traceOf (r : Except Halt CcdPlayerOne) : Except Halt Trace :=
  match r with
  | .error h => .error h
  | .ok s => .ok s.log

/-- The bound `abortSteps` at the worker of a state. -/
def abortLeft (s : CcdPlayerOne) : Nat :=
  match s.imageWaitingThread with
  | none => 0
  | some w => abortSteps w.pc

/-- The bound `finishSteps` at the worker of a state. -/
def finishLeft (s : CcdPlayerOne) : Nat :=
  match s.imageWaitingThread with
  | none => 0
  | some w => finishSteps w.pc

/-- The states of an attempt after the polling loop in which the worker
will finish: a device is open and the buffer size is not negative. -/
def Finishing (s : CcdPlayerOne) : Prop :=
  s.pCamera.isSome = true ∧ 0 ≤ s.m_nCurrentBufferSize ∧
  match s.imageWaitingThread with
  | none => False
  | some w => w.pc.pastLoop = true

/-- The worker has left the polling loop. -/
def loopEnded (s : CcdPlayerOne) : Bool :=
  match workerPc s with
  | some pc => pc.pastLoop
  | none => false

/-- The worker has yet to test the flag after the loop. -/
def beforeTest (s : CcdPlayerOne) : Bool :=
  match workerPc s with
  | some pc => pc.beforeTest
  | none => false

/-- Device answers for a start on a sensor that reports the geometry -1 × 1. -/
def negativeStart : StartScript :=
  { demoStart with imageSize := some (-1, 1) }

/-- The facade right after `StartExposure` with `negativeStart` on the opened
`demoCamera`: the buffer size is -1 * 1 * 2 = -2. -/
def negativeStarted : CcdPlayerOne :=
  { pCamera := some demoCamera,
    m_nCurrentExposureCache := 0,
    m_nCurrentBufferSize := -2,
    imageWaitingThread := some (CcdPlayerOne.newWorker (-1) 1 (exposingFor 0)),
    bAbortBulb := false,
    log :=
      [(.caller, .POAStopExposure true),
       (.caller, .POAGetCameraState (some (.terminal 1))),
       (.caller, .POAGetImageSize (some (-1, 1))),
       (.caller, .POAGetImageFormat (some .POA_RAW16)),
       (.caller, .POAGetConfig .POA_EXPOSURE (some 1000000)),
       (.caller, .POAGetConfig .POA_GAIN (some 180)),
       (.caller, .POAGetImageBin (some 1)),
       (.caller, .threadSwap false)] }

/-- A schedule in which `AbortExposure` is called after the worker has passed
its test of the flag behind the loop: `SetExposure(1000000)`, `StartExposure`,
six worker steps (start, sleep, flag test, state query, assignment, flag test
after the loop), then `AbortExposure`, whose join lets the worker finish. -/
def lateAbort : List Action :=
  [.SetExposure 1000000 true true, .StartExposure 0 demoStart (exposingFor 0),
   .worker, .worker, .worker, .worker, .worker, .worker,
   .AbortExposure 0 4 true]

/-- Device answers for a worker whose first state query fails, the read of
the empty optional yielding `STATE_EXPOSING`. -/
def failingQuery : ExposureScript :=
  { exposingFor 0 with
    state := fun _ => { result := none, indeterminate := .STATE_EXPOSING } }

/-- Device answers for a worker whose ready check reports false. -/
def notReady : ExposureScript :=
  { exposingFor 0 with ready := some false }

/-- A write of the exposure that the device accepted. -/
def Event.isExposureSet : Event → Bool
  | .POASetConfig .POA_EXPOSURE _ true => true
  | _ => false

/-- A swap that replaces (and so destroys) a joinable thread object. -/
def Event.isBadSwap : Event → Bool
  | .threadSwap true => true
  | _ => false

/-- Trace entries that neither record an accepted exposure write of the
calling thread nor a swap that replaces a joinable thread. -/
def Benign (x : Origin × Event) : Prop :=
  x.1 = .worker ∨ (x.2.isExposureSet = false ∧ x.2.isBadSwap = false)

/-- The exposure the device accepted last from the calling thread, according
to the trace; `init` when there is none. -/
def lastExposureFrom (init : Int) (t : Trace) : Int :=
  t.foldl (fun acc x =>
    match x with
    | (.caller, .POASetConfig .POA_EXPOSURE v true) => v
    | _ => acc) init

/-- The argument of the most recent `SetExposure` that returned true, read off
the trace: the last accepted exposure write, or 0. -/
def lastExposure (t : Trace) : Int :=
  lastExposureFrom 0 t

/-- The device open and init commands. -/
def Event.isOpenOrInit : Event → Bool
  | .POAOpenCamera _ _ => true
  | .POAInitCamera _ _ => true
  | _ => false

/-- The device close command. -/
def Event.isClose : Event → Bool
  | .POACloseCamera _ => true
  | _ => false

/-- SDK calls (everything but sleeps, thread operations and signals). -/
def Event.isDeviceCall : Event → Bool
  | .sleep _ => false
  | .threadSwap _ => false
  | .threadJoin => false
  | .imageReady _ _ _ => false
  | .aborted => false
  | _ => true

/-- An upper bound on the worker steps left once the flag is set, from any
program point, as long as a device is open. -/
def flaggedSteps : Pc → Nat
  | .query => 7
  | .start => 6
  | .assign => 6
  | .sleep => 5
  | .ready => 5
  | .check => 4
  | .alloc => 4
  | .afterLoop => 3
  | .read => 3
  | .abortStop => 2
  | .emit => 1
  | .abortEmit => 1
  | .done => 0
  | .crashed => 0

/-- The bound `flaggedSteps` at the worker of a state. -/
def flaggedLeft (s : CcdPlayerOne) : Nat :=
  match s.imageWaitingThread with
  | none => 0
  | some w => flaggedSteps w.pc

/-- Device answers for an `Open` of camera 0 of one: two integer attributes,
exposure and gain. -/
def demoOpen : OpenScript :=
  { listCount := 1,
    listProps := fun _ => true,
    count := 1,
    props := some { cameraID := 0, maxWidth := 4, maxHeight := 3 },
    openOk := true,
    initOk := true,
    configsCount := some 2,
    attributes := fun i =>
      if i = 0 then
        some { configID := .POA_EXPOSURE, valueType := .VAL_INT,
               minValue := 1, maxValue := 5000000, defaultValue := 1000000 }
      else
        some { configID := .POA_GAIN, valueType := .VAL_INT,
               minValue := 0, maxValue := 500, defaultValue := 180 } }

/-- The opened `demoCamera` after `Close`. -/
def closedDemo : CcdPlayerOne :=
  { pCamera := none, m_nCurrentExposureCache := 0, m_nCurrentBufferSize := 0,
    imageWaitingThread := none, bAbortBulb := true,
    log := [(.caller, .POACloseCamera 0)] }

/-- The facade after `Open(0)` with the answers `demoOpen`. -/
def demoOpened : CcdPlayerOne :=
  (CcdPlayerOne.ctor.Open 0 demoOpen).2

/-- A first exposure on `demoOpened`, just started. -/
def firstStarted : CcdPlayerOne :=
  startedFrom demoOpened (exposingFor 0)

/-- The first exposure after its worker ran to the end (ten steps) and was
joined. -/
def firstJoined : CcdPlayerOne :=
  { workerSteps 10 firstStarted with
    imageWaitingThread := none,
    log := (workerSteps 10 firstStarted).log ++ [(.caller, .threadJoin)] }

/-- A second exposure, started while the thread of the first was joinable. -/
def secondStarted : CcdPlayerOne :=
  startedFrom firstJoined (exposingFor 0)

/-- `demoOpened` after `SetExposure(1000000)`, a start and eight worker steps:
the worker is at the image read. -/
def atRead : CcdPlayerOne :=
  workerSteps 8 (startedFrom (demoOpened.SetExposure 1000000 true true).2 (exposingFor 0))

/-- The opened `demoCamera` after `SetExposure(2147483148000)` succeeded: an
exposure of about 24.9 days, within the range of a 64-bit `long`. -/
def longExposure : CcdPlayerOne :=
  ((opened demoCamera).SetExposure 2147483148000 true true).2

/-- The join of the worker thread. -/
def Event.isJoin : Event → Bool
  | .threadJoin => true
  | _ => false

/-- Workers created minus workers joined, according to a trace. -/
def threadBalance (t : Trace) : Int :=
  (((callerEvents t).filter Event.isSpawn).length : Int) -
    (((callerEvents t).filter Event.isJoin).length : Int)

/-- One when the thread object of the facade is joinable, else zero. -/
def joinableCount (s : CcdPlayerOne) : Int :=
  if s.imageWaitingThread.isSome then 1 else 0

/-- Device answers for a start on a sensor that reports the geometry
65536 × 65536 in `POA_RAW8`. -/
def wideStart : StartScript :=
  { demoStart with imageSize := some (65536, 65536), imageFormat := some .POA_RAW8 }

/-- The facade right after `StartExposure` with `wideStart` on `demoConfigured`:
the product 65536 * 65536 * 1 computed in `int` arithmetic is 0. -/
def wideStarted : CcdPlayerOne :=
  { demoConfigured with
    m_nCurrentBufferSize := 0,
    imageWaitingThread := some (CcdPlayerOne.newWorker 65536 65536 (exposingFor 2)),
    bAbortBulb := false,
    log := demoConfigured.log ++
      [(.caller, .POAStopExposure true),
       (.caller, .POAGetCameraState (some (.terminal 1))),
       (.caller, .POAGetImageSize (some (65536, 65536))),
       (.caller, .POAGetImageFormat (some .POA_RAW8)),
       (.caller, .POAGetConfig .POA_EXPOSURE (some 1000000)),
       (.caller, .POAGetConfig .POA_GAIN (some 180)),
       (.caller, .POAGetImageBin (some 1)),
       (.caller, .threadSwap false)] }

/-- Device answers for a start on a sensor that reports the geometry
32768 × 65536 in `POA_RAW8`. -/
def halfStart : StartScript :=
  { demoStart with imageSize := some (32768, 65536), imageFormat := some .POA_RAW8 }

/-- The facade right after `StartExposure` with `halfStart` on `demoConfigured`:
the product 32768 * 65536 * 1 computed in `int` arithmetic is -2147483648. -/
def halfStarted : CcdPlayerOne :=
  { demoConfigured with
    m_nCurrentBufferSize := -2147483648,
    imageWaitingThread := some (CcdPlayerOne.newWorker 32768 65536 (exposingFor 2)),
    bAbortBulb := false,
    log := demoConfigured.log ++
      [(.caller, .POAStopExposure true),
       (.caller, .POAGetCameraState (some (.terminal 1))),
       (.caller, .POAGetImageSize (some (32768, 65536))),
       (.caller, .POAGetImageFormat (some .POA_RAW8)),
       (.caller, .POAGetConfig .POA_EXPOSURE (some 1000000)),
       (.caller, .POAGetConfig .POA_GAIN (some 180)),
       (.caller, .POAGetImageBin (some 1)),
       (.caller, .threadSwap false)] }

/-- The statements of `StartExposure` between the test of `pCamera` and
`bAbortBulb = false` (lines 462-471): the join of the previous worker,
`AbortExposure()` and the state query. -/
def CcdPlayerOne.StartExposureHead (wait : Nat) (d : StartScript) (s : CcdPlayerOne) :
    Except Halt CcdPlayerOne :=
  match joinIfJoinable wait s with
  | .error h => .error h
  | .ok s1 =>
    match CcdPlayerOne.AbortExposure 0 0 d.stop s1 with
    | .error h => .error h
    | .ok a => .ok (a.2.record .caller (PlayerOneCamera.GetCameraState d.state).1)

/-- The statements of `StartExposure` that follow `bAbortBulb = false`
(lines 474-547): the queries, the buffer size, the creation of the worker.
None of them reads or writes `bAbortBulb`. -/
def CcdPlayerOne.StartExposureTail (b : Build) (d : StartScript) (e : ExposureScript)
    (s3 : CcdPlayerOne) : Except Halt (Bool × CcdPlayerOne) :=
  let s4 := s3.record .caller (PlayerOneCamera.GetImageSize d.imageSize).1
  match (PlayerOneCamera.GetImageSize d.imageSize).2 with
  | none => .ok (false, s4)
  | some imageSize =>
    let s5 := s4.record .caller (PlayerOneCamera.GetImageFormat d.imageFormat).1
    match (PlayerOneCamera.GetImageFormat d.imageFormat).2 with
    | none => .ok (false, s5)
    | some fmt =>
      match PlayerOneImgFormatSize b fmt with
      | none => .error .terminated
      | some size =>
        let optExposureTime := CcdPlayerOne.GetExposure d.exposure s5
        let optGain := CcdPlayerOne.GetGain d.gain optExposureTime.2
        let optQuality := CcdPlayerOne.GetQuality d.bin optGain.2
        if optExposureTime.1.isNone ∨ optGain.1.isNone ∨ optQuality.1.isNone then
          .ok (false, optQuality.2)
        else
          let s6 := { optQuality.2 with
            m_nCurrentBufferSize := mulInt32 (mulInt32 imageSize.1 imageSize.2) size.2 }
          .ok (true,
            { s6.record .caller [.threadSwap s6.imageWaitingThread.isSome] with
              imageWaitingThread := some (CcdPlayerOne.newWorker imageSize.1 imageSize.2 e) })

/-- An `AbortExposure` that a second thread issues while `StartExposure` is
running and has not yet executed `bAbortBulb = false`: on `demoConfigured`, the
statements of `StartExposure` up to the state query, then the complete
`AbortExposure` (no thread is joinable yet, so it returns at once), then
`bAbortBulb = false` and the rest of `StartExposure`, then ten worker steps. -/
def earlyAbort : Except Halt (Bool × CcdPlayerOne) :=
  match demoConfigured.StartExposureHead 0 demoStart with
  | .error h => .error h
  | .ok s2 =>
    match s2.AbortExposure 0 0 true with
    | .error h => .error h
    | .ok a =>
      match CcdPlayerOne.StartExposureTail releaseBuild demoStart (exposingFor 0)
          { a.2 with bAbortBulb := false } with
      | .error h => .error h
      | .ok r => .ok (r.1, workerSteps 10 r.2)

/-- An `AbortExposure` that a second thread issues while `StartExposure` is
running, after `bAbortBulb = false`: the state in which the rest of
`StartExposure` then runs on `demoConfigured`. -/
def abortedInStart : CcdPlayerOne :=
  { demoConfigured with
    bAbortBulb := true,
    log := demoConfigured.log ++
      [(.caller, .POAStopExposure true),
       (.caller, .POAGetCameraState (some (.terminal 1))),
       (.caller, .POAStopExposure true)] }

/-- The state in which the join of `AbortExposure` begins: the flag set, the
worker `between` steps further, the stop command of the calling thread sent. -/
def abortStopped (between : Nat) (stop : Bool) (s : CcdPlayerOne) : CcdPlayerOne :=
  (workerSteps between { s with bAbortBulb := true }).record .caller
    (PlayerOneCamera.StopExposure stop).1

/-- The facade after the statements of `StartExposure` that follow
`bAbortBulb = false` ran from `abortedInStart` with `demoStart`: a fresh worker,
the flag still set. -/
def startedAborted : CcdPlayerOne :=
  { abortedInStart with
    m_nCurrentBufferSize := 24,
    imageWaitingThread := some (CcdPlayerOne.newWorker 4 3 (exposingFor 5)),
    log := abortedInStart.log ++
      [(.caller, .POAGetImageSize (some (4, 3))),
       (.caller, .POAGetImageFormat (some .POA_RAW16)),
       (.caller, .POAGetConfig .POA_EXPOSURE (some 1000000)),
       (.caller, .POAGetConfig .POA_GAIN (some 180)),
       (.caller, .POAGetImageBin (some 1)),
       (.caller, .threadSwap false)] }

/-! ## Theorems -/

section frame

theorem workerStep_pCamera (s : CcdPlayerOne) : (workerStep s).pCamera = s.pCamera := by
  unfold workerStep
  repeat' split
  all_goals simp [CcdPlayerOne.record, CcdPlayerOne.setWorker]

theorem workerStep_cache (s : CcdPlayerOne) :
    (workerStep s).m_nCurrentExposureCache = s.m_nCurrentExposureCache := by
  unfold workerStep
  repeat' split
  all_goals simp [CcdPlayerOne.record, CcdPlayerOne.setWorker]

theorem workerStep_bufferSize (s : CcdPlayerOne) :
    (workerStep s).m_nCurrentBufferSize = s.m_nCurrentBufferSize := by
  unfold workerStep
  repeat' split
  all_goals simp [CcdPlayerOne.record, CcdPlayerOne.setWorker]

theorem workerSteps_pCamera (n : Nat) (s : CcdPlayerOne) :
    (workerSteps n s).pCamera = s.pCamera := by
  induction n generalizing s with
  | zero => rfl
  | succ n ih => simp [workerSteps, ih, workerStep_pCamera]

theorem workerSteps_cache (n : Nat) (s : CcdPlayerOne) :
    (workerSteps n s).m_nCurrentExposureCache = s.m_nCurrentExposureCache := by
  induction n generalizing s with
  | zero => rfl
  | succ n ih => simp [workerSteps, ih, workerStep_cache]

theorem workerSteps_bufferSize (n : Nat) (s : CcdPlayerOne) :
    (workerSteps n s).m_nCurrentBufferSize = s.m_nCurrentBufferSize := by
  induction n generalizing s with
  | zero => rfl
  | succ n ih => simp [workerSteps, ih, workerStep_bufferSize]

end frame

section traces

theorem callerEvents_append (a b : Trace) :
    callerEvents (a ++ b) = callerEvents a ++ callerEvents b := by
  simp [callerEvents]

theorem workerEvents_append (a b : Trace) :
    workerEvents (a ++ b) = workerEvents a ++ workerEvents b := by
  simp [workerEvents]

theorem callerEvents_caller (es : List Event) :
    callerEvents (es.map fun e => (Origin.caller, e)) = es := by
  induction es with
  | nil => rfl
  | cons e es ih => simp [callerEvents] at ih ⊢; try exact ih

theorem callerEvents_worker (es : List Event) :
    callerEvents (es.map fun e => (Origin.worker, e)) = [] := by
  induction es with
  | nil => rfl
  | cons e es ih => simp [callerEvents] at ih ⊢; try exact ih

theorem workerEvents_worker (es : List Event) :
    workerEvents (es.map fun e => (Origin.worker, e)) = es := by
  induction es with
  | nil => rfl
  | cons e es ih => simp [workerEvents] at ih ⊢; try exact ih

theorem workerEvents_caller (es : List Event) :
    workerEvents (es.map fun e => (Origin.caller, e)) = [] := by
  induction es with
  | nil => rfl
  | cons e es ih => simp [workerEvents] at ih ⊢; try exact ih

/-- Every worker step appends worker events only. -/
theorem workerStep_log (s : CcdPlayerOne) :
    ∃ es : List Event, (workerStep s).log = s.log ++ es.map fun e => (Origin.worker, e) := by
  unfold workerStep
  repeat' split
  all_goals first
    | exact ⟨_, rfl⟩
    | exact ⟨[], by simp [CcdPlayerOne.record, CcdPlayerOne.setWorker]⟩

theorem workerSteps_log (n : Nat) (s : CcdPlayerOne) :
    ∃ es : List Event, (workerSteps n s).log = s.log ++ es.map fun e => (Origin.worker, e) := by
  induction n generalizing s with
  | zero => exact ⟨[], by simp [workerSteps]⟩
  | succ n ih =>
    obtain ⟨e1, h1⟩ := workerStep_log s
    obtain ⟨e2, h2⟩ := ih (workerStep s)
    exact ⟨e1 ++ e2, by simp [workerSteps, h2, h1]⟩

end traces

section joining

theorem workerStep_noThread (s : CcdPlayerOne) (h : s.imageWaitingThread = none) :
    workerStep s = s := by
  simp [workerStep, h]

theorem workerSteps_noThread (n : Nat) (s : CcdPlayerOne) (h : s.imageWaitingThread = none) :
    workerSteps n s = s := by
  induction n with
  | zero => rfl
  | succ n ih => simp [workerSteps, workerStep_noThread s h, ih]

theorem joinIfJoinable_noThread (wait : Nat) (s : CcdPlayerOne)
    (h : s.imageWaitingThread = none) : joinIfJoinable wait s = .ok s := by
  simp [joinIfJoinable, h]

/-- What a join that returns leaves behind: no joinable thread, the worker finished,
and only worker events plus the join itself were added to the trace. -/
theorem joinIfJoinable_ok {wait : Nat} {s s1 : CcdPlayerOne}
    (h : joinIfJoinable wait s = .ok s1) :
    s1.pCamera = s.pCamera ∧
    s1.m_nCurrentExposureCache = s.m_nCurrentExposureCache ∧
    s1.m_nCurrentBufferSize = s.m_nCurrentBufferSize ∧
    s1.imageWaitingThread = none ∧
    ∃ t, s1.log = s.log ++ t ∧
      callerEvents t = (if s.imageWaitingThread.isSome then [Event.threadJoin] else []) := by
  unfold joinIfJoinable at h
  split at h
  · rename_i hn
    cases h
    exact ⟨rfl, rfl, rfl, hn, [], by simp [hn, callerEvents]⟩
  · rename_i w hw
    simp only at h
    split at h
    · rename_i hd
      cases h
      obtain ⟨es, hes⟩ := workerSteps_log wait s
      refine ⟨?_, ?_, ?_, rfl, ?_⟩
      · simp [CcdPlayerOne.record, workerSteps_pCamera]
      · simp [CcdPlayerOne.record, workerSteps_cache]
      · simp [CcdPlayerOne.record, workerSteps_bufferSize]
      · refine ⟨(es.map fun e => (Origin.worker, e)) ++ [(Origin.caller, Event.threadJoin)], ?_, ?_⟩
        · simp [CcdPlayerOne.record, hes]
        · rw [callerEvents_append, callerEvents_worker]
          simp [hw, callerEvents]
    · cases h
    · cases h

end joining

section simple

/-- C1: `PlayerOneImgFormatSize` maps RAW8 and MONO8 to (8, 1), RAW16 to (16, 2) and
RGB24 to (24, 3) in every build, so that bits = 8 * bytes for these four; with
assertions compiled out (`NDEBUG`) it returns a value for every format, and
that value is the fallback (1, 1), one byte per pixel, for `POA_END` and for
every unrecognised value. -/
theorem C1_format_size (b : Build) (dbg : Bool) (raw : Int) (fmt : POAImgFormat) :
    PlayerOneImgFormatSize b .POA_RAW8 = some (8, 1) ∧
    PlayerOneImgFormatSize b .POA_MONO8 = some (8, 1) ∧
    PlayerOneImgFormatSize b .POA_RAW16 = some (16, 2) ∧
    PlayerOneImgFormatSize b .POA_RGB24 = some (24, 3) ∧
    (PlayerOneImgFormatSize b .POA_RAW8).map (fun p => p.1 - 8 * p.2) = some 0 ∧
    (PlayerOneImgFormatSize b .POA_MONO8).map (fun p => p.1 - 8 * p.2) = some 0 ∧
    (PlayerOneImgFormatSize b .POA_RAW16).map (fun p => p.1 - 8 * p.2) = some 0 ∧
    (PlayerOneImgFormatSize b .POA_RGB24).map (fun p => p.1 - 8 * p.2) = some 0 ∧
    (PlayerOneImgFormatSize { ndebug := true, debug := dbg } fmt).isSome = true ∧
    PlayerOneImgFormatSize { ndebug := true, debug := dbg } .POA_END = some (1, 1) ∧
    PlayerOneImgFormatSize { ndebug := true, debug := dbg } (.unrecognised raw) = some (1, 1) := by
  refine ⟨rfl, rfl, rfl, rfl, rfl, rfl, rfl, rfl, ?_, ?_, ?_⟩
  · cases fmt <;> simp [PlayerOneImgFormatSize, PlayerOneImgFormatSize.fallback]
  · simp [PlayerOneImgFormatSize, PlayerOneImgFormatSize.fallback]
  · simp [PlayerOneImgFormatSize, PlayerOneImgFormatSize.fallback]

theorem SetExposure_open (s : CcdPlayerOne) (v : Int) (first retry : Bool)
    (h : s.pCamera.isSome = true) :
    (s.SetExposure v first retry).1 = (first || retry) ∧
    (s.SetExposure v first retry).2.log = s.log ++
      byCaller ([Event.POASetConfig .POA_EXPOSURE v first] ++
        (if first then [] else [Event.sleep 100, Event.POASetConfig .POA_EXPOSURE v retry])) ∧
    (s.SetExposure v first retry).2.m_nCurrentExposureCache =
      (if first || retry then v else s.m_nCurrentExposureCache) := by
  obtain ⟨cam, hc⟩ := Option.isSome_iff_exists.1 h
  cases first <;> cases retry <;>
    simp [CcdPlayerOne.SetExposure, hc, PlayerOneCamera.SetExposure,
      PlayerOneCamera.SetIntConfig, CcdPlayerOne.record, byCaller]

/-- C7: `SetExposure v` on an open device writes `v` to the device once, and a
second time (after a 100 ms sleep) exactly when the first write failed; it
returns true iff the first write or the retry succeeded; the cached exposure
becomes `v` when it returns true and is unchanged otherwise; with no device
open it returns false and changes nothing. -/
theorem C7_SetExposure_retry (s : CcdPlayerOne) (v : Int) (first retry : Bool) :
    (s.pCamera.isSome = true →
      (s.SetExposure v first retry).1 = (first || retry) ∧
      (s.SetExposure v first retry).2.log = s.log ++
        byCaller ([Event.POASetConfig .POA_EXPOSURE v first] ++
          (if first then [] else [Event.sleep 100, Event.POASetConfig .POA_EXPOSURE v retry])) ∧
      (s.SetExposure v first retry).2.m_nCurrentExposureCache =
        (if first || retry then v else s.m_nCurrentExposureCache)) ∧
    (s.pCamera = none → s.SetExposure v first retry = (false, s)) := by
  constructor
  · exact SetExposure_open s v first retry
  · intro h
    simp [CcdPlayerOne.SetExposure, h]

/-- C7 at an input: the first write fails, the retry succeeds. -/
theorem C7_SetExposure_retry_witness :
    ((opened demoCamera).SetExposure 1000000 false true).1 = true ∧
    ((opened demoCamera).SetExposure 1000000 false true).2.log =
      [(Origin.caller, Event.POASetConfig .POA_EXPOSURE 1000000 false),
       (Origin.caller, Event.sleep 100),
       (Origin.caller, Event.POASetConfig .POA_EXPOSURE 1000000 true)] ∧
    ((opened demoCamera).SetExposure 1000000 false true).2.m_nCurrentExposureCache = 1000000 := by
  have h := (C7_SetExposure_retry (opened demoCamera) 1000000 false true).1 rfl
  simpa [opened, CcdPlayerOne.ctor, byCaller] using h

end simple

section starting

theorem AbortExposure_noThread (between wait : Nat) (stop : Bool) (s : CcdPlayerOne)
    (cam : PlayerOneCamera) (hc : s.pCamera = some cam) (hn : s.imageWaitingThread = none) :
    s.AbortExposure between wait stop =
      .ok (true, { s with bAbortBulb := true,
                          log := s.log ++ [(Origin.caller, Event.POAStopExposure stop)] }) := by
  have h1 : ({ s with bAbortBulb := true } : CcdPlayerOne).imageWaitingThread = none := hn
  unfold CcdPlayerOne.AbortExposure
  rw [workerSteps_noThread _ _ h1]
  simp [CcdPlayerOne.EndExposure, hc, joinIfJoinable, CcdPlayerOne.record, hn,
    PlayerOneCamera.StopExposure]

/-- The state in which `StartExposure` begins its queries: the previous worker
joined, the stop of `AbortExposure` and the state query in the trace, the flag
cleared. -/
theorem StartExposure_unfold (b : Build) (wait : Nat) (d : StartScript) (e : ExposureScript)
    (s s1 : CcdPlayerOne) (cam : PlayerOneCamera) (hc : s.pCamera = some cam)
    (hj : joinIfJoinable wait s = .ok s1) :
    s.StartExposure b wait d e =
      (match d.imageSize with
       | none => .ok (false, { s1 with bAbortBulb := false, log := s1.log ++
            [(Origin.caller, Event.POAStopExposure d.stop),
             (Origin.caller, Event.POAGetCameraState d.state),
             (Origin.caller, Event.POAGetImageSize none)] })
       | some imageSize =>
         match d.imageFormat with
         | none => .ok (false, { s1 with bAbortBulb := false, log := s1.log ++
            [(Origin.caller, Event.POAStopExposure d.stop),
             (Origin.caller, Event.POAGetCameraState d.state),
             (Origin.caller, Event.POAGetImageSize (some imageSize)),
             (Origin.caller, Event.POAGetImageFormat none)] })
         | some fmt =>
           match PlayerOneImgFormatSize b fmt with
           | none => .error .terminated
           | some size =>
             if d.exposure = none ∨ d.gain = none ∨ d.bin = none then
               .ok (false, { s1 with bAbortBulb := false, log := s1.log ++
                [(Origin.caller, Event.POAStopExposure d.stop),
                 (Origin.caller, Event.POAGetCameraState d.state),
                 (Origin.caller, Event.POAGetImageSize (some imageSize)),
                 (Origin.caller, Event.POAGetImageFormat (some fmt)),
                 (Origin.caller, Event.POAGetConfig .POA_EXPOSURE d.exposure),
                 (Origin.caller, Event.POAGetConfig .POA_GAIN d.gain),
                 (Origin.caller, Event.POAGetImageBin d.bin)] })
             else
               .ok (true, { s1 with
                bAbortBulb := false,
                m_nCurrentBufferSize := mulInt32 (mulInt32 imageSize.1 imageSize.2) size.2,
                imageWaitingThread := some (CcdPlayerOne.newWorker imageSize.1 imageSize.2 e),
                log := s1.log ++
                [(Origin.caller, Event.POAStopExposure d.stop),
                 (Origin.caller, Event.POAGetCameraState d.state),
                 (Origin.caller, Event.POAGetImageSize (some imageSize)),
                 (Origin.caller, Event.POAGetImageFormat (some fmt)),
                 (Origin.caller, Event.POAGetConfig .POA_EXPOSURE d.exposure),
                 (Origin.caller, Event.POAGetConfig .POA_GAIN d.gain),
                 (Origin.caller, Event.POAGetImageBin d.bin),
                 (Origin.caller, Event.threadSwap false)] })) := by
  obtain ⟨hp, -, -, hn, -⟩ := joinIfJoinable_ok hj
  have hc1 : s1.pCamera = some cam := hp.trans hc
  unfold CcdPlayerOne.StartExposure
  simp only [hc, hj, AbortExposure_noThread 0 0 d.stop s1 cam hc1 hn]
  cases hsz : d.imageSize with
  | none => simp [CcdPlayerOne.record, PlayerOneCamera.GetImageSize, PlayerOneCamera.GetCameraState]
  | some imageSize =>
    cases hf : d.imageFormat with
    | none =>
      simp [CcdPlayerOne.record, PlayerOneCamera.GetImageSize, PlayerOneCamera.GetCameraState,
        PlayerOneCamera.GetImageFormat]
    | some fmt =>
      cases hsize : PlayerOneImgFormatSize b fmt with
      | none =>
        simp [CcdPlayerOne.record, PlayerOneCamera.GetImageSize, PlayerOneCamera.GetCameraState,
          PlayerOneCamera.GetImageFormat, hsize]
      | some size =>
        by_cases hq : d.exposure = none ∨ d.gain = none ∨ d.bin = none
        · simp [CcdPlayerOne.record, PlayerOneCamera.GetImageSize, PlayerOneCamera.GetCameraState,
            PlayerOneCamera.GetImageFormat, hsize, CcdPlayerOne.GetExposure, CcdPlayerOne.GetGain,
            CcdPlayerOne.GetQuality, hc1, PlayerOneCamera.GetExposure, PlayerOneCamera.GetGain,
            PlayerOneCamera.GetImageBin, PlayerOneCamera.GetIntConfig, hq]
        · simp [CcdPlayerOne.record, PlayerOneCamera.GetImageSize, PlayerOneCamera.GetCameraState,
            PlayerOneCamera.GetImageFormat, hsize, CcdPlayerOne.GetExposure, CcdPlayerOne.GetGain,
            CcdPlayerOne.GetQuality, hc1, PlayerOneCamera.GetExposure, PlayerOneCamera.GetGain,
            PlayerOneCamera.GetImageBin, PlayerOneCamera.GetIntConfig, hq, hn]

end starting

section startingClaims

theorem wrapInt32_of_range (x : Int) (h1 : -2147483648 ≤ x) (h2 : x < 2147483648) :
    wrapInt32 x = x := by
  unfold wrapInt32
  omega

theorem StartExposure_join {b : Build} {wait : Nat} {d : StartScript} {e : ExposureScript}
    {s : CcdPlayerOne} {r : Bool × CcdPlayerOne} {cam : PlayerOneCamera}
    (hc : s.pCamera = some cam) (h : s.StartExposure b wait d e = .ok r) :
    ∃ s1, joinIfJoinable wait s = .ok s1 := by
  cases hj : joinIfJoinable wait s with
  | ok s1 => exact ⟨s1, rfl⟩
  | error x =>
    unfold CcdPlayerOne.StartExposure at h
    simp [hc, hj] at h

theorem demoStart_run (s : CcdPlayerOne) (e : ExposureScript) (cam : PlayerOneCamera)
    (hc : s.pCamera = some cam) (hn : s.imageWaitingThread = none) :
    s.StartExposure releaseBuild 0 demoStart e = .ok (true, startedFrom s e) := by
  rw [StartExposure_unfold releaseBuild 0 demoStart e s s cam hc (joinIfJoinable_noThread 0 s hn)]
  simp [demoStart, PlayerOneImgFormatSize, startedFrom, mulInt32, wrapInt32]

/-- C2: a `StartExposure` call that returns true read a geometry (w, h) and a
format from the device, and leaves `GetBufferSize()` equal to
w * h * bytesPerPixel(format) computed in `int` arithmetic; whenever the
products fit an `int` that is the exact product. -/
theorem C2_buffer_size (b : Build) (wait : Nat) (d : StartScript) (e : ExposureScript)
    (s s' : CcdPlayerOne) (h : s.StartExposure b wait d e = .ok (true, s')) :
    ∃ w h bits bytes fmt,
      d.imageSize = some (w, h) ∧ d.imageFormat = some fmt ∧
      PlayerOneImgFormatSize b fmt = some (bits, bytes) ∧
      s'.GetBufferSize = mulInt32 (mulInt32 w h) bytes ∧
      (-2147483648 ≤ w * h ∧ w * h < 2147483648 ∧
        -2147483648 ≤ w * h * bytes ∧ w * h * bytes < 2147483648 →
        s'.GetBufferSize = w * h * bytes) := by
  cases hc : s.pCamera with
  | none => simp [CcdPlayerOne.StartExposure, hc] at h
  | some cam =>
    obtain ⟨s1, hj⟩ := StartExposure_join hc h
    rw [StartExposure_unfold b wait d e s s1 cam hc hj] at h
    cases hsz : d.imageSize with
    | none => simp [hsz] at h
    | some imageSize =>
      cases hf : d.imageFormat with
      | none => simp [hsz, hf] at h
      | some fmt =>
        cases hsize : PlayerOneImgFormatSize b fmt with
        | none => simp [hsz, hf, hsize] at h
        | some size =>
          simp only [hsz, hf, hsize] at h
          split at h
          · simp at h
          · simp only [Except.ok.injEq, Prod.mk.injEq, true_and] at h
            subst h
            refine ⟨imageSize.1, imageSize.2, size.1, size.2, fmt, rfl, rfl, hsize, rfl, ?_⟩
            rintro ⟨h1, h2, h3, h4⟩
            simp only [CcdPlayerOne.GetBufferSize, mulInt32]
            rw [wrapInt32_of_range _ h1 h2, wrapInt32_of_range _ h3 h4]

/-- C2 at an input: a 4 × 3 sensor in RAW16 gives a buffer of 24 bytes. -/
theorem C2_buffer_size_witness :
    ∃ w h bits bytes fmt,
      demoStart.imageSize = some (w, h) ∧ demoStart.imageFormat = some fmt ∧
      PlayerOneImgFormatSize releaseBuild fmt = some (bits, bytes) ∧
      (startedFrom (opened demoCamera) (exposingFor 2)).GetBufferSize =
        mulInt32 (mulInt32 w h) bytes ∧
      (-2147483648 ≤ w * h ∧ w * h < 2147483648 ∧
        -2147483648 ≤ w * h * bytes ∧ w * h * bytes < 2147483648 →
        (startedFrom (opened demoCamera) (exposingFor 2)).GetBufferSize = w * h * bytes) :=
  C2_buffer_size releaseBuild 0 demoStart (exposingFor 2) (opened demoCamera)
    (startedFrom (opened demoCamera) (exposingFor 2))
    (demoStart_run (opened demoCamera) (exposingFor 2) demoCamera rfl rfl)

end startingClaims

section startOutcome

/-- C5 (as stated) fails: in a build with assertions enabled a device that
reports the sentinel format makes the call terminate the process, although
a device is open and every query succeeds; it returns neither true nor false. -/
theorem C5_counterexample :
    observe ((opened demoCamera).StartExposure debugBuild 0
      { demoStart with imageFormat := some .POA_END } (exposingFor 2)) = .error .terminated := by
  rw [StartExposure_unfold debugBuild 0 _ (exposingFor 2) (opened demoCamera) (opened demoCamera)
    demoCamera rfl rfl]
  simp [demoStart, PlayerOneImgFormatSize, debugBuild, observe]

/-- C5 (amended): for a call whose initial join returns and whose format lookup
cannot trip an assertion, `StartExposure` returns false, creates no worker,
issues no hardware start and emits no notification when no device is open
or one of the geometry, format, exposure, gain and binning queries fails;
in every other case it returns true and creates exactly one worker. -/
theorem C5_start_outcome (b : Build) (wait : Nat) (d : StartScript) (e : ExposureScript)
    (s s1 : CcdPlayerOne) (hj : joinIfJoinable wait s = .ok s1)
    (hassert : ∀ fmt, d.imageFormat = some fmt → (PlayerOneImgFormatSize b fmt).isSome = true) :
    ((s.pCamera = none ∨ d.imageSize = none ∨ d.imageFormat = none ∨
        d.exposure = none ∨ d.gain = none ∨ d.bin = none) →
      ∃ s' t, s.StartExposure b wait d e = .ok (false, s') ∧ s'.log = s.log ++ t ∧
        (∀ ev ∈ callerEvents t,
          ev.isStart = false ∧ ev.isNotification = false ∧ ev.isSpawn = false) ∧
        (s'.imageWaitingThread = none ∨ s' = s)) ∧
    (¬ (s.pCamera = none ∨ d.imageSize = none ∨ d.imageFormat = none ∨
        d.exposure = none ∨ d.gain = none ∨ d.bin = none) →
      ∃ s' t w h, s.StartExposure b wait d e = .ok (true, s') ∧ s'.log = s.log ++ t ∧
        d.imageSize = some (w, h) ∧
        s'.imageWaitingThread = some (CcdPlayerOne.newWorker w h e) ∧
        (callerEvents t).filter Event.isSpawn = [Event.threadSwap false] ∧
        (∀ ev ∈ callerEvents t, ev.isStart = false ∧ ev.isNotification = false)) := by
  obtain ⟨-, -, -, hn, t0, ht0, hJ⟩ := joinIfJoinable_ok hj
  cases hc : s.pCamera with
  | none =>
    constructor
    · intro _
      exact ⟨s, [], by simp [CcdPlayerOne.StartExposure, hc], by simp, by simp [callerEvents],
        Or.inr rfl⟩
    · intro h
      exact absurd (Or.inl rfl) h
  | some cam =>
    rw [StartExposure_unfold b wait d e s s1 cam hc hj]
    cases hsz : d.imageSize with
    | none =>
      constructor
      · intro _
        refine ⟨_, t0 ++ _, rfl, by simp only [ht0, List.append_assoc]; rfl, ?_, Or.inl hn⟩
        rw [callerEvents_append, hJ]
        cases s.imageWaitingThread.isSome <;>
          simp [callerEvents, Event.isStart, Event.isNotification, Event.isSpawn]
      · intro h
        exact absurd (Or.inr (Or.inl rfl)) h
    | some imageSize =>
      cases hf : d.imageFormat with
      | none =>
        constructor
        · intro _
          refine ⟨_, t0 ++ _, rfl, by simp only [ht0, List.append_assoc]; rfl, ?_, Or.inl hn⟩
          rw [callerEvents_append, hJ]
          cases s.imageWaitingThread.isSome <;>
            simp [callerEvents, Event.isStart, Event.isNotification, Event.isSpawn]
        · intro h
          exact absurd (Or.inr (Or.inr (Or.inl rfl))) h
      | some fmt =>
        obtain ⟨size, hsize⟩ := Option.isSome_iff_exists.1 (hassert fmt hf)
        simp only [hsize]
        by_cases hq : d.exposure = none ∨ d.gain = none ∨ d.bin = none
        · constructor
          · intro _
            rw [if_pos hq]
            refine ⟨_, t0 ++ _, rfl, by simp only [ht0, List.append_assoc]; rfl, ?_, Or.inl hn⟩
            rw [callerEvents_append, hJ]
            cases s.imageWaitingThread.isSome <;>
              simp [callerEvents, Event.isStart, Event.isNotification, Event.isSpawn]
          · intro h
            exact absurd (Or.inr (Or.inr (Or.inr hq))) h
        · constructor
          · intro h
            rcases h with h | h | h | h
            · cases h
            · cases h
            · cases h
            · exact absurd h hq
          · intro _
            rw [if_neg hq]
            refine ⟨_, t0 ++ _, imageSize.1, imageSize.2, rfl,
              by simp only [ht0, List.append_assoc]; rfl, rfl, rfl, ?_, ?_⟩
            · rw [callerEvents_append, hJ]
              cases s.imageWaitingThread.isSome <;> simp [callerEvents, Event.isSpawn]
            · rw [callerEvents_append, hJ]
              cases s.imageWaitingThread.isSome <;>
                simp [callerEvents, Event.isStart, Event.isNotification]

/-- C5 (amended) at an input: the geometry query fails. -/
theorem C5_start_outcome_witness :
    ∃ s' t, (opened demoCamera).StartExposure releaseBuild 0
        { demoStart with imageSize := none } (exposingFor 2) = .ok (false, s') ∧
      s'.log = (opened demoCamera).log ++ t ∧
      (∀ ev ∈ callerEvents t,
        ev.isStart = false ∧ ev.isNotification = false ∧ ev.isSpawn = false) ∧
      (s'.imageWaitingThread = none ∨ s' = opened demoCamera) :=
  (C5_start_outcome releaseBuild 0 { demoStart with imageSize := none } (exposingFor 2)
    (opened demoCamera) (opened demoCamera) rfl
    (by intro fmt h; cases h; rfl)).1 (Or.inr (Or.inl rfl))

end startOutcome

section startFrame

/-- C6 (as stated) fails: when the geometry query fails `StartExposure` has
already sent a stop command to the device (through `AbortExposure`). -/
theorem C6_counterexample :
    observe ((opened demoCamera).StartExposure releaseBuild 0
      { demoStart with imageSize := none } (exposingFor 2)) =
      .ok (false,
        [(Origin.caller, Event.POAStopExposure true),
         (Origin.caller, Event.POAGetCameraState (some (.terminal 1))),
         (Origin.caller, Event.POAGetImageSize none)]) := by
  rw [StartExposure_unfold releaseBuild 0 _ (exposingFor 2) (opened demoCamera) (opened demoCamera)
    demoCamera rfl rfl]
  simp [demoStart, observe, opened, CcdPlayerOne.ctor]

/-- C6 (amended): when a device is open and the geometry, format, exposure, gain
or binning query fails, `StartExposure` returns false and the state-changing
device commands it issued are exactly one: the `POAStopExposure` of its
initial `AbortExposure`.  It issues no start command; every other SDK call of
the calling thread is a read-only query. -/
theorem C6_failed_start_commands (b : Build) (wait : Nat) (d : StartScript) (e : ExposureScript)
    (s s1 : CcdPlayerOne) (cam : PlayerOneCamera) (hc : s.pCamera = some cam)
    (hj : joinIfJoinable wait s = .ok s1)
    (hassert : ∀ fmt, d.imageFormat = some fmt → (PlayerOneImgFormatSize b fmt).isSome = true)
    (hfail : d.imageSize = none ∨ d.imageFormat = none ∨
        d.exposure = none ∨ d.gain = none ∨ d.bin = none) :
    ∃ s' t, s.StartExposure b wait d e = .ok (false, s') ∧ s'.log = s.log ++ t ∧
      (callerEvents t).filter Event.isStateChanging = [Event.POAStopExposure d.stop] ∧
      (callerEvents t).filter Event.isStart = [] := by
  obtain ⟨-, -, -, -, t0, ht0, hJ⟩ := joinIfJoinable_ok hj
  rw [StartExposure_unfold b wait d e s s1 cam hc hj]
  cases hsz : d.imageSize with
  | none =>
    refine ⟨_, t0 ++ _, rfl, by simp only [ht0, List.append_assoc]; rfl, ?_, ?_⟩ <;>
    · rw [callerEvents_append, hJ]
      cases s.imageWaitingThread.isSome <;>
        simp [callerEvents, Event.isStateChanging, Event.isStart]
  | some imageSize =>
    cases hf : d.imageFormat with
    | none =>
      refine ⟨_, t0 ++ _, rfl, by simp only [ht0, List.append_assoc]; rfl, ?_, ?_⟩ <;>
      · rw [callerEvents_append, hJ]
        cases s.imageWaitingThread.isSome <;>
          simp [callerEvents, Event.isStateChanging, Event.isStart]
    | some fmt =>
      obtain ⟨size, hsize⟩ := Option.isSome_iff_exists.1 (hassert fmt hf)
      have hq : d.exposure = none ∨ d.gain = none ∨ d.bin = none := by
        rcases hfail with h | h | h
        · rw [hsz] at h; cases h
        · rw [hf] at h; cases h
        · exact h
      simp only [hsize]
      rw [if_pos hq]
      refine ⟨_, t0 ++ _, rfl, by simp only [ht0, List.append_assoc]; rfl, ?_, ?_⟩ <;>
      · rw [callerEvents_append, hJ]
        cases s.imageWaitingThread.isSome <;>
          simp [callerEvents, Event.isStateChanging, Event.isStart]

/-- C6 (amended) at an input: the gain query fails. -/
theorem C6_failed_start_commands_witness :
    ∃ s' t, (opened demoCamera).StartExposure releaseBuild 0
        { demoStart with gain := none } (exposingFor 2) = .ok (false, s') ∧
      s'.log = (opened demoCamera).log ++ t ∧
      (callerEvents t).filter Event.isStateChanging = [Event.POAStopExposure demoStart.stop] ∧
      (callerEvents t).filter Event.isStart = [] :=
  C6_failed_start_commands releaseBuild 0 { demoStart with gain := none } (exposingFor 2)
    (opened demoCamera) (opened demoCamera) demoCamera rfl rfl
    (by intro fmt h; cases h; rfl) (Or.inr (Or.inr (Or.inr (Or.inl rfl))))

end startFrame

section polling

theorem workerSteps_add (m n : Nat) (s : CcdPlayerOne) :
    workerSteps (m + n) s = workerSteps n (workerSteps m s) := by
  induction m generalizing s with
  | zero => simp [workerSteps]
  | succ m ih =>
    rw [Nat.succ_add]
    simp [workerSteps, ih]

/-- While the flag is clear and the device reports `STATE_EXPOSING`, each tick
is four steps (sleep, flag test, query, assignment) and two events. -/
theorem poll_exposing (cam : PlayerOneCamera) (cache buf nW nH : Int) (dev : ExposureScript)
    (bl : Nat) (k : Nat) :
    ∀ (q : Nat) (res : Option StateAnswer) (st : Option POACameraState) (log : Trace),
    (∀ i, i < k → (dev.state (q + i)).result = some .STATE_EXPOSING) →
    ∃ res' st',
      workerSteps (4 * k)
        { pCamera := some cam, m_nCurrentExposureCache := cache, m_nCurrentBufferSize := buf,
          imageWaitingThread := some
            { nWidth := nW, nHeight := nH, dev := dev, pc := .sleep, queries := q,
              result := res, state := st, bufLen := bl },
          bAbortBulb := false, log := log } =
        { pCamera := some cam, m_nCurrentExposureCache := cache, m_nCurrentBufferSize := buf,
          imageWaitingThread := some
            { nWidth := nW, nHeight := nH, dev := dev, pc := .sleep, queries := q + k,
              result := res', state := st', bufLen := bl },
          bAbortBulb := false, log := log ++ byWorker (exposingTicks k) } := by
  induction k with
  | zero =>
    intro q res st log _
    exact ⟨res, st, by simp [workerSteps, exposingTicks, byWorker]⟩
  | succ k ih =>
    intro q res st log hexp
    have h0 : (dev.state q).result = some .STATE_EXPOSING := by
      simpa using hexp 0 (Nat.succ_pos k)
    have hrest : ∀ i, i < k → (dev.state (q + 1 + i)).result = some .STATE_EXPOSING := by
      intro i hi
      have := hexp (i + 1) (Nat.succ_lt_succ hi)
      rwa [show q + (i + 1) = q + 1 + i by omega] at this
    obtain ⟨res', st', h⟩ := ih (q + 1) (some (dev.state q)) (some .STATE_EXPOSING)
      (log ++ byWorker [.sleep 100, .POAGetCameraState (some .STATE_EXPOSING)]) hrest
    refine ⟨res', st', ?_⟩
    rw [show 4 * (k + 1) = 4 + 4 * k by omega, workerSteps_add]
    have h4 : workerSteps 4
        { pCamera := some cam, m_nCurrentExposureCache := cache, m_nCurrentBufferSize := buf,
          imageWaitingThread := some
            { nWidth := nW, nHeight := nH, dev := dev, pc := .sleep, queries := q,
              result := res, state := st, bufLen := bl },
          bAbortBulb := false, log := log } =
        { pCamera := some cam, m_nCurrentExposureCache := cache, m_nCurrentBufferSize := buf,
          imageWaitingThread := some
            { nWidth := nW, nHeight := nH, dev := dev, pc := .sleep, queries := q + 1,
              result := some (dev.state q), state := some .STATE_EXPOSING, bufLen := bl },
          bAbortBulb := false,
          log := log ++ byWorker [.sleep 100, .POAGetCameraState (some .STATE_EXPOSING)] } := by
      simp [workerSteps, workerStep, CcdPlayerOne.record, CcdPlayerOne.setWorker,
        PlayerOneCamera.GetCameraState, h0, byWorker]
    rw [h4, h]
    simp [exposingTicks, byWorker, Nat.add_assoc, Nat.add_comm 1 k]

end polling

section success

theorem attemptEvents_of_log (s0 s : CcdPlayerOne) (es : List Event)
    (h : s.log = s0.log ++ byWorker es) : attemptEvents s0 s = es := by
  simp [attemptEvents, h, byWorker, workerEvents_worker]

theorem attemptEvents_of_trace (s0 s : CcdPlayerOne) (t : Trace)
    (h : s.log = s0.log ++ t) : attemptEvents s0 s = workerEvents t := by
  simp [attemptEvents, h]

/-- The last tick and the completing phase, from the top of the loop body with
the flag clear: the device reports a terminal state and the image ready. -/
theorem finish_run (cam : PlayerOneCamera) (cache buf nW nH : Int) (dev : ExposureScript)
    (bl q : Nat) (res : Option StateAnswer) (st : Option POACameraState) (log : Trace)
    (code : Int) (hterm : (dev.state q).result = some (.terminal code))
    (hready : dev.ready = some true) :
    workerSteps 9
        { pCamera := some cam, m_nCurrentExposureCache := cache, m_nCurrentBufferSize := buf,
          imageWaitingThread := some
            { nWidth := nW, nHeight := nH, dev := dev, pc := .sleep, queries := q,
              result := res, state := st, bufLen := bl },
          bAbortBulb := false, log := log } =
      if buf < 0 then
        { pCamera := some cam, m_nCurrentExposureCache := cache, m_nCurrentBufferSize := buf,
          imageWaitingThread := some
            { nWidth := nW, nHeight := nH, dev := dev, pc := .crashed, queries := q + 1,
              result := some (dev.state q), state := some (.terminal code), bufLen := bl },
          bAbortBulb := false,
          log := log ++ byWorker [.sleep 100, .POAGetCameraState (some (.terminal code)),
            .POAImageReady (some true)] }
      else if dev.read buf.toNat (readTimeout cache) = true then
        { pCamera := some cam, m_nCurrentExposureCache := cache, m_nCurrentBufferSize := buf,
          imageWaitingThread := some
            { nWidth := nW, nHeight := nH, dev := dev, pc := .done, queries := q + 1,
              result := some (dev.state q), state := some (.terminal code),
              bufLen := buf.toNat },
          bAbortBulb := false,
          log := log ++ byWorker [.sleep 100, .POAGetCameraState (some (.terminal code)),
            .POAImageReady (some true),
            .POAGetImageData buf.toNat (readTimeout cache) true,
            .imageReady nW nH buf.toNat] }
      else
        { pCamera := some cam, m_nCurrentExposureCache := cache, m_nCurrentBufferSize := buf,
          imageWaitingThread := some
            { nWidth := nW, nHeight := nH, dev := dev, pc := .abortEmit, queries := q + 1,
              result := some (dev.state q), state := some (.terminal code),
              bufLen := buf.toNat },
          bAbortBulb := false,
          log := log ++ byWorker [.sleep 100, .POAGetCameraState (some (.terminal code)),
            .POAImageReady (some true),
            .POAGetImageData buf.toNat (readTimeout cache) false,
            .POAStopExposure dev.stop] } := by
  by_cases hb : buf < 0
  · simp [workerSteps, workerStep, CcdPlayerOne.record, CcdPlayerOne.setWorker,
      PlayerOneCamera.GetCameraState, PlayerOneCamera.ImageReady, hterm, hready, hb, byWorker]
  · by_cases hr : dev.read buf.toNat (readTimeout cache) = true
    · simp [workerSteps, workerStep, CcdPlayerOne.record, CcdPlayerOne.setWorker,
        PlayerOneCamera.GetCameraState, PlayerOneCamera.ImageReady, PlayerOneCamera.GetImageData,
        hterm, hready, hb, hr, byWorker]
    · simp [workerSteps, workerStep, CcdPlayerOne.record, CcdPlayerOne.setWorker,
        PlayerOneCamera.GetCameraState, PlayerOneCamera.ImageReady, PlayerOneCamera.GetImageData,
        PlayerOneCamera.StopExposure, hterm, hready, hb, hr, byWorker]

theorem exposingTicks_stateQueries (k : Nat) :
    ((exposingTicks k).filter Event.isStateQuery).length = k := by
  induction k with
  | zero => rfl
  | succ k ih => simp [exposingTicks, Event.isStateQuery, ih]

theorem exposingTicks_noStop (k : Nat) : (exposingTicks k).filter Event.isStop = [] := by
  induction k with
  | zero => rfl
  | succ k ih => simp [exposingTicks, Event.isStop, ih]

theorem exposingTicks_noNotification (k : Nat) :
    (exposingTicks k).filter Event.isNotification = [] := by
  induction k with
  | zero => rfl
  | succ k ih => simp [exposingTicks, Event.isNotification, ih]

theorem exposingTicks_noRead (k : Nat) (len : Nat) (tmo : Int) (ok : Bool) :
    Event.POAGetImageData len tmo ok ∉ exposingTicks k := by
  induction k with
  | zero => simp [exposingTicks]
  | succ k ih => simp [exposingTicks, ih]

end success

section started

/-- The state a successful `StartExposure` leaves, field by field. -/
theorem StartExposure_true {b : Build} {wait : Nat} {d : StartScript} {e : ExposureScript}
    {s s' : CcdPlayerOne} (h : s.StartExposure b wait d e = .ok (true, s')) :
    ∃ cam sj w h fmt bits bytes,
      s.pCamera = some cam ∧ joinIfJoinable wait s = .ok sj ∧
      d.imageSize = some (w, h) ∧ d.imageFormat = some fmt ∧
      PlayerOneImgFormatSize b fmt = some (bits, bytes) ∧
      s' =
        { pCamera := some cam,
          m_nCurrentExposureCache := s.m_nCurrentExposureCache,
          m_nCurrentBufferSize := mulInt32 (mulInt32 w h) bytes,
          imageWaitingThread := some (CcdPlayerOne.newWorker w h e),
          bAbortBulb := false,
          log := sj.log ++ byCaller
            [.POAStopExposure d.stop, .POAGetCameraState d.state,
             .POAGetImageSize (some (w, h)), .POAGetImageFormat (some fmt),
             .POAGetConfig .POA_EXPOSURE d.exposure, .POAGetConfig .POA_GAIN d.gain,
             .POAGetImageBin d.bin, .threadSwap false] } := by
  cases hc : s.pCamera with
  | none => simp [CcdPlayerOne.StartExposure, hc] at h
  | some cam =>
    obtain ⟨sj, hj⟩ := StartExposure_join hc h
    obtain ⟨hp, hcache, -, -, -⟩ := joinIfJoinable_ok hj
    rw [StartExposure_unfold b wait d e s sj cam hc hj] at h
    cases hsz : d.imageSize with
    | none => simp [hsz] at h
    | some imageSize =>
      cases hf : d.imageFormat with
      | none => simp [hsz, hf] at h
      | some fmt =>
        cases hsize : PlayerOneImgFormatSize b fmt with
        | none => simp [hsz, hf, hsize] at h
        | some size =>
          simp only [hsz, hf, hsize] at h
          split at h
          · simp at h
          · simp only [Except.ok.injEq, Prod.mk.injEq, true_and] at h
            subst h
            refine ⟨cam, sj, imageSize.1, imageSize.2, fmt, size.1, size.2, rfl, hj, rfl, rfl,
              hsize, ?_⟩
            rw [← hcache]
            simp [byCaller, hp, hc]

/-- C3 (as stated) fails when the product overflows an `int`.  (1) With the
geometry 65536 × 65536 in RAW8 `StartExposure` returns true, the device
behaves as on the success path (k = 2), and the worker emits
`imageReady(65536, 65536, buffer)` with a buffer of 0 bytes, not
65536 * 65536 * 1.  (2) With the geometry 32768 × 65536 the computed size is
-2147483648: the construction of the buffer throws and the worker emits no
`imageReady` at all. -/
theorem C3_counterexample :
    demoConfigured.StartExposure releaseBuild 0 wideStart (exposingFor 2) =
      .ok (true, wideStarted) ∧
    PlayerOneImgFormatSize releaseBuild .POA_RAW8 = some (8, 1) ∧
    attemptEvents wideStarted (workerSteps (4 * 2 + 10) wideStarted) =
      [.POAStartExposure true true] ++ exposingTicks 2 ++
      [.sleep 100, .POAGetCameraState (some (.terminal 1)), .POAImageReady (some true),
       .POAGetImageData 0 1500 true, .imageReady 65536 65536 0] ∧
    ((0 : Nat) : Int) ≠ 65536 * 65536 * 1 ∧
    demoConfigured.StartExposure releaseBuild 0 halfStart (exposingFor 2) =
      .ok (true, halfStarted) ∧
    workerPc (workerSteps (4 * 2 + 10) halfStarted) = some .crashed ∧
    attemptEvents halfStarted (workerSteps (4 * 2 + 10) halfStarted) =
      [.POAStartExposure true true] ++ exposingTicks 2 ++
      [.sleep 100, .POAGetCameraState (some (.terminal 1)), .POAImageReady (some true)] := by
  refine ⟨?_, rfl, by decide, by decide, ?_, by decide, by decide⟩
  · rw [StartExposure_unfold releaseBuild 0 wideStart (exposingFor 2) demoConfigured
      demoConfigured demoCamera rfl rfl]
    simp [wideStart, demoStart, PlayerOneImgFormatSize, wideStarted, mulInt32, wrapInt32]
  · rw [StartExposure_unfold releaseBuild 0 halfStart (exposingFor 2) demoConfigured
      demoConfigured demoCamera rfl rfl]
    simp [halfStart, demoStart, PlayerOneImgFormatSize, halfStarted, mulInt32, wrapInt32]

/-- C3 (amended): success path of one exposure attempt.  After a
`StartExposure` that returned true with geometry (w, h) and format f and a
computed buffer size that is not negative, when the hardware start
succeeds, nobody sets the abort flag (the worker runs alone), the device
reports `STATE_EXPOSING` on the first k state queries and a terminal state on the
next, the image is ready and the device answers the read of the buffer with
success, the worker finishes after exactly k + 1 state queries, issues no
stop command, emits no `aborted` and emits exactly one
`imageReady(w, h, buffer)`; the buffer has `GetBufferSize()` bytes, the product
w * h * bytesPerPixel(f) in `int` arithmetic, which is the exact product
whenever the products fit an `int`. -/
theorem C3_success_path (b : Build) (wait : Nat) (d : StartScript) (e : ExposureScript)
    (s s1 : CcdPlayerOne) (w h bits bytes : Int) (f : POAImgFormat) (k : Nat) (code : Int)
    (hstart : s.StartExposure b wait d e = .ok (true, s1))
    (hgeo : d.imageSize = some (w, h)) (hfmt : d.imageFormat = some f)
    (hsize : PlayerOneImgFormatSize b f = some (bits, bytes))
    (hbuf : 0 ≤ s1.GetBufferSize)
    (hs : e.start = true)
    (hexp : ∀ i, i < k → (e.state i).result = some .STATE_EXPOSING)
    (hterm : (e.state k).result = some (.terminal code))
    (hready : e.ready = some true)
    (hread : e.read s1.GetBufferSize.toNat (readTimeout s1.m_nCurrentExposureCache) = true) :
    workerPc (workerSteps (4 * k + 10) s1) = some .done ∧
    attemptEvents s1 (workerSteps (4 * k + 10) s1) =
      [.POAStartExposure true true] ++ exposingTicks k ++
      [.sleep 100, .POAGetCameraState (some (.terminal code)), .POAImageReady (some true),
       .POAGetImageData s1.GetBufferSize.toNat (readTimeout s1.m_nCurrentExposureCache) true,
       .imageReady w h s1.GetBufferSize.toNat] ∧
    (s1.GetBufferSize.toNat : Int) = mulInt32 (mulInt32 w h) bytes ∧
    (-2147483648 ≤ w * h ∧ w * h < 2147483648 ∧
      -2147483648 ≤ w * h * bytes ∧ w * h * bytes < 2147483648 →
      (s1.GetBufferSize.toNat : Int) = w * h * bytes) ∧
    ((attemptEvents s1 (workerSteps (4 * k + 10) s1)).filter Event.isStateQuery).length = k + 1 ∧
    (attemptEvents s1 (workerSteps (4 * k + 10) s1)).filter Event.isStop = [] ∧
    (attemptEvents s1 (workerSteps (4 * k + 10) s1)).filter Event.isNotification =
      [.imageReady w h s1.GetBufferSize.toNat] := by
  obtain ⟨cam, sj, w', h', fmt', bits', bytes', hc, hj, hgeo', hfmt', hsize', hs1⟩ :=
    StartExposure_true hstart
  rw [hgeo] at hgeo'
  rw [hfmt] at hfmt'
  cases hgeo'
  cases hfmt'
  rw [hsize] at hsize'
  cases hsize'
  -- the first step: the hardware start
  have h1 : workerSteps 1 s1 =
      { pCamera := some cam, m_nCurrentExposureCache := s.m_nCurrentExposureCache,
        m_nCurrentBufferSize := mulInt32 (mulInt32 w h) bytes,
        imageWaitingThread := some
          { nWidth := w, nHeight := h, dev := e, pc := .sleep, queries := 0,
            result := none, state := none, bufLen := 0 },
        bAbortBulb := false,
        log := s1.log ++ byWorker [.POAStartExposure true true] } := by
    rw [hs1]
    simp [workerSteps, workerStep, CcdPlayerOne.newWorker, CcdPlayerOne.record,
      CcdPlayerOne.setWorker, PlayerOneCamera.StartExposure, hs, byWorker]
  obtain ⟨res', st', hpoll⟩ := poll_exposing cam s.m_nCurrentExposureCache
    (mulInt32 (mulInt32 w h) bytes) w h e 0 k 0 none none
    (s1.log ++ byWorker [.POAStartExposure true true]) (by simpa using hexp)
  have hterm' : (e.state (0 + k)).result = some (.terminal code) := by simpa using hterm
  have hfin := finish_run cam s.m_nCurrentExposureCache (mulInt32 (mulInt32 w h) bytes) w h e 0
    (0 + k) res' st' (s1.log ++ byWorker [.POAStartExposure true true] ++
      byWorker (exposingTicks k)) code hterm' hready
  have hrun := hfin
  rw [← hpoll, ← h1, ← workerSteps_add, ← workerSteps_add,
    show 1 + (4 * k + 9) = 4 * k + 10 by omega] at hrun
  have hbufeq : s1.GetBufferSize = mulInt32 (mulInt32 w h) bytes := by
    rw [hs1]; rfl
  have hcache : s1.m_nCurrentExposureCache = s.m_nCurrentExposureCache := by
    rw [hs1]
  rw [hbufeq] at hbuf hread ⊢
  rw [hcache] at hread ⊢
  have hb : ¬ mulInt32 (mulInt32 w h) bytes < 0 := not_lt.2 hbuf
  rw [hrun, if_neg hb, if_pos hread]
  have hev := attemptEvents_of_log s1
    { pCamera := some cam, m_nCurrentExposureCache := s.m_nCurrentExposureCache,
      m_nCurrentBufferSize := mulInt32 (mulInt32 w h) bytes,
      imageWaitingThread := some
        { nWidth := w, nHeight := h, dev := e, pc := .done, queries := 0 + k + 1,
          result := some (e.state (0 + k)), state := some (.terminal code),
          bufLen := (mulInt32 (mulInt32 w h) bytes).toNat },
      bAbortBulb := false,
      log := s1.log ++ byWorker [.POAStartExposure true true] ++ byWorker (exposingTicks k) ++
        byWorker [.sleep 100, .POAGetCameraState (some (.terminal code)),
          .POAImageReady (some true),
          .POAGetImageData (mulInt32 (mulInt32 w h) bytes).toNat
            (readTimeout s.m_nCurrentExposureCache) true,
          .imageReady w h (mulInt32 (mulInt32 w h) bytes).toNat] }
    ([.POAStartExposure true true] ++ exposingTicks k ++
      [.sleep 100, .POAGetCameraState (some (.terminal code)), .POAImageReady (some true),
       .POAGetImageData (mulInt32 (mulInt32 w h) bytes).toNat
         (readTimeout s.m_nCurrentExposureCache) true,
       .imageReady w h (mulInt32 (mulInt32 w h) bytes).toNat])
    (by simp [byWorker])
  rw [hev]
  have hnat : (((mulInt32 (mulInt32 w h) bytes).toNat : Nat) : Int) =
      mulInt32 (mulInt32 w h) bytes := Int.toNat_of_nonneg hbuf
  refine ⟨rfl, rfl, hnat, ?_, ?_, ?_, ?_⟩
  · rintro ⟨b1, b2, b3, b4⟩
    rw [hnat]
    simp only [mulInt32]
    rw [wrapInt32_of_range _ b1 b2, wrapInt32_of_range _ b3 b4]
  · simp [List.filter_append, exposingTicks_stateQueries, Event.isStateQuery]
  · simp [List.filter_append, exposingTicks_noStop, Event.isStop]
  · simp [List.filter_append, exposingTicks_noNotification, Event.isNotification]

end started

section successWitness

/-- C3 (amended) at an input: exposure 1_000_000 µs, a 4 × 3 sensor in RAW16, the
device reports `STATE_EXPOSING` on two ticks: 24 bytes are delivered after three
state queries, the read having a timeout of 1500 ms. -/
theorem C3_success_path_witness :
    workerPc (workerSteps (4 * 2 + 10) (startedFrom demoConfigured (exposingFor 2))) =
      some .done ∧
    attemptEvents (startedFrom demoConfigured (exposingFor 2))
        (workerSteps (4 * 2 + 10) (startedFrom demoConfigured (exposingFor 2))) =
      [.POAStartExposure true true] ++ exposingTicks 2 ++
      [.sleep 100, .POAGetCameraState (some (.terminal 1)), .POAImageReady (some true),
       .POAGetImageData 24 1500 true, .imageReady 4 3 24] ∧
    ((24 : Nat) : Int) = mulInt32 (mulInt32 4 3) 2 ∧
    ((24 : Nat) : Int) = 4 * 3 * 2 ∧
    ((attemptEvents (startedFrom demoConfigured (exposingFor 2))
        (workerSteps (4 * 2 + 10) (startedFrom demoConfigured (exposingFor 2)))).filter
          Event.isStateQuery).length = 2 + 1 ∧
    (attemptEvents (startedFrom demoConfigured (exposingFor 2))
        (workerSteps (4 * 2 + 10) (startedFrom demoConfigured (exposingFor 2)))).filter
          Event.isStop = [] ∧
    (attemptEvents (startedFrom demoConfigured (exposingFor 2))
        (workerSteps (4 * 2 + 10) (startedFrom demoConfigured (exposingFor 2)))).filter
          Event.isNotification = [.imageReady 4 3 24] := by
  have h := C3_success_path releaseBuild 0 demoStart (exposingFor 2) demoConfigured
    (startedFrom demoConfigured (exposingFor 2)) 4 3 16 2 .POA_RAW16 2 1
    (demoStart_run demoConfigured (exposingFor 2) demoCamera rfl rfl)
    rfl rfl rfl (by decide) rfl
    (by intro i hi; simp [exposingFor, hi])
    (by simp [exposingFor])
    rfl rfl
  exact ⟨h.1, h.2.1, h.2.2.1, h.2.2.2.1 (by decide), h.2.2.2.2.1, h.2.2.2.2.2.1,
    h.2.2.2.2.2.2⟩

end successWitness

section shape

theorem noNotification_append (W es : List Event) (h : noNotification W)
    (he : es.filter Event.isNotification = []) : noNotification (W ++ es) := by
  unfold noNotification at *
  rw [List.filter_append, h, he]
  rfl

/-- A worker step keeps the shape of the attempt's worker events. -/
theorem workerStep_shape (s : CcdPlayerOne) (W : List Event) (h : Shape s W) :
    ∃ es, (workerStep s).log = s.log ++ byWorker es ∧ Shape (workerStep s) (W ++ es) := by
  obtain ⟨cam, cache, buf, thr, flag, log⟩ := s
  cases thr with
  | none => simp [Shape] at h
  | some w =>
    obtain ⟨nW, nH, dev, pc, q, res, st, bl⟩ := w
    cases pc with
    | start =>
      cases cam with
      | none =>
        exact ⟨[], by simp [workerStep, CcdPlayerOne.setWorker, byWorker, Shape] at h ⊢; exact h⟩
      | some c =>
        refine ⟨[.POAStartExposure true dev.start], ?_, ?_⟩
        · simp [workerStep, CcdPlayerOne.setWorker, CcdPlayerOne.record, byWorker,
            PlayerOneCamera.StartExposure]
        · cases hs : dev.start <;>
            simp [workerStep, CcdPlayerOne.setWorker, CcdPlayerOne.record,
              PlayerOneCamera.StartExposure, Shape, hs, noNotification, List.filter_append,
              Event.isNotification] at h ⊢ <;> exact h
    | sleep =>
      refine ⟨[.sleep 100], ?_, ?_⟩
      · simp [workerStep, CcdPlayerOne.setWorker, CcdPlayerOne.record, byWorker]
      · simp [workerStep, CcdPlayerOne.setWorker, CcdPlayerOne.record, Shape, noNotification,
          List.filter_append, Event.isNotification] at h ⊢
        exact h
    | check =>
      refine ⟨[], ?_, ?_⟩
      · simp [workerStep, CcdPlayerOne.setWorker, byWorker]
      · cases flag <;>
          simp [workerStep, CcdPlayerOne.setWorker, Shape] at h ⊢ <;> exact h
    | query =>
      cases cam with
      | none =>
        exact ⟨[], by simp [workerStep, CcdPlayerOne.setWorker, byWorker, Shape] at h ⊢; exact h⟩
      | some c =>
        refine ⟨[.POAGetCameraState (dev.state q).result], ?_, ?_⟩
        · simp [workerStep, CcdPlayerOne.setWorker, CcdPlayerOne.record, byWorker,
            PlayerOneCamera.GetCameraState]
        · simp [workerStep, CcdPlayerOne.setWorker, CcdPlayerOne.record,
            PlayerOneCamera.GetCameraState, Shape, noNotification, List.filter_append,
            Event.isNotification] at h ⊢
          exact h
    | assign =>
      refine ⟨[], ?_, ?_⟩
      · cases res with
        | none => simp [workerStep, CcdPlayerOne.setWorker, byWorker]
        | some a =>
          cases hr : a.result <;>
            simp [workerStep, CcdPlayerOne.setWorker, byWorker, hr]
      · cases res with
        | none => simp [Shape] at h
        | some a =>
          cases hr : a.result with
          | none =>
            by_cases hi : a.indeterminate = .STATE_EXPOSING <;>
              simp [workerStep, CcdPlayerOne.setWorker, Shape, hr, hi] at h ⊢ <;> exact h
          | some x =>
            by_cases hi : x = .STATE_EXPOSING <;>
              simp [workerStep, CcdPlayerOne.setWorker, Shape, hr, hi] at h ⊢ <;> exact h
    | afterLoop =>
      refine ⟨[], ?_, ?_⟩
      · simp [workerStep, CcdPlayerOne.setWorker, byWorker]
      · cases flag <;>
          simp [workerStep, CcdPlayerOne.setWorker, Shape] at h ⊢ <;> exact h
    | ready =>
      cases cam with
      | none =>
        exact ⟨[], by simp [workerStep, CcdPlayerOne.setWorker, byWorker, Shape] at h ⊢; exact h⟩
      | some c =>
        refine ⟨[.POAImageReady dev.ready], ?_, ?_⟩
        · simp [workerStep, CcdPlayerOne.setWorker, CcdPlayerOne.record, byWorker,
            PlayerOneCamera.ImageReady]
        · by_cases hr : dev.ready = some true
          · simp [workerStep, CcdPlayerOne.setWorker, CcdPlayerOne.record,
              PlayerOneCamera.ImageReady, Shape, hr, noNotification, List.filter_append,
              Event.isNotification] at h ⊢
            exact h
          · simp [workerStep, CcdPlayerOne.setWorker, CcdPlayerOne.record,
              PlayerOneCamera.ImageReady, Shape, hr, noNotification, List.filter_append,
              Event.isNotification] at h ⊢
            exact h
    | alloc =>
      refine ⟨[], ?_, ?_⟩
      · by_cases hb : buf < 0 <;> simp [workerStep, CcdPlayerOne.setWorker, byWorker, hb]
      · by_cases hb : buf < 0
        · simp [workerStep, CcdPlayerOne.setWorker, Shape, hb] at h ⊢
          exact h.1
        · simp [workerStep, CcdPlayerOne.setWorker, Shape, hb] at h ⊢
          exact h
    | read =>
      cases cam with
      | none =>
        exact ⟨[], by simp [workerStep, CcdPlayerOne.setWorker, byWorker, Shape] at h ⊢; exact h.1⟩
      | some c =>
        refine ⟨[.POAGetImageData bl (readTimeout cache) (dev.read bl (readTimeout cache))],
          ?_, ?_⟩
        · simp [workerStep, CcdPlayerOne.setWorker, CcdPlayerOne.record, byWorker,
            PlayerOneCamera.GetImageData]
        · cases hr : dev.read bl (readTimeout cache)
          · simp [workerStep, CcdPlayerOne.setWorker, CcdPlayerOne.record,
              PlayerOneCamera.GetImageData, Shape, hr, noNotification, List.filter_append,
              Event.isNotification] at h ⊢
            exact h.1
          · simp only [Shape] at h
            simp only [workerStep, CcdPlayerOne.setWorker, CcdPlayerOne.record,
              PlayerOneCamera.GetImageData, Shape, hr, if_true]
            exact ⟨noNotification_append W _ h.1 rfl, W, readTimeout cache, rfl, h.2⟩
    | emit =>
      refine ⟨[.imageReady nW nH bl], ?_, ?_⟩
      · simp [workerStep, CcdPlayerOne.setWorker, CcdPlayerOne.record, byWorker]
      · simp only [Shape] at h
        obtain ⟨hn, W0, t, hW, hr⟩ := h
        simp only [workerStep, CcdPlayerOne.setWorker, CcdPlayerOne.record, Shape]
        left
        refine ⟨W0, bl, t, by simp [hW], ?_, hr⟩
        rw [hW] at hn
        unfold noNotification at hn ⊢
        rw [List.filter_append] at hn
        exact (List.append_eq_nil.1 hn).1
    | abortStop =>
      cases cam with
      | none =>
        exact ⟨[], by simp [workerStep, CcdPlayerOne.setWorker, byWorker, Shape] at h ⊢; exact h⟩
      | some c =>
        refine ⟨[.POAStopExposure dev.stop], ?_, ?_⟩
        · simp [workerStep, CcdPlayerOne.setWorker, CcdPlayerOne.record, byWorker,
            PlayerOneCamera.StopExposure]
        · simp only [Shape] at h
          simp only [workerStep, CcdPlayerOne.setWorker, CcdPlayerOne.record,
            PlayerOneCamera.StopExposure, Shape]
          exact ⟨noNotification_append W _ h rfl, W, dev.stop, rfl⟩
    | abortEmit =>
      refine ⟨[.aborted], ?_, ?_⟩
      · simp [workerStep, CcdPlayerOne.setWorker, CcdPlayerOne.record, byWorker]
      · simp only [Shape] at h
        obtain ⟨hn, W0, r, hW⟩ := h
        simp only [workerStep, CcdPlayerOne.setWorker, CcdPlayerOne.record, Shape]
        right
        refine ⟨W0, r, by simp [hW], ?_⟩
        rw [hW] at hn
        unfold noNotification at hn ⊢
        rw [List.filter_append] at hn
        exact (List.append_eq_nil.1 hn).1
    | done => exact ⟨[], by simp [workerStep, byWorker], by simpa [workerStep] using h⟩
    | crashed => exact ⟨[], by simp [workerStep, byWorker], by simpa [workerStep] using h⟩

end shape

section moves

/-- A move of the calling thread leaves the worker, the device handle and the
buffer size alone and adds caller events only. -/
theorem move_caller (m : Move) (s : CcdPlayerOne) (hm : m ≠ .worker) :
    (move m s).imageWaitingThread = s.imageWaitingThread ∧
    (move m s).pCamera = s.pCamera ∧
    (move m s).m_nCurrentBufferSize = s.m_nCurrentBufferSize ∧
    (s.bAbortBulb = true → (move m s).bAbortBulb = true) ∧
    ∃ es, (move m s).log = s.log ++ byCaller es := by
  cases m with
  | worker => exact absurd rfl hm
  | abortFlag => exact ⟨rfl, rfl, rfl, fun _ => rfl, [], by simp [move, byCaller]⟩
  | stop ok =>
    cases hc : s.pCamera with
    | none => exact ⟨by simp [move, hc], by simp [move, hc], by simp [move, hc],
        by simp [move, hc], [], by simp [move, hc, byCaller]⟩
    | some c =>
      exact ⟨by simp [move, hc, CcdPlayerOne.record], by simp [move, hc, CcdPlayerOne.record],
        by simp [move, hc, CcdPlayerOne.record], by simp [move, hc, CcdPlayerOne.record],
        _, by simp [move, hc, CcdPlayerOne.record, byCaller]; rfl⟩
  | setExposure v first retry =>
    cases hc : s.pCamera with
    | none =>
      exact ⟨by simp [move, CcdPlayerOne.SetExposure, hc],
        by simp [move, CcdPlayerOne.SetExposure, hc],
        by simp [move, CcdPlayerOne.SetExposure, hc],
        by simp [move, CcdPlayerOne.SetExposure, hc],
        [], by simp [move, CcdPlayerOne.SetExposure, hc, byCaller]⟩
    | some c =>
      have hlog := SetExposure_open s v first retry (by simp [hc])
      refine ⟨?_, ?_, ?_, ?_, _, hlog.2.1⟩ <;>
        cases first <;> cases retry <;>
          simp [move, CcdPlayerOne.SetExposure, hc, PlayerOneCamera.SetExposure,
            PlayerOneCamera.SetIntConfig, CcdPlayerOne.record]
  | getExposure r =>
    cases hc : s.pCamera with
    | none =>
      exact ⟨by simp [move, CcdPlayerOne.GetExposure, hc],
        by simp [move, CcdPlayerOne.GetExposure, hc],
        by simp [move, CcdPlayerOne.GetExposure, hc],
        by simp [move, CcdPlayerOne.GetExposure, hc],
        [], by simp [move, CcdPlayerOne.GetExposure, hc, byCaller]⟩
    | some c =>
      exact ⟨by simp [move, CcdPlayerOne.GetExposure, hc, CcdPlayerOne.record],
        by simp [move, CcdPlayerOne.GetExposure, hc, CcdPlayerOne.record],
        by simp [move, CcdPlayerOne.GetExposure, hc, CcdPlayerOne.record],
        by simp [move, CcdPlayerOne.GetExposure, hc, CcdPlayerOne.record],
        _, by simp [move, CcdPlayerOne.GetExposure, hc, CcdPlayerOne.record, byCaller]; rfl⟩
  | getGain r =>
    cases hc : s.pCamera with
    | none =>
      exact ⟨by simp [move, CcdPlayerOne.GetGain, hc],
        by simp [move, CcdPlayerOne.GetGain, hc],
        by simp [move, CcdPlayerOne.GetGain, hc],
        by simp [move, CcdPlayerOne.GetGain, hc],
        [], by simp [move, CcdPlayerOne.GetGain, hc, byCaller]⟩
    | some c =>
      exact ⟨by simp [move, CcdPlayerOne.GetGain, hc, CcdPlayerOne.record],
        by simp [move, CcdPlayerOne.GetGain, hc, CcdPlayerOne.record],
        by simp [move, CcdPlayerOne.GetGain, hc, CcdPlayerOne.record],
        by simp [move, CcdPlayerOne.GetGain, hc, CcdPlayerOne.record],
        _, by simp [move, CcdPlayerOne.GetGain, hc, CcdPlayerOne.record, byCaller]; rfl⟩
  | getQuality r =>
    cases hc : s.pCamera with
    | none =>
      exact ⟨by simp [move, CcdPlayerOne.GetQuality, hc],
        by simp [move, CcdPlayerOne.GetQuality, hc],
        by simp [move, CcdPlayerOne.GetQuality, hc],
        by simp [move, CcdPlayerOne.GetQuality, hc],
        [], by simp [move, CcdPlayerOne.GetQuality, hc, byCaller]⟩
    | some c =>
      exact ⟨by simp [move, CcdPlayerOne.GetQuality, hc, CcdPlayerOne.record],
        by simp [move, CcdPlayerOne.GetQuality, hc, CcdPlayerOne.record],
        by simp [move, CcdPlayerOne.GetQuality, hc, CcdPlayerOne.record],
        by simp [move, CcdPlayerOne.GetQuality, hc, CcdPlayerOne.record],
        _, by simp [move, CcdPlayerOne.GetQuality, hc, CcdPlayerOne.record, byCaller]; rfl⟩

theorem workerEvents_byCaller (es : List Event) : workerEvents (byCaller es) = [] :=
  workerEvents_caller es

theorem workerEvents_byWorker (es : List Event) : workerEvents (byWorker es) = es :=
  workerEvents_worker es

theorem Shape_congr (s s' : CcdPlayerOne) (W : List Event)
    (h : s'.imageWaitingThread = s.imageWaitingThread) (hs : Shape s W) : Shape s' W := by
  unfold Shape at *
  rw [h]
  exact hs

theorem move_shape (m : Move) (s : CcdPlayerOne) (W : List Event) (h : Shape s W) :
    ∃ t, (move m s).log = s.log ++ t ∧ Shape (move m s) (W ++ workerEvents t) := by
  by_cases hm : m = .worker
  · subst hm
    obtain ⟨es, hl, hs⟩ := workerStep_shape s W h
    exact ⟨byWorker es, hl, by rw [workerEvents_byWorker]; exact hs⟩
  · obtain ⟨ht, -, -, -, es, hl⟩ := move_caller m s hm
    refine ⟨byCaller es, hl, ?_⟩
    rw [workerEvents_byCaller, List.append_nil]
    exact Shape_congr s _ W ht h

/-- Along every schedule the worker events of the attempt keep their shape. -/
theorem run_shape (ms : List Move) (s : CcdPlayerOne) (W : List Event) (h : Shape s W) :
    ∃ t, (run ms s).log = s.log ++ t ∧ Shape (run ms s) (W ++ workerEvents t) := by
  induction ms generalizing s W with
  | nil => exact ⟨[], by simp [run], by simpa [run, workerEvents] using h⟩
  | cons m ms ih =>
    obtain ⟨t1, hl1, hs1⟩ := move_shape m s W h
    obtain ⟨t2, hl2, hs2⟩ := ih (move m s) _ hs1
    refine ⟨t1 ++ t2, by simp [run, hl2, hl1], ?_⟩
    rw [workerEvents_append, ← List.append_assoc]
    exact hs2

theorem run_append (ms ms' : List Move) (s : CcdPlayerOne) :
    run (ms ++ ms') s = run ms' (run ms s) := by
  induction ms generalizing s with
  | nil => rfl
  | cons m ms ih => simp [run, ih]

theorem run_frame (ms : List Move) (s : CcdPlayerOne) :
    (run ms s).pCamera = s.pCamera ∧
    (run ms s).m_nCurrentBufferSize = s.m_nCurrentBufferSize ∧
    (s.bAbortBulb = true → (run ms s).bAbortBulb = true) := by
  induction ms generalizing s with
  | nil => exact ⟨rfl, rfl, id⟩
  | cons m ms ih =>
    obtain ⟨h1, h2, h3⟩ := ih (move m s)
    by_cases hm : m = .worker
    · subst hm
      refine ⟨by rw [run, h1]; exact workerStep_pCamera s,
        by rw [run, h2]; exact workerStep_bufferSize s, ?_⟩
      intro hf
      apply h3
      show (workerStep s).bAbortBulb = true
      unfold workerStep
      repeat' split
      all_goals simp [CcdPlayerOne.record, CcdPlayerOne.setWorker, hf]
    · obtain ⟨-, hp, hb, hf, -⟩ := move_caller m s hm
      exact ⟨by rw [run, h1, hp], by rw [run, h2, hb], fun h => h3 (hf h)⟩

/-- The shape at the end of a schedule that starts with a fresh worker. -/
theorem fresh_shape (ms : List Move) (s : CcdPlayerOne) (w : Worker)
    (hw : s.imageWaitingThread = some w) (hpc : w.pc = .start) :
    Shape (run ms s) (attemptEvents s (run ms s)) := by
  have h0 : Shape s [] := by
    unfold Shape
    rw [hw]
    simp [hpc, noNotification]
  obtain ⟨t, hl, hs⟩ := run_shape ms s [] h0
  rw [attemptEvents_of_trace s _ t hl]
  simpa using hs

end moves

section progress

/-- With the flag set before the test after the loop, a worker step stays on
the way to `aborted` and uses up one of the remaining steps. -/
theorem workerStep_doomed (s : CcdPlayerOne) (W : List Event) (h : Doomed s W) :
    ∃ es, (workerStep s).log = s.log ++ byWorker es ∧ Doomed (workerStep s) (W ++ es) ∧
      abortLeft (workerStep s) ≤ abortLeft s - 1 := by
  obtain ⟨cam, cache, buf, thr, flag, log⟩ := s
  obtain ⟨hf, hc, h⟩ := h
  simp only at hf hc
  subst hf
  obtain ⟨c, hc⟩ := Option.isSome_iff_exists.1 hc
  subst hc
  cases thr with
  | none => simp at h
  | some w =>
    obtain ⟨nW, nH, dev, pc, q, res, st, bl⟩ := w
    cases pc with
    | start =>
      refine ⟨[.POAStartExposure true dev.start], ?_, ?_, ?_⟩
      · simp [workerStep, CcdPlayerOne.setWorker, CcdPlayerOne.record, byWorker,
          PlayerOneCamera.StartExposure]
      · cases hs : dev.start <;>
          simp [workerStep, CcdPlayerOne.setWorker, CcdPlayerOne.record,
            PlayerOneCamera.StartExposure, Doomed, hs, noNotification, List.filter_append,
            Event.isNotification] at h ⊢ <;> exact h
      · cases hs : dev.start <;>
          simp [workerStep, CcdPlayerOne.setWorker, CcdPlayerOne.record,
            PlayerOneCamera.StartExposure, abortLeft, abortSteps, hs]
    | sleep =>
      refine ⟨[.sleep 100], ?_, ?_, ?_⟩
      · simp [workerStep, CcdPlayerOne.setWorker, CcdPlayerOne.record, byWorker]
      · simp [workerStep, CcdPlayerOne.setWorker, CcdPlayerOne.record, Doomed, noNotification,
          List.filter_append, Event.isNotification] at h ⊢
        exact h
      · simp [workerStep, CcdPlayerOne.setWorker, CcdPlayerOne.record, abortLeft, abortSteps]
    | check =>
      refine ⟨[], ?_, ?_, ?_⟩
      · simp [workerStep, CcdPlayerOne.setWorker, byWorker]
      · simp [workerStep, CcdPlayerOne.setWorker, Doomed] at h ⊢
        exact h
      · simp [workerStep, CcdPlayerOne.setWorker, abortLeft, abortSteps]
    | query =>
      refine ⟨[.POAGetCameraState (dev.state q).result], ?_, ?_, ?_⟩
      · simp [workerStep, CcdPlayerOne.setWorker, CcdPlayerOne.record, byWorker,
          PlayerOneCamera.GetCameraState]
      · simp [workerStep, CcdPlayerOne.setWorker, CcdPlayerOne.record,
          PlayerOneCamera.GetCameraState, Doomed, noNotification, List.filter_append,
          Event.isNotification] at h ⊢
        exact h
      · simp [workerStep, CcdPlayerOne.setWorker, CcdPlayerOne.record,
          PlayerOneCamera.GetCameraState, abortLeft, abortSteps]
    | assign =>
      cases res with
      | none => simp at h
      | some a =>
        refine ⟨[], ?_, ?_, ?_⟩
        · cases hr : a.result <;> simp [workerStep, CcdPlayerOne.setWorker, byWorker, hr]
        · cases hr : a.result with
          | none =>
            by_cases hi : a.indeterminate = .STATE_EXPOSING <;>
              simp [workerStep, CcdPlayerOne.setWorker, Doomed, hr, hi] at h ⊢ <;> exact h
          | some x =>
            by_cases hi : x = .STATE_EXPOSING <;>
              simp [workerStep, CcdPlayerOne.setWorker, Doomed, hr, hi] at h ⊢ <;> exact h
        · cases hr : a.result with
          | none =>
            by_cases hi : a.indeterminate = .STATE_EXPOSING <;>
              simp [workerStep, CcdPlayerOne.setWorker, abortLeft, abortSteps, hr, hi]
          | some x =>
            by_cases hi : x = .STATE_EXPOSING <;>
              simp [workerStep, CcdPlayerOne.setWorker, abortLeft, abortSteps, hr, hi]
    | afterLoop =>
      refine ⟨[], ?_, ?_, ?_⟩
      · simp [workerStep, CcdPlayerOne.setWorker, byWorker]
      · simp [workerStep, CcdPlayerOne.setWorker, Doomed] at h ⊢
        exact h
      · simp [workerStep, CcdPlayerOne.setWorker, abortLeft, abortSteps]
    | abortStop =>
      refine ⟨[.POAStopExposure dev.stop], ?_, ?_, ?_⟩
      · simp [workerStep, CcdPlayerOne.setWorker, CcdPlayerOne.record, byWorker,
          PlayerOneCamera.StopExposure]
      · simp only at h
        simp only [workerStep, CcdPlayerOne.setWorker, CcdPlayerOne.record,
          PlayerOneCamera.StopExposure, Doomed]
        exact ⟨by simp, by simp, noNotification_append W _ h rfl, W, dev.stop, rfl⟩
      · simp [workerStep, CcdPlayerOne.setWorker, CcdPlayerOne.record,
          PlayerOneCamera.StopExposure, abortLeft, abortSteps]
    | abortEmit =>
      refine ⟨[.aborted], ?_, ?_, ?_⟩
      · simp [workerStep, CcdPlayerOne.setWorker, CcdPlayerOne.record, byWorker]
      · simp only at h
        obtain ⟨hn, W0, r, hW⟩ := h
        simp only [workerStep, CcdPlayerOne.setWorker, CcdPlayerOne.record, Doomed]
        refine ⟨by simp, by simp, W0, r, by simp [hW], ?_⟩
        rw [hW] at hn
        unfold noNotification at hn ⊢
        rw [List.filter_append] at hn
        exact (List.append_eq_nil.1 hn).1
      · simp [workerStep, CcdPlayerOne.setWorker, CcdPlayerOne.record, abortLeft, abortSteps]
    | done =>
      exact ⟨[], by simp [workerStep, byWorker],
        by simp only [workerStep, List.append_nil, Doomed]; exact ⟨by simp, by simp, h⟩,
        by simp [workerStep, abortLeft, abortSteps]⟩
    | ready => simp at h
    | alloc => simp at h
    | read => simp at h
    | emit => simp at h
    | crashed => simp at h

end progress

section progressRuns

theorem Doomed_congr (s s' : CcdPlayerOne) (W : List Event)
    (ht : s'.imageWaitingThread = s.imageWaitingThread) (hp : s'.pCamera = s.pCamera)
    (hf : s'.bAbortBulb = true) (h : Doomed s W) : Doomed s' W := by
  unfold Doomed at *
  rw [ht, hp]
  exact ⟨hf, h.2.1, h.2.2⟩

theorem abortLeft_congr (s s' : CcdPlayerOne)
    (ht : s'.imageWaitingThread = s.imageWaitingThread) : abortLeft s' = abortLeft s := by
  unfold abortLeft
  rw [ht]

theorem finishLeft_congr (s s' : CcdPlayerOne)
    (ht : s'.imageWaitingThread = s.imageWaitingThread) : finishLeft s' = finishLeft s := by
  unfold finishLeft
  rw [ht]

/-- Along every schedule a doomed attempt stays doomed, and each worker step
uses up one of the remaining steps. -/
theorem run_doomed (ms : List Move) (s : CcdPlayerOne) (W : List Event) (h : Doomed s W) :
    ∃ t, (run ms s).log = s.log ++ t ∧ Doomed (run ms s) (W ++ workerEvents t) ∧
      abortLeft (run ms s) ≤ abortLeft s - workerMoves ms := by
  induction ms generalizing s W with
  | nil =>
    exact ⟨[], by simp [run], by simpa [run, workerEvents] using h, by simp [run, workerMoves]⟩
  | cons m ms ih =>
    by_cases hm : m = .worker
    · subst hm
      obtain ⟨es, hl1, hd1, hle1⟩ := workerStep_doomed s W h
      obtain ⟨t2, hl2, hd2, hle2⟩ := ih (workerStep s) _ hd1
      refine ⟨byWorker es ++ t2, by simp [run, move, hl2, hl1], ?_, ?_⟩
      · rw [workerEvents_append, workerEvents_byWorker, ← List.append_assoc]
        exact hd2
      · simp only [run, move, workerMoves]
        omega
    · obtain ⟨ht, hp, -, hf, es, hl1⟩ := move_caller m s hm
      have hd1 : Doomed (move m s) W := Doomed_congr s _ W ht hp (hf h.1) h
      obtain ⟨t2, hl2, hd2, hle2⟩ := ih (move m s) _ hd1
      refine ⟨byCaller es ++ t2, by simp [run, hl2, hl1], ?_, ?_⟩
      · rw [workerEvents_append, workerEvents_byCaller, List.nil_append]
        exact hd2
      · have hw : workerMoves (m :: ms) = workerMoves ms := by
          cases m with
          | worker => exact absurd rfl hm
          | abortFlag => rfl
          | stop ok => rfl
          | setExposure v first retry => rfl
          | getExposure r => rfl
          | getGain r => rfl
          | getQuality r => rfl
        rw [hw]
        rw [abortLeft_congr s _ ht] at hle2
        exact hle2

/-- After the polling loop, with a device open and a buffer size that is not
negative, a worker step stays on the way to `done` and uses up one of the
remaining steps. -/
theorem workerStep_finishing (s : CcdPlayerOne) (h : Finishing s) :
    Finishing (workerStep s) ∧ finishLeft (workerStep s) ≤ finishLeft s - 1 := by
  obtain ⟨cam, cache, buf, thr, flag, log⟩ := s
  obtain ⟨hc, hb, h⟩ := h
  simp only at hc hb
  obtain ⟨c, hc⟩ := Option.isSome_iff_exists.1 hc
  subst hc
  have hb' : ¬ buf < 0 := not_lt.2 hb
  cases thr with
  | none => simp at h
  | some w =>
    obtain ⟨nW, nH, dev, pc, q, res, st, bl⟩ := w
    cases pc with
    | afterLoop =>
      cases flag <;>
        simp [workerStep, CcdPlayerOne.setWorker, Finishing, Pc.pastLoop, finishLeft,
          finishSteps, hb]
    | ready =>
      by_cases hr : dev.ready = some true <;>
        simp [workerStep, CcdPlayerOne.setWorker, CcdPlayerOne.record,
          PlayerOneCamera.ImageReady, Finishing, Pc.pastLoop, finishLeft, finishSteps, hb, hr]
    | alloc =>
      simp [workerStep, CcdPlayerOne.setWorker, Finishing, Pc.pastLoop, finishLeft,
        finishSteps, hb, hb']
    | read =>
      cases hr : dev.read bl (readTimeout cache) <;>
        simp [workerStep, CcdPlayerOne.setWorker, CcdPlayerOne.record,
          PlayerOneCamera.GetImageData, Finishing, Pc.pastLoop, finishLeft, finishSteps, hb, hr]
    | emit =>
      simp [workerStep, CcdPlayerOne.setWorker, CcdPlayerOne.record, Finishing, Pc.pastLoop,
        finishLeft, finishSteps, hb]
    | abortStop =>
      simp [workerStep, CcdPlayerOne.setWorker, CcdPlayerOne.record,
        PlayerOneCamera.StopExposure, Finishing, Pc.pastLoop, finishLeft, finishSteps, hb]
    | abortEmit =>
      simp [workerStep, CcdPlayerOne.setWorker, CcdPlayerOne.record, Finishing, Pc.pastLoop,
        finishLeft, finishSteps, hb]
    | done => simp [workerStep, Finishing, Pc.pastLoop, finishLeft, finishSteps, hb]
    | start => simp [Pc.pastLoop] at h
    | sleep => simp [Pc.pastLoop] at h
    | check => simp [Pc.pastLoop] at h
    | query => simp [Pc.pastLoop] at h
    | assign => simp [Pc.pastLoop] at h
    | crashed => simp [Pc.pastLoop] at h

theorem run_finishing (ms : List Move) (s : CcdPlayerOne) (h : Finishing s) :
    Finishing (run ms s) ∧ finishLeft (run ms s) ≤ finishLeft s - workerMoves ms := by
  induction ms generalizing s with
  | nil => exact ⟨h, by simp [run, workerMoves]⟩
  | cons m ms ih =>
    by_cases hm : m = .worker
    · subst hm
      obtain ⟨hf1, hle1⟩ := workerStep_finishing s h
      obtain ⟨hf2, hle2⟩ := ih (workerStep s) hf1
      refine ⟨hf2, ?_⟩
      simp only [run, move, workerMoves]
      omega
    · obtain ⟨ht, hp, hb, -, -⟩ := move_caller m s hm
      have hf1 : Finishing (move m s) := by
        unfold Finishing at *
        rw [ht, hp, hb]
        exact h
      obtain ⟨hf2, hle2⟩ := ih (move m s) hf1
      refine ⟨hf2, ?_⟩
      have hw : workerMoves (m :: ms) = workerMoves ms := by
        cases m with
        | worker => exact absurd rfl hm
        | abortFlag => rfl
        | stop ok => rfl
        | setExposure v first retry => rfl
        | getExposure r => rfl
        | getGain r => rfl
        | getQuality r => rfl
      rw [hw]
      rw [finishLeft_congr s _ ht] at hle2
      exact hle2

/-- A finishing worker with no step left is done. -/
theorem Finishing_done (s : CcdPlayerOne) (h : Finishing s) (h0 : finishLeft s = 0) :
    workerPc s = some .done := by
  obtain ⟨-, -, h⟩ := h
  unfold finishLeft at h0
  unfold workerPc
  cases ht : s.imageWaitingThread with
  | none => simp [ht] at h
  | some w =>
    simp only [ht] at h h0
    cases hpc : w.pc <;> simp [hpc, Pc.pastLoop, finishSteps] at h h0 ⊢

/-- A doomed worker with no step left is done. -/
theorem Doomed_done (s : CcdPlayerOne) (W : List Event) (h : Doomed s W)
    (h0 : abortLeft s = 0) : workerPc s = some .done := by
  obtain ⟨-, -, h⟩ := h
  unfold abortLeft at h0
  unfold workerPc
  cases ht : s.imageWaitingThread with
  | none => simp [ht] at h
  | some w =>
    simp only [ht] at h h0
    cases hpc : w.pc <;> simp [hpc, abortSteps] at h h0 ⊢

end progressRuns

section outcomes

theorem noNotification_mem {W : List Event} (h : noNotification W) {e : Event} (he : e ∈ W) :
    e.isNotification = false := by
  unfold noNotification at h
  have := List.filter_eq_nil_iff.1 h e he
  simpa using this

theorem count_of_noNotification {W : List Event} (h : noNotification W) :
    (W.filter Event.isNotification).length = 0 := by
  unfold noNotification at h
  simp [h]

/-- At most one signal at any time, exactly one once the worker is done. -/
theorem Shape_count (s : CcdPlayerOne) (W : List Event) (h : Shape s W) :
    (W.filter Event.isNotification).length ≤ 1 ∧
    (workerPc s = some .done → (W.filter Event.isNotification).length = 1) := by
  unfold Shape at h
  unfold workerPc
  cases ht : s.imageWaitingThread with
  | none => simp [ht] at h
  | some w =>
    simp only [ht] at h
    cases hpc : w.pc <;> simp only [hpc] at h <;>
      simp only [Option.map_some', hpc, Option.some.injEq, reduceCtorEq, false_implies,
        and_true, true_implies]
    case done =>
      rcases h with ⟨W0, len, t, hW, hn, -⟩ | ⟨W0, r, hW, hn⟩ <;>
        · unfold noNotification at hn
          simp [hW, List.filter_append, hn, Event.isNotification]
    all_goals first
      | (rw [count_of_noNotification h]; omega)
      | (rw [count_of_noNotification h.1]; omega)

/-- The signal `aborted` only ever follows a stop command, and excludes
`imageReady`. -/
theorem Shape_aborted (s : CcdPlayerOne) (W : List Event) (h : Shape s W)
    (ha : Event.aborted ∈ W) :
    ∃ W0 r, W = W0 ++ [.POAStopExposure r, .aborted] ∧ noNotification W0 := by
  unfold Shape at h
  cases ht : s.imageWaitingThread with
  | none => simp [ht] at h
  | some w =>
    simp only [ht] at h
    cases hpc : w.pc <;> simp only [hpc] at h
    case done =>
      rcases h with ⟨W0, len, t, hW, hn, -⟩ | ⟨W0, r, hW, hn⟩
      · exfalso
        rw [hW] at ha
        rcases List.mem_append.1 ha with h1 | h1
        · simpa [Event.isNotification] using noNotification_mem hn h1
        · simp at h1
      · exact ⟨W0, r, hW, hn⟩
    all_goals first
      | (exfalso; simpa [Event.isNotification] using noNotification_mem h ha)
      | (exfalso; simpa [Event.isNotification] using noNotification_mem h.1 ha)

/-- The signal `imageReady` only ever follows a ready check that returned true
and a successful image read. -/
theorem Shape_imageReady (s : CcdPlayerOne) (W : List Event) (h : Shape s W)
    (nW nH : Int) (len : Nat) (ha : Event.imageReady nW nH len ∈ W) :
    ∃ W0 t, W = W0 ++ [.POAGetImageData len t true, .imageReady nW nH len] ∧
      noNotification W0 ∧ Event.POAImageReady (some true) ∈ W0 := by
  unfold Shape at h
  cases ht : s.imageWaitingThread with
  | none => simp [ht] at h
  | some w =>
    simp only [ht] at h
    cases hpc : w.pc <;> simp only [hpc] at h
    case done =>
      rcases h with ⟨W0, len', t, hW, hn, hr⟩ | ⟨W0, r, hW, hn⟩
      · rw [hW] at ha
        rcases List.mem_append.1 ha with h1 | h1
        · exfalso
          simpa [Event.isNotification] using noNotification_mem hn h1
        · simp at h1
          obtain ⟨h1, h2, h3⟩ := h1
          subst h1 h2 h3
          exact ⟨W0, t, hW, hn, hr⟩
      · exfalso
        rw [hW] at ha
        rcases List.mem_append.1 ha with h1 | h1
        · simpa [Event.isNotification] using noNotification_mem hn h1
        · simp at h1
    all_goals first
      | (exfalso; simpa [Event.isNotification] using noNotification_mem h ha)
      | (exfalso; simpa [Event.isNotification] using noNotification_mem h.1 ha)

theorem started_fresh {b : Build} {wait : Nat} {d : StartScript} {e : ExposureScript}
    {s s1 : CcdPlayerOne} (h : s.StartExposure b wait d e = .ok (true, s1)) :
    ∃ w, s1.imageWaitingThread = some w ∧ w.pc = .start ∧ s1.pCamera.isSome = true ∧
      s1.bAbortBulb = false := by
  obtain ⟨cam, sj, w, h', fmt, bits, bytes, -, -, -, -, -, hs1⟩ := StartExposure_true h
  subst hs1
  exact ⟨_, rfl, rfl, rfl, rfl⟩

end outcomes

section outcomeClaims

theorem finishSteps_le (pc : Pc) : finishSteps pc ≤ 6 := by
  cases pc <;> decide

theorem abortSteps_le (pc : Pc) : abortSteps pc ≤ 8 := by
  cases pc <;> decide

theorem finishLeft_le (s : CcdPlayerOne) : finishLeft s ≤ 6 := by
  unfold finishLeft
  cases s.imageWaitingThread with
  | none => exact Nat.zero_le _
  | some w => exact finishSteps_le w.pc

theorem abortLeft_le (s : CcdPlayerOne) : abortLeft s ≤ 8 := by
  unfold abortLeft
  cases s.imageWaitingThread with
  | none => exact Nat.zero_le _
  | some w => exact abortSteps_le w.pc

/-- C4 (as stated) fails: with the geometry -1 × 1 `StartExposure` returns true
and stores the buffer size -2; the polling loop ends at the first tick, the
image is ready, and the construction of the buffer throws: the worker stops
for good (a further step changes nothing) having emitted neither signal. -/
theorem C4_counterexample :
    (opened demoCamera).StartExposure releaseBuild 0 negativeStart (exposingFor 0) =
      .ok (true, negativeStarted) ∧
    loopEnded (workerSteps 6 negativeStarted) = true ∧
    workerPc (workerSteps 8 negativeStarted) = some .crashed ∧
    workerPc (workerStep (workerSteps 8 negativeStarted)) = some .crashed ∧
    attemptEvents negativeStarted (workerStep (workerSteps 8 negativeStarted)) =
      [.POAStartExposure true true, .sleep 100, .POAGetCameraState (some (.terminal 1)),
       .POAImageReady (some true)] := by
  refine ⟨?_, by decide, by decide, by decide, by decide⟩
  rw [StartExposure_unfold releaseBuild 0 negativeStart (exposingFor 0) (opened demoCamera)
    (opened demoCamera) demoCamera rfl rfl]
  simp [negativeStart, demoStart, PlayerOneImgFormatSize, negativeStarted, opened,
    CcdPlayerOne.ctor, mulInt32, wrapInt32]

/-- C4 (amended): after a `StartExposure` that returned true with a buffer size
that is not negative, under every interleaving with the calling thread: at
no time has the worker emitted more than one signal, and once the polling
loop has ended, six more worker steps finish the worker with exactly one
signal emitted, `imageReady` or `aborted`. -/
theorem C4_one_outcome (b : Build) (wait : Nat) (d : StartScript) (e : ExposureScript)
    (s s1 : CcdPlayerOne) (ms ms' : List Move)
    (hstart : s.StartExposure b wait d e = .ok (true, s1))
    (hbuf : 0 ≤ s1.GetBufferSize)
    (hloop : loopEnded (run ms s1) = true)
    (hsteps : 6 ≤ workerMoves ms') :
    ((attemptEvents s1 (run ms s1)).filter Event.isNotification).length ≤ 1 ∧
    workerPc (run (ms ++ ms') s1) = some .done ∧
    ((attemptEvents s1 (run (ms ++ ms') s1)).filter Event.isNotification).length = 1 := by
  obtain ⟨w, hw, hpc, hcam, -⟩ := started_fresh hstart
  refine ⟨(Shape_count _ _ (fresh_shape ms s1 w hw hpc)).1, ?_⟩
  have hfin : Finishing (run ms s1) := by
    obtain ⟨hp, hb, -⟩ := run_frame ms s1
    refine ⟨by rw [hp]; exact hcam, by rw [hb]; exact hbuf, ?_⟩
    unfold loopEnded workerPc at hloop
    cases ht : (run ms s1).imageWaitingThread with
    | none => simp [ht] at hloop
    | some w' => simpa [ht] using hloop
  obtain ⟨hf2, hle⟩ := run_finishing ms' (run ms s1) hfin
  have hmax : finishLeft (run ms s1) ≤ 6 := finishLeft_le _
  have hdone : workerPc (run (ms ++ ms') s1) = some .done := by
    rw [run_append]
    exact Finishing_done _ hf2 (by omega)
  exact ⟨hdone, (Shape_count _ _ (fresh_shape (ms ++ ms') s1 w hw hpc)).2 hdone⟩

/-- C4 (amended) at an input: a 4 × 3 sensor, the loop ends at the first tick. -/
theorem C4_one_outcome_witness :
    ((attemptEvents (startedFrom (opened demoCamera) (exposingFor 0))
        (run (List.replicate 6 .worker)
          (startedFrom (opened demoCamera) (exposingFor 0)))).filter
            Event.isNotification).length ≤ 1 ∧
    workerPc (run (List.replicate 6 .worker ++ List.replicate 6 .worker)
      (startedFrom (opened demoCamera) (exposingFor 0))) = some .done ∧
    ((attemptEvents (startedFrom (opened demoCamera) (exposingFor 0))
        (run (List.replicate 6 .worker ++ List.replicate 6 .worker)
          (startedFrom (opened demoCamera) (exposingFor 0)))).filter
            Event.isNotification).length = 1 :=
  C4_one_outcome releaseBuild 0 demoStart (exposingFor 0) (opened demoCamera)
    (startedFrom (opened demoCamera) (exposingFor 0))
    (List.replicate 6 .worker) (List.replicate 6 .worker)
    (demoStart_run (opened demoCamera) (exposingFor 0) demoCamera rfl rfl)
    (by decide) (by decide) (by decide)

/-- C18: on every path on which the worker emits `aborted`, whatever the
device answered and however the calling thread interleaves, the worker's
event right before `aborted` is a stop command (with any result), and no
`imageReady` is emitted on that path. -/
theorem C18_abort_stops_device (b : Build) (wait : Nat) (d : StartScript) (e : ExposureScript)
    (s s1 : CcdPlayerOne) (ms : List Move)
    (hstart : s.StartExposure b wait d e = .ok (true, s1))
    (habort : Event.aborted ∈ attemptEvents s1 (run ms s1)) :
    (∃ W0 r, attemptEvents s1 (run ms s1) = W0 ++ [.POAStopExposure r, .aborted] ∧
      noNotification W0) ∧
    (attemptEvents s1 (run ms s1)).filter Event.isNotification = [.aborted] := by
  obtain ⟨w, hw, hpc, -, -⟩ := started_fresh hstart
  obtain ⟨W0, r, hW, hn⟩ := Shape_aborted _ _ (fresh_shape ms s1 w hw hpc) habort
  refine ⟨⟨W0, r, hW, hn⟩, ?_⟩
  unfold noNotification at hn
  simp [hW, List.filter_append, hn, Event.isNotification]

/-- C18 at an input: the hardware start is refused. -/
theorem C18_abort_stops_device_witness :
    (∃ W0 r, attemptEvents (startedFrom (opened demoCamera) { exposingFor 0 with start := false })
        (run (List.replicate 3 .worker)
          (startedFrom (opened demoCamera) { exposingFor 0 with start := false })) =
        W0 ++ [.POAStopExposure r, .aborted] ∧ noNotification W0) ∧
    (attemptEvents (startedFrom (opened demoCamera) { exposingFor 0 with start := false })
        (run (List.replicate 3 .worker)
          (startedFrom (opened demoCamera) { exposingFor 0 with start := false }))).filter
            Event.isNotification = [.aborted] :=
  C18_abort_stops_device releaseBuild 0 demoStart { exposingFor 0 with start := false }
    (opened demoCamera) (startedFrom (opened demoCamera) { exposingFor 0 with start := false })
    (List.replicate 3 .worker)
    (demoStart_run (opened demoCamera) _ demoCamera rfl rfl) (by decide)

end outcomeClaims

section abortClaims

theorem Doomed_noImageReady (s : CcdPlayerOne) (W : List Event) (h : Doomed s W)
    (nW nH : Int) (len : Nat) : Event.imageReady nW nH len ∉ W := by
  intro ha
  obtain ⟨-, -, h⟩ := h
  cases ht : s.imageWaitingThread with
  | none => simp [ht] at h
  | some w =>
    simp only [ht] at h
    cases hpc : w.pc <;> simp only [hpc] at h
    case done =>
      obtain ⟨W0, r, hW, hn⟩ := h
      rw [hW] at ha
      rcases List.mem_append.1 ha with h1 | h1
      · simpa [Event.isNotification] using noNotification_mem hn h1
      · simp at h1
    all_goals first
      | exact h
      | simpa [Event.isNotification] using noNotification_mem h ha
      | simpa [Event.isNotification] using noNotification_mem h.1 ha

end abortClaims

section phases

/-- `StartExposure` is its statements up to the state query, the statement
`bAbortBulb = false`, and the statements after it. -/
theorem StartExposure_phases (b : Build) (wait : Nat) (d : StartScript) (e : ExposureScript)
    (s : CcdPlayerOne) :
    s.StartExposure b wait d e =
      match s.pCamera with
      | none => .ok (false, s)
      | some _ =>
        match s.StartExposureHead wait d with
        | .error h => .error h
        | .ok s2 => CcdPlayerOne.StartExposureTail b d e { s2 with bAbortBulb := false } := by
  unfold CcdPlayerOne.StartExposure CcdPlayerOne.StartExposureHead
    CcdPlayerOne.StartExposureTail
  cases s.pCamera with
  | none => rfl
  | some cam =>
    simp only
    cases joinIfJoinable wait s with
    | error h => rfl
    | ok s1 =>
      simp only
      cases CcdPlayerOne.AbortExposure 0 0 d.stop s1 with
      | error h => rfl
      | ok a => rfl

/-- The statements after `bAbortBulb = false` leave the flag as they find it,
and when they return true a device is open and a fresh worker exists. -/
theorem StartExposureTail_true {b : Build} {d : StartScript} {e : ExposureScript}
    {x s1 : CcdPlayerOne} (h : x.StartExposureTail b d e = .ok (true, s1)) :
    s1.bAbortBulb = x.bAbortBulb ∧ s1.pCamera.isSome = true ∧
    ∃ w, s1.imageWaitingThread = some w ∧ w.pc = .start := by
  unfold CcdPlayerOne.StartExposureTail at h
  simp only at h
  split at h
  · simp at h
  · split at h
    · simp at h
    · split at h
      · simp at h
      · split at h
        · simp at h
        · rename_i hq
          simp only [Except.ok.injEq, Prod.mk.injEq, true_and] at h
          subst h
          cases hc : x.pCamera with
          | none =>
            exfalso
            apply hq
            left
            simp [CcdPlayerOne.GetExposure, CcdPlayerOne.record, hc]
          | some cam =>
            refine ⟨?_, ?_, _, rfl, rfl⟩
            · simp [CcdPlayerOne.GetQuality, CcdPlayerOne.GetGain, CcdPlayerOne.GetExposure,
                CcdPlayerOne.record, hc]
            · simp [CcdPlayerOne.GetQuality, CcdPlayerOne.GetGain, CcdPlayerOne.GetExposure,
                CcdPlayerOne.record, hc]

/-- The statements after `bAbortBulb = false` neither read nor write the flag:
a write of the flag before them has the effect of the same write after
them. -/
theorem StartExposureTail_flag (b : Build) (d : StartScript) (e : ExposureScript)
    (x : CcdPlayerOne) (f : Bool) :
    CcdPlayerOne.StartExposureTail b d e { x with bAbortBulb := f } =
      match x.StartExposureTail b d e with
      | .error h => .error h
      | .ok r => .ok (r.1, { r.2 with bAbortBulb := f }) := by
  unfold CcdPlayerOne.StartExposureTail
  cases d.imageSize with
  | none => rfl
  | some imageSize =>
    cases d.imageFormat with
    | none => rfl
    | some fmt =>
      simp only [PlayerOneCamera.GetImageSize, PlayerOneCamera.GetImageFormat]
      cases PlayerOneImgFormatSize b fmt with
      | none => rfl
      | some size =>
        cases hc : x.pCamera with
        | none =>
          simp [CcdPlayerOne.GetQuality, CcdPlayerOne.GetGain, CcdPlayerOne.GetExposure,
            CcdPlayerOne.record, hc]
        | some cam =>
          cases d.exposure <;> cases d.gain <;> cases d.bin <;>
            simp [CcdPlayerOne.GetQuality, CcdPlayerOne.GetGain, CcdPlayerOne.GetExposure,
              CcdPlayerOne.record, hc, PlayerOneCamera.GetExposure, PlayerOneCamera.GetGain,
              PlayerOneCamera.GetImageBin, PlayerOneCamera.GetIntConfig]

/-- From a state in which the flag is set before the worker's test after the
loop: no `imageReady` under any interleaving, and after eight worker steps
the worker is done, its events ending with a stop command and `aborted`. -/
theorem doomed_outcome (s0 s : CcdPlayerOne) (t : Trace) (ms : List Move)
    (hlog : s.log = s0.log ++ t) (hd : Doomed s (workerEvents t)) :
    (∀ nW nH len, Event.imageReady nW nH len ∉ attemptEvents s0 (run ms s)) ∧
    (8 ≤ workerMoves ms →
      workerPc (run ms s) = some .done ∧
      ∃ W0 r, attemptEvents s0 (run ms s) = W0 ++ [.POAStopExposure r, .aborted] ∧
        noNotification W0) := by
  obtain ⟨t2, hl2, hd2, hle⟩ := run_doomed ms s _ hd
  have hl : (run ms s).log = s0.log ++ (t ++ t2) := by
    rw [hl2, hlog, List.append_assoc]
  rw [attemptEvents_of_trace s0 _ _ hl, workerEvents_append]
  refine ⟨fun nW nH len => Doomed_noImageReady _ _ hd2 nW nH len, ?_⟩
  intro h8
  have hmax := abortLeft_le s
  have hdone : workerPc (run ms s) = some .done := Doomed_done _ _ hd2 (by omega)
  refine ⟨hdone, ?_⟩
  obtain ⟨-, -, h⟩ := hd2
  unfold workerPc at hdone
  cases ht : (run ms s).imageWaitingThread with
  | none => simp [ht] at hdone
  | some w' =>
    simp only [ht, Option.map_some', Option.some.injEq] at hdone h
    simp only [hdone] at h
    exact h

end phases

section abortWindow

/-- C9 (as stated) fails, at both ends of the window.  (1) An `AbortExposure`
issued after the polling loop has exited and before the worker has
delivered its result (its stop command precedes the ready check in the
trace) still ends in `imageReady`; `aborted` is never emitted.  (2) An
`AbortExposure` issued while `StartExposure` is running, before its statement
`bAbortBulb = false`, is erased by that statement: the call returns true and
the attempt ends in `imageReady`. -/
theorem C9_counterexample :
    traceOf (exec releaseBuild lateAbort (opened demoCamera)) =
      .ok [(.caller, .POASetConfig .POA_EXPOSURE 1000000 true),
           (.caller, .POAStopExposure true),
           (.caller, .POAGetCameraState (some (.terminal 1))),
           (.caller, .POAGetImageSize (some (4, 3))),
           (.caller, .POAGetImageFormat (some .POA_RAW16)),
           (.caller, .POAGetConfig .POA_EXPOSURE (some 1000000)),
           (.caller, .POAGetConfig .POA_GAIN (some 180)),
           (.caller, .POAGetImageBin (some 1)),
           (.caller, .threadSwap false),
           (.worker, .POAStartExposure true true),
           (.worker, .sleep 100),
           (.worker, .POAGetCameraState (some (.terminal 1))),
           (.caller, .POAStopExposure true),
           (.worker, .POAImageReady (some true)),
           (.worker, .POAGetImageData 24 1500 true),
           (.worker, .imageReady 4 3 24),
           (.caller, .threadJoin)] ∧
    observe earlyAbort =
      .ok (true,
          [(.caller, .POASetConfig .POA_EXPOSURE 1000000 true),
           (.caller, .POAStopExposure true),
           (.caller, .POAGetCameraState (some (.terminal 1))),
           (.caller, .POAStopExposure true),
           (.caller, .POAGetImageSize (some (4, 3))),
           (.caller, .POAGetImageFormat (some .POA_RAW16)),
           (.caller, .POAGetConfig .POA_EXPOSURE (some 1000000)),
           (.caller, .POAGetConfig .POA_GAIN (some 180)),
           (.caller, .POAGetImageBin (some 1)),
           (.caller, .threadSwap false),
           (.worker, .POAStartExposure true true),
           (.worker, .sleep 100),
           (.worker, .POAGetCameraState (some (.terminal 1))),
           (.worker, .POAImageReady (some true)),
           (.worker, .POAGetImageData 24 1500 true),
           (.worker, .imageReady 4 3 24)]) := by
  exact ⟨rfl, rfl⟩

/-- C9 (amended): an abort whose write of the flag comes after the statement
`bAbortBulb = false` of `StartExposure` and before the worker has passed its
test of the flag after the polling loop always ends in `aborted`, never in
`imageReady`.  First part: the flag is set after `StartExposure` returned, at
a moment at which the worker is about to start the hardware, in the loop, or
at that test.  Second part: the flag is set while `StartExposure` is still
running, when its statements after `bAbortBulb = false` begin.  In both, under
every further interleaving the attempt never emits `imageReady`, and after
eight more worker steps the worker has finished with a stop command followed
by `aborted`.  Third part: those statements do not touch the flag, so a write
of the flag anywhere among them has the effect of a write right before
them. -/
theorem C9_abort_before_test (b : Build) (wait : Nat) (d : StartScript) (e : ExposureScript)
    (s s1 x s2 : CcdPlayerOne) (ms1 ms2 : List Move) :
    (s.StartExposure b wait d e = .ok (true, s1) → beforeTest (run ms1 s1) = true →
      (∀ nW nH len, Event.imageReady nW nH len ∉
        attemptEvents s1 (run (ms1 ++ .abortFlag :: ms2) s1)) ∧
      (8 ≤ workerMoves ms2 →
        workerPc (run (ms1 ++ .abortFlag :: ms2) s1) = some .done ∧
        ∃ W0 r, attemptEvents s1 (run (ms1 ++ .abortFlag :: ms2) s1) =
          W0 ++ [.POAStopExposure r, .aborted] ∧ noNotification W0)) ∧
    (x.bAbortBulb = true → x.StartExposureTail b d e = .ok (true, s2) →
      (∀ nW nH len, Event.imageReady nW nH len ∉ attemptEvents s2 (run ms2 s2)) ∧
      (8 ≤ workerMoves ms2 →
        workerPc (run ms2 s2) = some .done ∧
        ∃ W0 r, attemptEvents s2 (run ms2 s2) =
          W0 ++ [.POAStopExposure r, .aborted] ∧ noNotification W0)) ∧
    (∀ f, CcdPlayerOne.StartExposureTail b d e { x with bAbortBulb := f } =
      match x.StartExposureTail b d e with
      | .error h => .error h
      | .ok r => .ok (r.1, { r.2 with bAbortBulb := f })) := by
  refine ⟨?_, ?_, fun f => StartExposureTail_flag b d e x f⟩
  · intro hstart hpc
    obtain ⟨w, hw, hwpc, hcam, -⟩ := started_fresh hstart
    have h0 : Shape s1 [] := by
      unfold Shape
      rw [hw]
      simp [hwpc, noNotification]
    obtain ⟨t1, hl1, hs1⟩ := run_shape ms1 s1 [] h0
    simp only [List.nil_append] at hs1
    have hd : Doomed (move .abortFlag (run ms1 s1)) (workerEvents t1) := by
      refine ⟨rfl, ?_, ?_⟩
      · show (run ms1 s1).pCamera.isSome = true
        rw [(run_frame ms1 s1).1]
        exact hcam
      · show (match (run ms1 s1).imageWaitingThread with
          | none => False
          | some w => _)
        unfold beforeTest workerPc at hpc
        unfold Shape at hs1
        cases ht : (run ms1 s1).imageWaitingThread with
        | none => simp [ht] at hpc
        | some w' =>
          simp only [ht, Option.map_some'] at hpc hs1 ⊢
          cases hp : w'.pc <;> simp only [hp, Pc.beforeTest] at hpc hs1 ⊢ <;>
            first
              | exact hs1
              | exact absurd hpc (by decide)
    have hrun : run (ms1 ++ .abortFlag :: ms2) s1 = run ms2 (move .abortFlag (run ms1 s1)) := by
      rw [run_append]
      rfl
    rw [hrun]
    exact doomed_outcome s1 (move .abortFlag (run ms1 s1)) t1 ms2 hl1 hd
  · intro hflag htail
    obtain ⟨hf, hcam, w, hw, hwpc⟩ := StartExposureTail_true htail
    have hd : Doomed s2 (workerEvents []) := by
      refine ⟨hf.trans hflag, hcam, ?_⟩
      rw [hw]
      simp [hwpc, noNotification, workerEvents]
    exact doomed_outcome s2 s2 [] ms2 (by simp) hd

end abortWindow

section abortWitness

/-- C9 (amended) at an input.  First part: the flag is set during the first
tick, after the worker started the hardware and slept.  Second part: a
second thread calls `AbortExposure` while `StartExposure` is running, after
`bAbortBulb = false`, which leaves `abortedInStart`. -/
theorem C9_abort_before_test_witness :
    ((∀ nW nH len, Event.imageReady nW nH len ∉
        attemptEvents (startedFrom (opened demoCamera) (exposingFor 5))
          (run ([.worker, .worker] ++ .abortFlag :: List.replicate 8 .worker)
            (startedFrom (opened demoCamera) (exposingFor 5)))) ∧
      (8 ≤ workerMoves (List.replicate 8 .worker) →
        workerPc (run ([.worker, .worker] ++ .abortFlag :: List.replicate 8 .worker)
          (startedFrom (opened demoCamera) (exposingFor 5))) = some .done ∧
        ∃ W0 r, attemptEvents (startedFrom (opened demoCamera) (exposingFor 5))
          (run ([.worker, .worker] ++ .abortFlag :: List.replicate 8 .worker)
            (startedFrom (opened demoCamera) (exposingFor 5))) =
          W0 ++ [.POAStopExposure r, .aborted] ∧ noNotification W0)) ∧
    (∃ sH, demoConfigured.StartExposureHead 0 demoStart = .ok sH ∧
      CcdPlayerOne.AbortExposure 0 0 true { sH with bAbortBulb := false } =
        .ok (true, abortedInStart)) ∧
    ((∀ nW nH len, Event.imageReady nW nH len ∉
        attemptEvents startedAborted (run (List.replicate 8 .worker) startedAborted)) ∧
      (8 ≤ workerMoves (List.replicate 8 .worker) →
        workerPc (run (List.replicate 8 .worker) startedAborted) = some .done ∧
        ∃ W0 r, attemptEvents startedAborted (run (List.replicate 8 .worker) startedAborted) =
          W0 ++ [.POAStopExposure r, .aborted] ∧ noNotification W0)) :=
  ⟨(C9_abort_before_test releaseBuild 0 demoStart (exposingFor 5) (opened demoCamera)
      (startedFrom (opened demoCamera) (exposingFor 5)) abortedInStart startedAborted
      [.worker, .worker] (List.replicate 8 .worker)).1
      (demoStart_run (opened demoCamera) (exposingFor 5) demoCamera rfl rfl) (by decide),
    ⟨_, rfl, rfl⟩,
    (C9_abort_before_test releaseBuild 0 demoStart (exposingFor 5) (opened demoCamera)
      (startedFrom (opened demoCamera) (exposingFor 5)) abortedInStart startedAborted
      [.worker, .worker] (List.replicate 8 .worker)).2.1 rfl rfl⟩

end abortWitness

section pollingClaims

/-- C8: when the abort flag is set while the worker is in the polling loop
before its next test of the flag (the device still reported
`STATE_EXPOSING`), the worker's next steps are: the rest of the tick's sleep,
the test of the flag, which leaves the loop, a stop command and then
`aborted`.  It issues no further state query, no ready check and no image
read, and does not emit `imageReady`. -/
theorem C8_abort_during_polling (s : CcdPlayerOne) (hc : s.pCamera.isSome = true)
    (hpc : workerPc s = some .sleep ∨ workerPc s = some .check) :
    workerPc (workerSteps 5 (move .abortFlag s)) = some .done ∧
    ∃ r, attemptEvents s (workerSteps 5 (move .abortFlag s)) =
      (if workerPc s = some .sleep then [.sleep 100] else []) ++
        [.POAStopExposure r, .aborted] := by
  obtain ⟨cam, cache, buf, thr, flag, log⟩ := s
  obtain ⟨c, hc⟩ := Option.isSome_iff_exists.1 hc
  simp only at hc
  subst hc
  cases thr with
  | none => simp [workerPc] at hpc
  | some w =>
    obtain ⟨nW, nH, dev, pc, q, res, st, bl⟩ := w
    simp only [workerPc, Option.map_some', Option.some.injEq] at hpc
    rcases hpc with hpc | hpc <;> subst hpc
    · refine ⟨by simp [move, workerSteps, workerStep, workerPc, CcdPlayerOne.record,
        CcdPlayerOne.setWorker], dev.stop, ?_⟩
      apply attemptEvents_of_log
      simp [move, workerSteps, workerStep, workerPc, CcdPlayerOne.record,
        CcdPlayerOne.setWorker, PlayerOneCamera.StopExposure, byWorker]
    · refine ⟨by simp [move, workerSteps, workerStep, workerPc, CcdPlayerOne.record,
        CcdPlayerOne.setWorker], dev.stop, ?_⟩
      apply attemptEvents_of_log
      simp [move, workerSteps, workerStep, workerPc, CcdPlayerOne.record,
        CcdPlayerOne.setWorker, PlayerOneCamera.StopExposure, byWorker]

/-- C8 at an input: the flag is set after the first tick reported
`STATE_EXPOSING`. -/
theorem C8_abort_during_polling_witness :
    workerPc (workerSteps 5 (move .abortFlag
      (workerSteps 5 (startedFrom (opened demoCamera) (exposingFor 5))))) = some .done ∧
    ∃ r, attemptEvents (workerSteps 5 (startedFrom (opened demoCamera) (exposingFor 5)))
        (workerSteps 5 (move .abortFlag
          (workerSteps 5 (startedFrom (opened demoCamera) (exposingFor 5))))) =
      (if workerPc (workerSteps 5 (startedFrom (opened demoCamera) (exposingFor 5))) =
          some .sleep then [.sleep 100] else []) ++
        [.POAStopExposure r, .aborted] :=
  C8_abort_during_polling (workerSteps 5 (startedFrom (opened demoCamera) (exposingFor 5)))
    (by decide) (Or.inl (by decide))

/-- C15: a failed state query is treated as abort.  Whatever value the read
of the empty result leaves in `state`, the worker sets the flag, issues no
further state query, no ready check and no image read, sends a stop command
and emits `aborted`; when the value happens to be `STATE_EXPOSING` it sleeps one
more tick before the flag takes it out of the loop. -/
theorem C15_failed_state_query (s : CcdPlayerOne) (w : Worker)
    (hw : s.imageWaitingThread = some w) (hpc : w.pc = .query)
    (hc : s.pCamera.isSome = true)
    (hfail : (w.dev.state w.queries).result = none) :
    workerPc (workerSteps 7 s) = some .done ∧
    (workerSteps 7 s).bAbortBulb = true ∧
    attemptEvents s (workerSteps 7 s) =
      [.POAGetCameraState none] ++
      (if (w.dev.state w.queries).indeterminate = .STATE_EXPOSING then [.sleep 100] else []) ++
      [.POAStopExposure w.dev.stop, .aborted] := by
  obtain ⟨cam, cache, buf, thr, flag, log⟩ := s
  obtain ⟨c, hc⟩ := Option.isSome_iff_exists.1 hc
  simp only at hc hw
  subst hc hw
  obtain ⟨nW, nH, dev, pc, q, res, st, bl⟩ := w
  simp only at hpc hfail
  subst hpc
  by_cases hi : (dev.state q).indeterminate = .STATE_EXPOSING
  · refine ⟨?_, ?_, ?_⟩
    · simp [workerSteps, workerStep, workerPc, CcdPlayerOne.record, CcdPlayerOne.setWorker,
        PlayerOneCamera.GetCameraState, hfail, hi]
    · simp [workerSteps, workerStep, workerPc, CcdPlayerOne.record, CcdPlayerOne.setWorker,
        PlayerOneCamera.GetCameraState, hfail, hi]
    · apply attemptEvents_of_log
      simp [workerSteps, workerStep, workerPc, CcdPlayerOne.record, CcdPlayerOne.setWorker,
        PlayerOneCamera.GetCameraState, PlayerOneCamera.StopExposure, hfail, hi, byWorker]
  · refine ⟨?_, ?_, ?_⟩
    · simp [workerSteps, workerStep, workerPc, CcdPlayerOne.record, CcdPlayerOne.setWorker,
        PlayerOneCamera.GetCameraState, hfail, hi]
    · simp [workerSteps, workerStep, workerPc, CcdPlayerOne.record, CcdPlayerOne.setWorker,
        PlayerOneCamera.GetCameraState, hfail, hi]
    · apply attemptEvents_of_log
      simp [workerSteps, workerStep, workerPc, CcdPlayerOne.record, CcdPlayerOne.setWorker,
        PlayerOneCamera.GetCameraState, PlayerOneCamera.StopExposure, hfail, hi, byWorker]

/-- C15 at an input: the first state query fails and leaves `STATE_EXPOSING`. -/
theorem C15_failed_state_query_witness :
    workerPc (workerSteps 7 (workerSteps 3 (startedFrom (opened demoCamera) failingQuery))) =
      some .done ∧
    (workerSteps 7 (workerSteps 3 (startedFrom (opened demoCamera) failingQuery))).bAbortBulb =
      true ∧
    attemptEvents (workerSteps 3 (startedFrom (opened demoCamera) failingQuery))
        (workerSteps 7 (workerSteps 3 (startedFrom (opened demoCamera) failingQuery))) =
      [.POAGetCameraState none] ++
      (if (failingQuery.state 0).indeterminate = .STATE_EXPOSING then [.sleep 100] else []) ++
      [.POAStopExposure failingQuery.stop, .aborted] :=
  C15_failed_state_query (workerSteps 3 (startedFrom (opened demoCamera) failingQuery))
    { CcdPlayerOne.newWorker 4 3 failingQuery with pc := .query } rfl rfl rfl rfl

end pollingClaims

section completing

/-- C16: completing never turns a failure into a frame.  With the worker at
the ready check (the state left `STATE_EXPOSING` and the flag was clear): a
ready check that fails or reports false is followed by a stop command and
`aborted`, without an image read; a ready check that reports true followed by
an image read that fails is followed by a stop command and `aborted`; and under
every interleaving `imageReady` is only ever emitted right after a successful
image read that follows a ready check that reported true. -/
theorem C16_completing (s : CcdPlayerOne) (w : Worker)
    (hw : s.imageWaitingThread = some w) (hpc : w.pc = .ready)
    (hc : s.pCamera.isSome = true) :
    (w.dev.ready ≠ some true →
      workerPc (workerSteps 3 s) = some .done ∧
      attemptEvents s (workerSteps 3 s) =
        [.POAImageReady w.dev.ready, .POAStopExposure w.dev.stop, .aborted]) ∧
    (∀ len tmo, Event.POAGetImageData len tmo false ∈ attemptEvents s (workerSteps 5 s) →
      workerPc (workerSteps 5 s) = some .done ∧
      attemptEvents s (workerSteps 5 s) =
        [.POAImageReady (some true), .POAGetImageData len tmo false,
         .POAStopExposure w.dev.stop, .aborted]) ∧
    (∀ ms nW nH len, Event.imageReady nW nH len ∈ attemptEvents s (run ms s) →
      ∃ W0 t, attemptEvents s (run ms s) =
          W0 ++ [.POAGetImageData len t true, .imageReady nW nH len] ∧
        noNotification W0 ∧ Event.POAImageReady (some true) ∈ W0) := by
  refine ⟨?_, ?_, ?_⟩
  · intro hr
    obtain ⟨cam, cache, buf, thr, flag, log⟩ := s
    obtain ⟨c, hc⟩ := Option.isSome_iff_exists.1 hc
    simp only at hc hw
    subst hc hw
    obtain ⟨nW, nH, dev, pc, q, res, st, bl⟩ := w
    simp only at hpc hr
    subst hpc
    refine ⟨?_, ?_⟩
    · simp [workerSteps, workerStep, workerPc, CcdPlayerOne.record, CcdPlayerOne.setWorker,
        PlayerOneCamera.ImageReady, hr]
    · apply attemptEvents_of_log
      simp [workerSteps, workerStep, workerPc, CcdPlayerOne.record, CcdPlayerOne.setWorker,
        PlayerOneCamera.ImageReady, PlayerOneCamera.StopExposure, hr, byWorker]
  · intro len tmo hread
    obtain ⟨cam, cache, buf, thr, flag, log⟩ := s
    obtain ⟨c, hc⟩ := Option.isSome_iff_exists.1 hc
    simp only at hc hw
    subst hc hw
    obtain ⟨nW, nH, dev, pc, q, res, st, bl⟩ := w
    simp only at hpc
    subst hpc
    by_cases hr : dev.ready = some true
    · by_cases hb : buf < 0
      · exfalso
        rw [attemptEvents_of_log _ _ [.POAImageReady (some true)] (by
          simp [workerSteps, workerStep, workerPc, CcdPlayerOne.record, CcdPlayerOne.setWorker,
            PlayerOneCamera.ImageReady, hr, hb, byWorker])] at hread
        simp at hread
      · cases hok : dev.read buf.toNat (readTimeout cache)
        · have hev := attemptEvents_of_log
            ({ pCamera := some c, m_nCurrentExposureCache := cache, m_nCurrentBufferSize := buf,
               imageWaitingThread := some
                { nWidth := nW, nHeight := nH, dev := dev, pc := .ready, queries := q,
                  result := res, state := st, bufLen := bl },
               bAbortBulb := flag, log := log } : CcdPlayerOne)
            (workerSteps 5
              { pCamera := some c, m_nCurrentExposureCache := cache, m_nCurrentBufferSize := buf,
                imageWaitingThread := some
                  { nWidth := nW, nHeight := nH, dev := dev, pc := .ready, queries := q,
                    result := res, state := st, bufLen := bl },
                bAbortBulb := flag, log := log })
            [.POAImageReady (some true),
             .POAGetImageData buf.toNat (readTimeout cache) false,
             .POAStopExposure dev.stop, .aborted]
            (by simp [workerSteps, workerStep, workerPc, CcdPlayerOne.record,
              CcdPlayerOne.setWorker, PlayerOneCamera.ImageReady, PlayerOneCamera.GetImageData,
              PlayerOneCamera.StopExposure, hr, hb, hok, byWorker])
          rw [hev] at hread ⊢
          simp at hread
          obtain ⟨h1, h2⟩ := hread
          subst h1 h2
          exact ⟨by simp [workerSteps, workerStep, workerPc, CcdPlayerOne.record,
            CcdPlayerOne.setWorker, PlayerOneCamera.ImageReady, PlayerOneCamera.GetImageData,
            PlayerOneCamera.StopExposure, hr, hb, hok], rfl⟩
        · exfalso
          rw [attemptEvents_of_log _ _
            [.POAImageReady (some true), .POAGetImageData buf.toNat (readTimeout cache) true,
             .imageReady nW nH buf.toNat] (by
            simp [workerSteps, workerStep, workerPc, CcdPlayerOne.record,
              CcdPlayerOne.setWorker, PlayerOneCamera.ImageReady, PlayerOneCamera.GetImageData,
              hr, hb, hok, byWorker])] at hread
          simp at hread
    · exfalso
      rw [attemptEvents_of_log _ _
        [.POAImageReady dev.ready, .POAStopExposure dev.stop, .aborted] (by
        simp [workerSteps, workerStep, workerPc, CcdPlayerOne.record, CcdPlayerOne.setWorker,
          PlayerOneCamera.ImageReady, PlayerOneCamera.StopExposure, hr, byWorker])] at hread
      simp at hread
  · intro ms nW nH len hmem
    have h0 : Shape s [] := by
      unfold Shape
      rw [hw]
      simp [hpc, noNotification]
    obtain ⟨t, hl, hs⟩ := run_shape ms s [] h0
    rw [attemptEvents_of_trace s _ t hl] at hmem ⊢
    simp only [List.nil_append] at hs
    exact Shape_imageReady _ _ hs nW nH len hmem

/-- C16 at an input: the ready check reports false. -/
theorem C16_completing_witness :
    workerPc (workerSteps 3 (workerSteps 6 (startedFrom (opened demoCamera) notReady))) =
      some .done ∧
    attemptEvents (workerSteps 6 (startedFrom (opened demoCamera) notReady))
        (workerSteps 3 (workerSteps 6 (startedFrom (opened demoCamera) notReady))) =
      [.POAImageReady (some false), .POAStopExposure true, .aborted] :=
  (C16_completing (workerSteps 6 (startedFrom (opened demoCamera) notReady))
    { CcdPlayerOne.newWorker 4 3 notReady with
      pc := .ready, queries := 1, result := some (notReady.state 0),
      state := some (.terminal 1) } rfl rfl rfl).1 (by decide)

/-- C19: abort-flag discipline.  A `StartExposure` that returns true leaves the
flag cleared and its worker at the first statement, whatever the flag was
before the call; a worker step never clears a set flag, and the only worker
step that changes the flag is the one after a failed state query, which
sets it. -/
theorem C19_abort_flag_discipline (b : Build) (wait : Nat) (d : StartScript)
    (e : ExposureScript) (s s1 t : CcdPlayerOne)
    (hstart : s.StartExposure b wait d e = .ok (true, s1)) :
    s1.bAbortBulb = false ∧ workerPc s1 = some .start ∧
    (t.bAbortBulb = true → (workerStep t).bAbortBulb = true) ∧
    ((workerStep t).bAbortBulb ≠ t.bAbortBulb →
      (workerStep t).bAbortBulb = true ∧
      ∃ w a, t.imageWaitingThread = some w ∧ w.pc = .assign ∧ w.result = some a ∧
        a.result = none) := by
  obtain ⟨w, hw, hpc, -, hflag⟩ := started_fresh hstart
  refine ⟨hflag, by simp [workerPc, hw, hpc], ?_, ?_⟩
  · intro hf
    unfold workerStep
    repeat' split
    all_goals simp [CcdPlayerOne.record, CcdPlayerOne.setWorker, hf]
  · obtain ⟨cam, cache, buf, thr, flag, log⟩ := t
    cases thr with
    | none => simp [workerStep]
    | some w' =>
      obtain ⟨nW, nH, dev, pc, q, res, st, bl⟩ := w'
      cases pc with
      | assign =>
        cases res with
        | none => simp [workerStep, CcdPlayerOne.setWorker]
        | some a =>
          cases hr : a.result with
          | none =>
            intro _
            exact ⟨by simp [workerStep, CcdPlayerOne.setWorker, hr], _, a, rfl, rfl, rfl, hr⟩
          | some x => simp [workerStep, CcdPlayerOne.setWorker, hr]
      | start => cases cam <;> simp [workerStep, CcdPlayerOne.setWorker, CcdPlayerOne.record]
      | query => cases cam <;> simp [workerStep, CcdPlayerOne.setWorker, CcdPlayerOne.record]
      | ready => cases cam <;> simp [workerStep, CcdPlayerOne.setWorker, CcdPlayerOne.record]
      | read => cases cam <;> simp [workerStep, CcdPlayerOne.setWorker, CcdPlayerOne.record]
      | abortStop => cases cam <;> simp [workerStep, CcdPlayerOne.setWorker, CcdPlayerOne.record]
      | alloc =>
        by_cases hb : buf < 0 <;> simp [workerStep, CcdPlayerOne.setWorker, hb]
      | _ => simp [workerStep, CcdPlayerOne.setWorker, CcdPlayerOne.record]

/-- C19 at an input: a start right after an `AbortExposure` left the flag set. -/
theorem C19_abort_flag_discipline_witness :
    (startedFrom { opened demoCamera with bAbortBulb := true } (exposingFor 2)).bAbortBulb =
      false ∧
    workerPc (startedFrom { opened demoCamera with bAbortBulb := true } (exposingFor 2)) =
      some .start ∧
    ((opened demoCamera).bAbortBulb = true →
      (workerStep (opened demoCamera)).bAbortBulb = true) ∧
    ((workerStep (opened demoCamera)).bAbortBulb ≠ (opened demoCamera).bAbortBulb →
      (workerStep (opened demoCamera)).bAbortBulb = true ∧
      ∃ w a, (opened demoCamera).imageWaitingThread = some w ∧ w.pc = .assign ∧
        w.result = some a ∧ a.result = none) :=
  C19_abort_flag_discipline releaseBuild 0 demoStart (exposingFor 2)
    { opened demoCamera with bAbortBulb := true }
    (startedFrom { opened demoCamera with bAbortBulb := true } (exposingFor 2))
    (opened demoCamera)
    (demoStart_run { opened demoCamera with bAbortBulb := true } (exposingFor 2) demoCamera
      rfl rfl)

end completing

section actionLogs

theorem Benign_byWorker (es : List Event) : ∀ x ∈ byWorker es, Benign x := by
  intro x hx
  simp only [byWorker, List.mem_map] at hx
  obtain ⟨e, -, rfl⟩ := hx
  exact Or.inl rfl

theorem Benign_append {t1 t2 : Trace} (h1 : ∀ x ∈ t1, Benign x) (h2 : ∀ x ∈ t2, Benign x) :
    ∀ x ∈ t1 ++ t2, Benign x := by
  intro x hx
  rcases List.mem_append.1 hx with h | h
  · exact h1 x h
  · exact h2 x h

theorem workerSteps_byWorker (n : Nat) (s : CcdPlayerOne) :
    ∃ es : List Event, (workerSteps n s).log = s.log ++ byWorker es :=
  workerSteps_log n s

/-- The trace of a join that returns. -/
theorem joinIfJoinable_log {wait : Nat} {s s1 : CcdPlayerOne}
    (h : joinIfJoinable wait s = .ok s1) :
    ∃ t, s1.log = s.log ++ t ∧ (∀ x ∈ t, Benign x) := by
  unfold joinIfJoinable at h
  split at h
  · cases h
    exact ⟨[], by simp, by simp⟩
  · simp only at h
    split at h
    · cases h
      obtain ⟨es, hes⟩ := workerSteps_byWorker wait s
      refine ⟨byWorker es ++ [(Origin.caller, Event.threadJoin)], ?_, ?_⟩
      · simp [CcdPlayerOne.record, hes]
      · exact Benign_append (Benign_byWorker es) (by simp [Benign, Event.isExposureSet,
          Event.isBadSwap])
    · cases h
    · cases h

theorem EndExposure_log {wait : Nat} {stop : Bool} {s : CcdPlayerOne} {r : Bool × CcdPlayerOne}
    (h : s.EndExposure wait stop = .ok r) :
    r.2.pCamera = s.pCamera ∧ r.2.m_nCurrentExposureCache = s.m_nCurrentExposureCache ∧
    r.2.m_nCurrentBufferSize = s.m_nCurrentBufferSize ∧
    ∃ t, r.2.log = s.log ++ t ∧ (∀ x ∈ t, Benign x) := by
  unfold CcdPlayerOne.EndExposure at h
  split at h
  · cases h
    exact ⟨rfl, rfl, rfl, [], by simp, by simp⟩
  · split at h
    · cases h
    · rename_i s1 hj
      cases h
      obtain ⟨hp, hcache, hb, -, -⟩ := joinIfJoinable_ok hj
      obtain ⟨t, ht, hB⟩ := joinIfJoinable_log hj
      refine ⟨hp, hcache, hb, [(Origin.caller, Event.POAStopExposure stop)] ++ t, ?_, ?_⟩
      · simp [ht, CcdPlayerOne.record, PlayerOneCamera.StopExposure]
      · exact Benign_append (by simp [Benign, Event.isExposureSet, Event.isBadSwap]) hB

theorem AbortExposure_log {between wait : Nat} {stop : Bool} {s : CcdPlayerOne}
    {r : Bool × CcdPlayerOne} (h : s.AbortExposure between wait stop = .ok r) :
    r.2.pCamera = s.pCamera ∧ r.2.m_nCurrentExposureCache = s.m_nCurrentExposureCache ∧
    r.2.m_nCurrentBufferSize = s.m_nCurrentBufferSize ∧
    ∃ t, r.2.log = s.log ++ t ∧ (∀ x ∈ t, Benign x) := by
  unfold CcdPlayerOne.AbortExposure at h
  obtain ⟨hp, hcache, hb, t, ht, hB⟩ := EndExposure_log h
  obtain ⟨es, hes⟩ := workerSteps_byWorker between { s with bAbortBulb := true }
  refine ⟨by rw [hp, workerSteps_pCamera], by rw [hcache, workerSteps_cache],
    by rw [hb, workerSteps_bufferSize], byWorker es ++ t, ?_, ?_⟩
  · rw [ht, hes, List.append_assoc]
  · exact Benign_append (Benign_byWorker es) hB

theorem SetGain_log {wait : Nat} {v : Int} {ok : Bool} {s : CcdPlayerOne}
    {r : Bool × CcdPlayerOne} (h : s.SetGain wait v ok = .ok r) :
    r.2.pCamera = s.pCamera ∧ r.2.m_nCurrentExposureCache = s.m_nCurrentExposureCache ∧
    ∃ t, r.2.log = s.log ++ t ∧ (∀ x ∈ t, Benign x) := by
  unfold CcdPlayerOne.SetGain at h
  split at h
  · cases h
    exact ⟨rfl, rfl, [], by simp, by simp⟩
  · split at h
    · cases h
    · rename_i s1 hj
      cases h
      obtain ⟨hp, hcache, -, -, -⟩ := joinIfJoinable_ok hj
      obtain ⟨t, ht, hB⟩ := joinIfJoinable_log hj
      refine ⟨hp, hcache, t ++ [(Origin.caller, Event.POASetConfig .POA_GAIN v ok)], ?_, ?_⟩
      · simp [ht, CcdPlayerOne.record, PlayerOneCamera.SetGain, PlayerOneCamera.SetIntConfig]
      · exact Benign_append hB (by simp [Benign, Event.isExposureSet, Event.isBadSwap])

theorem SetQuality_log {wait : Nat} {v : Int} {ok : Bool} {s : CcdPlayerOne}
    {r : Bool × CcdPlayerOne} (h : s.SetQuality wait v ok = .ok r) :
    r.2.pCamera = s.pCamera ∧ r.2.m_nCurrentExposureCache = s.m_nCurrentExposureCache ∧
    ∃ t, r.2.log = s.log ++ t ∧ (∀ x ∈ t, Benign x) := by
  unfold CcdPlayerOne.SetQuality at h
  split at h
  · cases h
    exact ⟨rfl, rfl, [], by simp, by simp⟩
  · split at h
    · cases h
    · rename_i s1 hj
      cases h
      obtain ⟨hp, hcache, -, -, -⟩ := joinIfJoinable_ok hj
      obtain ⟨t, ht, hB⟩ := joinIfJoinable_log hj
      refine ⟨hp, hcache, t ++ [(Origin.caller, Event.POASetImageBin (v % 256) ok)], ?_, ?_⟩
      · simp [ht, CcdPlayerOne.record, PlayerOneCamera.SetImageBin]
      · exact Benign_append hB (by simp [Benign, Event.isExposureSet, Event.isBadSwap])

theorem Close_log {wait : Nat} {s s' : CcdPlayerOne} (h : s.Close wait = .ok s') :
    s'.pCamera = none ∧ s'.imageWaitingThread = none ∧ s'.bAbortBulb = true ∧
    s'.m_nCurrentExposureCache = s.m_nCurrentExposureCache ∧
    ∃ t, s'.log = s.log ++ t ∧ (∀ x ∈ t, Benign x) := by
  unfold CcdPlayerOne.Close at h
  split at h
  · cases h
  · rename_i s1 hj
    obtain ⟨hp, hcache, -, hn, -⟩ := joinIfJoinable_ok hj
    obtain ⟨t, ht, hB⟩ := joinIfJoinable_log hj
    simp only at h
    split at h
    · rename_i hc
      cases h
      exact ⟨hc, hn, rfl, hcache, t, ht, hB⟩
    · rename_i cam hc
      cases h
      refine ⟨rfl, hn, rfl, hcache, t ++ [(Origin.caller, Event.POACloseCamera cam.cameraID)],
        ?_, ?_⟩
      · simp [ht, CcdPlayerOne.record, PlayerOneCamera.Close]
      · exact Benign_append hB (by simp [Benign, Event.isExposureSet, Event.isBadSwap])

end actionLogs

section opening

theorem CameraList_events (d : OpenScript) :
    ∀ e ∈ (PlayerOneCamera.CameraList d).1,
      e.isExposureSet = false ∧ e.isBadSwap = false ∧ e.isOpenOrInit = false := by
  intro e he
  unfold PlayerOneCamera.CameraList at he
  split at he
  · simp at he
    subst he
    exact ⟨rfl, rfl, rfl⟩
  · simp only [List.singleton_append, List.mem_cons, List.mem_map] at he
    rcases he with rfl | ⟨i, -, rfl⟩
    · exact ⟨rfl, rfl, rfl⟩
    · exact ⟨rfl, rfl, rfl⟩

theorem Create_events (prop : POACameraProperties) (d : OpenScript) :
    ∀ e ∈ (PlayerOneCamera.Create prop d).1, e.isExposureSet = false ∧ e.isBadSwap = false := by
  intro e he
  unfold PlayerOneCamera.Create at he
  split at he
  · simp at he
    subst he
    exact ⟨rfl, rfl⟩
  · simp only [List.singleton_append, List.mem_cons, List.mem_map] at he
    rcases he with rfl | ⟨i, -, rfl⟩
    · exact ⟨rfl, rfl⟩
    · exact ⟨rfl, rfl⟩

theorem PlayerOneCamera_Open_events (nIndex : Int) (d : OpenScript) :
    ∀ e ∈ (PlayerOneCamera.Open nIndex d).1, e.isExposureSet = false ∧ e.isBadSwap = false := by
  intro e he
  unfold PlayerOneCamera.Open at he
  split at he
  · simp at he
    subst he
    exact ⟨rfl, rfl⟩
  · split at he
    · simp at he
      rcases he with rfl | rfl <;> exact ⟨rfl, rfl⟩
    · rename_i prop _
      split at he
      · simp at he
        rcases he with rfl | rfl | rfl <;> exact ⟨rfl, rfl⟩
      · split at he
        · simp at he
          rcases he with rfl | rfl | rfl | rfl <;> exact ⟨rfl, rfl⟩
        · simp only [List.mem_append, List.mem_cons, List.mem_singleton, List.not_mem_nil,
            or_false] at he
          rcases he with (rfl | rfl | rfl | rfl) | he
          · exact ⟨rfl, rfl⟩
          · exact ⟨rfl, rfl⟩
          · exact ⟨rfl, rfl⟩
          · exact ⟨rfl, rfl⟩
          · exact Create_events prop d e he

theorem Benign_byCaller (es : List Event)
    (h : ∀ e ∈ es, e.isExposureSet = false ∧ e.isBadSwap = false) :
    ∀ x ∈ byCaller es, Benign x := by
  intro x hx
  simp only [byCaller, List.mem_map] at hx
  obtain ⟨e, he, rfl⟩ := hx
  exact Or.inr (h e he)

theorem Open_log (nNo : Int) (d : OpenScript) (s : CcdPlayerOne) :
    (s.Open nNo d).2.imageWaitingThread = s.imageWaitingThread ∧
    (s.Open nNo d).2.m_nCurrentExposureCache = s.m_nCurrentExposureCache ∧
    ∃ t, (s.Open nNo d).2.log = s.log ++ t ∧ (∀ x ∈ t, Benign x) := by
  unfold CcdPlayerOne.Open
  simp only
  split
  · refine ⟨rfl, rfl, byCaller (PlayerOneCamera.CameraList d).1, rfl, ?_⟩
    exact Benign_byCaller _ fun e he => ⟨(CameraList_events d e he).1, (CameraList_events d e he).2.1⟩
  · have hB : ∀ x ∈ byCaller (PlayerOneCamera.CameraList d).1 ++
        byCaller (PlayerOneCamera.Open nNo d).1, Benign x :=
      Benign_append
        (Benign_byCaller _ fun e he =>
          ⟨(CameraList_events d e he).1, (CameraList_events d e he).2.1⟩)
        (Benign_byCaller _ (PlayerOneCamera_Open_events nNo d))
    split
    · exact ⟨rfl, rfl, _, by simp [CcdPlayerOne.record, byCaller], hB⟩
    · exact ⟨rfl, rfl, _, by simp [CcdPlayerOne.record, byCaller], hB⟩

theorem StartExposure_log {b : Build} {wait : Nat} {d : StartScript} {e : ExposureScript}
    {s : CcdPlayerOne} {r : Bool × CcdPlayerOne} (h : s.StartExposure b wait d e = .ok r) :
    r.2.pCamera = s.pCamera ∧ r.2.m_nCurrentExposureCache = s.m_nCurrentExposureCache ∧
    ∃ t, r.2.log = s.log ++ t ∧ (∀ x ∈ t, Benign x) := by
  cases hc : s.pCamera with
  | none =>
    simp [CcdPlayerOne.StartExposure, hc] at h
    subst h
    exact ⟨hc.symm ▸ rfl, rfl, [], by simp, by simp⟩
  | some cam =>
    obtain ⟨s1, hj⟩ := StartExposure_join hc h
    obtain ⟨hp, hcache, -, -, -⟩ := joinIfJoinable_ok hj
    obtain ⟨t0, ht0, hB0⟩ := joinIfJoinable_log hj
    rw [StartExposure_unfold b wait d e s s1 cam hc hj] at h
    have hp' : s1.pCamera = some cam := hp.trans hc
    cases hsz : d.imageSize with
    | none =>
      simp only [hsz] at h
      cases h
      exact ⟨hp', hcache, t0 ++ _, by simp only [ht0, List.append_assoc]; rfl,
        Benign_append hB0 (by simp [Benign, Event.isExposureSet, Event.isBadSwap])⟩
    | some imageSize =>
      cases hf : d.imageFormat with
      | none =>
        simp only [hsz, hf] at h
        cases h
        exact ⟨hp', hcache, t0 ++ _, by simp only [ht0, List.append_assoc]; rfl,
          Benign_append hB0 (by simp [Benign, Event.isExposureSet, Event.isBadSwap])⟩
      | some fmt =>
        cases hsize : PlayerOneImgFormatSize b fmt with
        | none => simp [hsz, hf, hsize] at h
        | some size =>
          simp only [hsz, hf, hsize] at h
          split at h
          · cases h
            exact ⟨hp', hcache, t0 ++ _, by simp only [ht0, List.append_assoc]; rfl,
              Benign_append hB0 (by simp [Benign, Event.isExposureSet, Event.isBadSwap])⟩
          · cases h
            exact ⟨hp', hcache, t0 ++ _, by simp only [ht0, List.append_assoc]; rfl,
              Benign_append hB0 (by simp [Benign, Event.isExposureSet, Event.isBadSwap])⟩

end opening

section history

theorem lastExposureFrom_append (i : Int) (t1 t2 : Trace) :
    lastExposureFrom i (t1 ++ t2) = lastExposureFrom (lastExposureFrom i t1) t2 := by
  simp [lastExposureFrom, List.foldl_append]

theorem lastExposureFrom_benign (i : Int) (t : Trace) (h : ∀ x ∈ t, Benign x) :
    lastExposureFrom i t = i := by
  induction t generalizing i with
  | nil => rfl
  | cons x t ih =>
    have hx : Benign x := h x (List.mem_cons_self x t)
    have ht : ∀ y ∈ t, Benign y := fun y hy => h y (List.mem_cons_of_mem x hy)
    have hstep : lastExposureFrom i (x :: t) = lastExposureFrom i t := by
      obtain ⟨o, e⟩ := x
      cases o with
      | worker => simp [lastExposureFrom]
      | caller =>
        rcases hx with hx | ⟨hx, -⟩
        · cases hx
        · cases e <;> try simp [lastExposureFrom]
          case POASetConfig c v ok =>
            cases c <;> cases ok <;> simp [lastExposureFrom, Event.isExposureSet] at hx ⊢
    rw [hstep]
    exact ih i ht

theorem lastExposureFrom_SetExposure (i v : Int) (first retry : Bool) :
    lastExposureFrom i (byCaller ([Event.POASetConfig .POA_EXPOSURE v first] ++
      (if first then [] else [Event.sleep 100, Event.POASetConfig .POA_EXPOSURE v retry]))) =
      if first || retry then v else i := by
  cases first <;> cases retry <;> simp [lastExposureFrom, byCaller]

/-- Every move of a schedule but `SetExposure` adds benign entries to the trace and
leaves the cached exposure alone. -/
theorem step_log {b : Build} {a : Action} {s s' : CcdPlayerOne} (h : step b a s = .ok s')
    (ha : ∀ v first retry, a ≠ .SetExposure v first retry) :
    s'.m_nCurrentExposureCache = s.m_nCurrentExposureCache ∧
    ∃ t, s'.log = s.log ++ t ∧ (∀ x ∈ t, Benign x) := by
  unfold step at h
  split at h
  · cases h
  · cases a with
    | worker =>
      cases h
      obtain ⟨es, hes⟩ := workerSteps_byWorker 1 s
      exact ⟨workerStep_cache s, byWorker es, hes, Benign_byWorker es⟩
    | Open nNo d =>
      cases h
      exact (Open_log nNo d s).2
    | Close wait =>
      obtain ⟨-, -, -, hcache, t, ht, hB⟩ := Close_log h
      exact ⟨hcache, t, ht, hB⟩
    | StartExposure wait d e =>
      simp only [discard] at h
      split at h
      · cases h
      · rename_i r hr
        cases h
        exact (StartExposure_log hr).2
    | AbortExposure between wait stop =>
      simp only [discard] at h
      split at h
      · cases h
      · rename_i r hr
        cases h
        exact (AbortExposure_log hr).2.1 |> fun hc => ⟨hc, (AbortExposure_log hr).2.2.2⟩
    | EndExposure wait stop =>
      simp only [discard] at h
      split at h
      · cases h
      · rename_i r hr
        cases h
        exact ⟨(EndExposure_log hr).2.1, (EndExposure_log hr).2.2.2⟩
    | SetExposure v first retry => exact absurd rfl (ha v first retry)
    | SetGain wait v ok =>
      simp only [discard] at h
      split at h
      · cases h
      · rename_i r hr
        cases h
        exact (SetGain_log hr).2
    | SetQuality wait v ok =>
      simp only [discard] at h
      split at h
      · cases h
      · rename_i r hr
        cases h
        exact (SetQuality_log hr).2

/-- In every state a schedule reaches from the constructor, the cached
exposure is the last exposure the device accepted from `SetExposure` (0 when
there is none), and no swap has replaced a joinable thread. -/
theorem exec_history (b : Build) (as : List Action) (s0 s : CcdPlayerOne)
    (h0 : s0.m_nCurrentExposureCache = lastExposure s0.log ∧
      (Origin.caller, Event.threadSwap true) ∉ s0.log)
    (h : exec b as s0 = .ok s) :
    s.m_nCurrentExposureCache = lastExposure s.log ∧
    (Origin.caller, Event.threadSwap true) ∉ s.log := by
  induction as generalizing s0 with
  | nil =>
    simp only [exec] at h
    cases h
    exact h0
  | cons a as ih =>
    simp only [exec] at h
    split at h
    · cases h
    · rename_i s1 hs1
      apply ih s1 _ h
      by_cases ha : ∃ v first retry, a = .SetExposure v first retry
      · obtain ⟨v, first, retry, rfl⟩ := ha
        unfold step at hs1
        split at hs1
        · cases hs1
        · cases hs1
          cases hc : s0.pCamera with
          | none =>
            simp only [CcdPlayerOne.SetExposure, hc]
            exact h0
          | some cam =>
            obtain ⟨-, hl, hcache⟩ := SetExposure_open s0 v first retry (by simp [hc])
            refine ⟨?_, ?_⟩
            · rw [hcache, hl, lastExposure, lastExposureFrom_append,
                lastExposureFrom_SetExposure, ← lastExposure, ← h0.1]
            · rw [hl]
              intro hmem
              rcases List.mem_append.1 hmem with hm | hm
              · exact h0.2 hm
              · cases first <;> simp [byCaller] at hm
      · have ha' : ∀ v first retry, a ≠ .SetExposure v first retry :=
          fun v first retry heq => ha ⟨v, first, retry, heq⟩
        obtain ⟨hcache, t, ht, hB⟩ := step_log hs1 ha'
        refine ⟨?_, ?_⟩
        · rw [hcache, ht, lastExposure, lastExposureFrom_append, lastExposureFrom_benign _ t hB,
            ← lastExposure]
          exact h0.1
        · rw [ht]
          intro hmem
          rcases List.mem_append.1 hmem with hm | hm
          · exact h0.2 hm
          · rcases hB _ hm with hw | ⟨-, hs⟩
            · cases hw
            · simp [Event.isBadSwap] at hs

end history

section settings

theorem record_log (s : CcdPlayerOne) (o : Origin) (es : List Event) :
    (s.record o es).log = s.log ++ es.map fun e => (o, e) := rfl

/-- C20: `SetQuality v` on an open device sends the binning value `v & 0xff`, the
residue of `v` modulo 256, as its only device command and returns the
device's answer; `v` and `v + 256 * k` make the same call, a value in 0..255 is
sent as it is; with no device open it returns false and changes nothing. -/
theorem C20_SetQuality_mask (s : CcdPlayerOne) (wait : Nat) (v k : Int) (ok : Bool) :
    (s.pCamera = none → s.SetQuality wait v ok = .ok (false, s)) ∧
    (∀ r, s.pCamera.isSome = true → s.SetQuality wait v ok = .ok r →
      r.1 = ok ∧ ∃ t, r.2.log = s.log ++ t ∧
        (callerEvents t).filter Event.isDeviceCall = [.POASetImageBin (v % 256) ok]) ∧
    (s.pCamera.isSome = true → s.imageWaitingThread = none →
      s.SetQuality wait v ok =
        .ok (ok, s.record .caller [.POASetImageBin (v % 256) ok])) ∧
    s.SetQuality wait (v + 256 * k) ok = s.SetQuality wait v ok ∧
    (0 ≤ v → v ≤ 255 → v % 256 = v) ∧ 0 ≤ v % 256 ∧ v % 256 < 256 := by
  refine ⟨?_, ?_, ?_, ?_, ?_, ?_, ?_⟩
  · intro h
    simp [CcdPlayerOne.SetQuality, h]
  · intro r hc h
    obtain ⟨cam, hc⟩ := Option.isSome_iff_exists.1 hc
    unfold CcdPlayerOne.SetQuality at h
    simp only [hc] at h
    split at h
    · cases h
    · rename_i s1 hj
      cases h
      obtain ⟨-, -, -, -, t0, ht0, hJ⟩ := joinIfJoinable_ok hj
      refine ⟨rfl, t0 ++ [(Origin.caller, Event.POASetImageBin (v % 256) ok)], ?_, ?_⟩
      · simp [record_log, ht0, PlayerOneCamera.SetImageBin]
      · rw [callerEvents_append, hJ]
        cases s.imageWaitingThread.isSome <;> simp [callerEvents, Event.isDeviceCall]
  · intro hc hn
    obtain ⟨cam, hc⟩ := Option.isSome_iff_exists.1 hc
    simp [CcdPlayerOne.SetQuality, hc, joinIfJoinable_noThread wait s hn,
      PlayerOneCamera.SetImageBin]
  · have : (v + 256 * k) % 256 = v % 256 := by omega
    simp [CcdPlayerOne.SetQuality, this]
  · intro h1 h2
    omega
  · omega
  · omega

/-- C14 (as stated) fails: `demoCamera` advertises the exposure range
1 .. 5_000_000, and `SetExposure(9_999_999)` still sends 9_999_999 to the device. -/
theorem C14_counterexample :
    demoCamera.GetExposureRange = some (1, 5000000, 1000000) ∧
    ((opened demoCamera).SetExposure 9999999 true true).2.log =
      [(.caller, .POASetConfig .POA_EXPOSURE 9999999 true)] ∧
    ((opened demoCamera).SetExposure 9999999 true true).1 = true := by
  decide

/-- C14 (amended): no value is validated against the advertised range.  For
every camera (whatever ranges it advertises) and every value, `SetExposure` and
`SetGain` send the value unchanged and `SetQuality` sends its residue modulo
256; the answer of the device alone decides the result. -/
theorem C14_no_validation (cam : PlayerOneCamera) (v : Int) (first retry ok : Bool)
    (wait : Nat) :
    ((opened cam).SetExposure v first retry).1 = (first || retry) ∧
    ((opened cam).SetExposure v first retry).2.log =
      byCaller ([Event.POASetConfig .POA_EXPOSURE v first] ++
        (if first then [] else [Event.sleep 100, Event.POASetConfig .POA_EXPOSURE v retry])) ∧
    observe ((opened cam).SetGain wait v ok) =
      .ok (ok, [(.caller, .POASetConfig .POA_GAIN v ok)]) ∧
    observe ((opened cam).SetQuality wait v ok) =
      .ok (ok, [(.caller, .POASetImageBin (v % 256) ok)]) := by
  refine ⟨?_, ?_, ?_, ?_⟩
  · exact (SetExposure_open (opened cam) v first retry rfl).1
  · simpa [opened, CcdPlayerOne.ctor] using (SetExposure_open (opened cam) v first retry rfl).2.1
  · simp [CcdPlayerOne.SetGain, opened, CcdPlayerOne.ctor, joinIfJoinable, observe,
      PlayerOneCamera.SetGain, PlayerOneCamera.SetIntConfig, CcdPlayerOne.record]
  · simp [CcdPlayerOne.SetQuality, opened, CcdPlayerOne.ctor, joinIfJoinable, observe,
      PlayerOneCamera.SetImageBin, CcdPlayerOne.record]

end settings

section lifecycle

/-- C13: `Open(index)` returns false, without an open or init command, for every
index that is negative or not below the device count of either enumeration
(`CameraList`, `PlayerOneCamera::Open`); it returns false whenever the open or
the init call fails; and when it returns true a device handle is held. -/
theorem C13_Open_failures (s : CcdPlayerOne) (nNo : Int) (d : OpenScript) :
    ((nNo < 0 ∨ nNo ≥ d.listCount ∨ nNo ≥ d.count) →
      (s.Open nNo d).1 = false ∧
      ∃ es, (s.Open nNo d).2.log = s.log ++ byCaller es ∧
        es.filter Event.isOpenOrInit = []) ∧
    ((d.openOk = false ∨ d.initOk = false) → (s.Open nNo d).1 = false) ∧
    ((s.Open nNo d).1 = true → (s.Open nNo d).2.pCamera.isSome = true) := by
  have hlist : (PlayerOneCamera.CameraList d).1.filter Event.isOpenOrInit = [] :=
    List.filter_eq_nil_iff.2 fun e he => by simp [(CameraList_events d e he).2.2]
  have hsize : ((PlayerOneCamera.CameraList d).2 : Int) = max d.listCount 0 := by
    unfold PlayerOneCamera.CameraList
    split
    · rename_i h
      simp [max_eq_right h]
    · rename_i h
      have h' : 0 ≤ d.listCount := le_of_lt (not_le.1 h)
      simp [Int.toNat_of_nonneg h', max_eq_left h']
  refine ⟨?_, ?_, ?_⟩
  · intro h
    unfold CcdPlayerOne.Open
    simp only
    split
    · exact ⟨rfl, _, rfl, hlist⟩
    · rename_i hle
      rw [hsize] at hle
      have hrange : nNo < 0 ∨ nNo ≥ d.count := by
        rcases h with h | h | h
        · exact Or.inl h
        · by_cases h0 : nNo < 0
          · exact Or.inl h0
          · exact absurd (max_le h (not_lt.1 h0)) hle
        · exact Or.inr h
      have hopen : PlayerOneCamera.Open nNo d = ([.POAGetCameraCount d.count], none) := by
        simp [PlayerOneCamera.Open, hrange]
      rw [hopen]
      refine ⟨rfl, (PlayerOneCamera.CameraList d).1 ++ [.POAGetCameraCount d.count], ?_, ?_⟩
      · simp [record_log, byCaller]
      · rw [List.filter_append, hlist]
        rfl
  · intro h
    unfold CcdPlayerOne.Open
    simp only
    split
    · rfl
    · have hopen : (PlayerOneCamera.Open nNo d).2 = none := by
        unfold PlayerOneCamera.Open
        split
        · rfl
        · split
          · rfl
          · rcases h with h | h
            · simp [h]
            · cases ho : d.openOk <;> simp [h]
      simp [hopen]
  · intro h
    unfold CcdPlayerOne.Open at h ⊢
    simp only at h ⊢
    split at h
    · cases h
    · rename_i hle
      simp only [if_neg hle]
      split at h
      · cases h
      · rename_i cam hcam
        simp [hcam]

/-- C12: `Close` on a facade with no device issues no device command; a
`Close` right after a `Close` changes nothing at all, so the close command is
sent at most once and the handle stays empty; a failed `Open` on a facade
without a device leaves it without a device. -/
theorem C12_Close_idempotent (s s1 : CcdPlayerOne) (w1 w2 : Nat) (nNo : Int) (d : OpenScript)
    (h1 : s.Close w1 = .ok s1) :
    s1.pCamera = none ∧
    s1.Close w2 = .ok s1 ∧
    (∃ t, s1.log = s.log ++ t ∧
      ((callerEvents t).filter Event.isClose).length ≤ 1 ∧
      (s.pCamera = none → (callerEvents t).filter Event.isDeviceCall = [])) ∧
    (s.pCamera = none → (s.Open nNo d).1 = false → (s.Open nNo d).2.pCamera = none) := by
  obtain ⟨hp, hn, hf, -, -⟩ := Close_log h1
  refine ⟨hp, ?_, ?_, ?_⟩
  · obtain ⟨cam, cache, buf, thr, flag, log⟩ := s1
    simp only at hp hn hf
    subst hp hn hf
    simp [CcdPlayerOne.Close, joinIfJoinable]
  · unfold CcdPlayerOne.Close at h1
    split at h1
    · cases h1
    · rename_i sj hj
      obtain ⟨hpj, -, -, -, t0, ht0, hJ⟩ := joinIfJoinable_ok hj
      simp only at h1
      split at h1
      · rename_i hc
        cases h1
        refine ⟨t0, ht0, ?_, ?_⟩
        · rw [hJ]
          cases s.imageWaitingThread.isSome <;> simp [Event.isClose]
        · intro _
          rw [hJ]
          cases s.imageWaitingThread.isSome <;> simp [Event.isDeviceCall]
      · rename_i cam hc
        cases h1
        refine ⟨t0 ++ [(Origin.caller, Event.POACloseCamera cam.cameraID)], ?_, ?_, ?_⟩
        · simp [record_log, ht0, PlayerOneCamera.Close]
        · rw [callerEvents_append, hJ]
          cases s.imageWaitingThread.isSome <;> simp [callerEvents, Event.isClose]
        · intro hnone
          have hc' : sj.pCamera = some cam := hc
          rw [hpj, hnone] at hc'
          cases hc'
  · intro hnone hfalse
    unfold CcdPlayerOne.Open at hfalse ⊢
    simp only at hfalse ⊢
    split
    · exact hnone
    · rename_i hle
      simp only [if_neg hle] at hfalse
      split at hfalse
      · rename_i hcam
        simp [hcam]
      · cases hfalse

/-- C12 at an input: closing the opened `demoCamera`, twice. -/
theorem C12_Close_idempotent_witness :
    closedDemo.pCamera = none ∧ closedDemo.Close 0 = .ok closedDemo :=
  ⟨(C12_Close_idempotent (opened demoCamera) closedDemo 0 0 0 demoOpen rfl).1,
   (C12_Close_idempotent (opened demoCamera) closedDemo 0 0 0 demoOpen rfl).2.1⟩

end lifecycle

section aborting

theorem workerStep_flag (s : CcdPlayerOne) (hf : s.bAbortBulb = true) :
    (workerStep s).bAbortBulb = true := by
  unfold workerStep
  repeat' split
  all_goals simp [CcdPlayerOne.record, CcdPlayerOne.setWorker, hf]

theorem workerSteps_flag (n : Nat) (s : CcdPlayerOne) (hf : s.bAbortBulb = true) :
    (workerSteps n s).bAbortBulb = true := by
  induction n generalizing s with
  | zero => exact hf
  | succ n ih => exact ih _ (workerStep_flag s hf)

/-- With the flag set and a device open, every worker step uses up one of the
remaining steps, from whatever program point. -/
theorem workerStep_flagged (s : CcdPlayerOne) (hf : s.bAbortBulb = true)
    (hc : s.pCamera.isSome = true) : flaggedLeft (workerStep s) ≤ flaggedLeft s - 1 := by
  obtain ⟨cam, cache, buf, thr, flag, log⟩ := s
  simp only at hf hc
  subst hf
  obtain ⟨c, hc⟩ := Option.isSome_iff_exists.1 hc
  subst hc
  cases thr with
  | none => simp [workerStep, flaggedLeft]
  | some w =>
    obtain ⟨nW, nH, dev, pc, q, res, st, bl⟩ := w
    cases pc with
    | start =>
      cases hs : dev.start <;>
        simp [workerStep, CcdPlayerOne.setWorker, CcdPlayerOne.record,
          PlayerOneCamera.StartExposure, flaggedLeft, flaggedSteps, hs]
    | assign =>
      cases res with
      | none => simp [workerStep, CcdPlayerOne.setWorker, flaggedLeft, flaggedSteps]
      | some a =>
        cases hr : a.result with
        | none =>
          by_cases hi : a.indeterminate = .STATE_EXPOSING <;>
            simp [workerStep, CcdPlayerOne.setWorker, flaggedLeft, flaggedSteps, hr, hi]
        | some x =>
          by_cases hi : x = .STATE_EXPOSING <;>
            simp [workerStep, CcdPlayerOne.setWorker, flaggedLeft, flaggedSteps, hr, hi]
    | ready =>
      by_cases hr : dev.ready = some true <;>
        simp [workerStep, CcdPlayerOne.setWorker, CcdPlayerOne.record,
          PlayerOneCamera.ImageReady, flaggedLeft, flaggedSteps, hr]
    | alloc =>
      by_cases hb : buf < 0 <;>
        simp [workerStep, CcdPlayerOne.setWorker, flaggedLeft, flaggedSteps, hb]
    | read =>
      cases hr : dev.read bl (readTimeout cache) <;>
        simp [workerStep, CcdPlayerOne.setWorker, CcdPlayerOne.record,
          PlayerOneCamera.GetImageData, flaggedLeft, flaggedSteps, hr]
    | _ =>
      simp [workerStep, CcdPlayerOne.setWorker, CcdPlayerOne.record,
        PlayerOneCamera.GetCameraState, PlayerOneCamera.StopExposure, flaggedLeft, flaggedSteps]

theorem workerSteps_flagged (n : Nat) (s : CcdPlayerOne) (hf : s.bAbortBulb = true)
    (hc : s.pCamera.isSome = true) : flaggedLeft (workerSteps n s) ≤ flaggedLeft s - n := by
  induction n generalizing s with
  | zero => simp [workerSteps]
  | succ n ih =>
    have h1 := workerStep_flagged s hf hc
    have h2 := ih (workerStep s) (workerStep_flag s hf) (by rw [workerStep_pCamera]; exact hc)
    simp only [workerSteps]
    omega

theorem flaggedSteps_le (pc : Pc) : flaggedSteps pc ≤ 7 := by
  cases pc <;> decide

theorem flaggedLeft_le (s : CcdPlayerOne) : flaggedLeft s ≤ 7 := by
  unfold flaggedLeft
  cases s.imageWaitingThread with
  | none => exact Nat.zero_le _
  | some w => exact flaggedSteps_le w.pc

theorem workerStep_joinable (s : CcdPlayerOne) :
    (workerStep s).imageWaitingThread.isSome = s.imageWaitingThread.isSome := by
  unfold workerStep
  repeat' split
  all_goals simp_all [CcdPlayerOne.record, CcdPlayerOne.setWorker]

theorem workerSteps_joinable (n : Nat) (s : CcdPlayerOne) :
    (workerSteps n s).imageWaitingThread.isSome = s.imageWaitingThread.isSome := by
  induction n generalizing s with
  | zero => rfl
  | succ n ih => rw [workerSteps, ih, workerStep_joinable]

/-- With the flag set and a device open a join is never blocked once the
worker has been granted seven steps. -/
theorem joinIfJoinable_flagged (wait : Nat) (s : CcdPlayerOne) (hf : s.bAbortBulb = true)
    (hc : s.pCamera.isSome = true) (hw : 7 ≤ wait) :
    joinIfJoinable wait s ≠ .error .blocked := by
  unfold joinIfJoinable
  split
  · simp
  · have h0 : flaggedLeft (workerSteps wait s) = 0 := by
      have := workerSteps_flagged wait s hf hc
      have := flaggedLeft_le s
      omega
    rename_i w0 hw0
    have hsome := workerSteps_joinable wait s
    unfold flaggedLeft at h0
    unfold workerPc
    cases ht : (workerSteps wait s).imageWaitingThread with
    | none => simp [ht, hw0] at hsome
    | some w =>
      simp only [ht] at h0
      have hpc : w.pc = .done ∨ w.pc = .crashed := by
        cases hpc : w.pc <;> simp [hpc, flaggedSteps] at h0 ⊢
      rcases hpc with hpc | hpc <;> simp [ht, hpc]

theorem EndExposure_open (wait : Nat) (stop : Bool) (x : CcdPlayerOne) (cam : PlayerOneCamera)
    (hc : x.pCamera = some cam) :
    x.EndExposure wait stop =
      match joinIfJoinable wait (x.record .caller [.POAStopExposure stop]) with
      | .error h => .error h
      | .ok s1 => .ok (true, s1) := by
  unfold CcdPlayerOne.EndExposure
  rw [hc]
  rfl

theorem EndExposure_closed (wait : Nat) (stop : Bool) (x : CcdPlayerOne)
    (hc : x.pCamera = none) : x.EndExposure wait stop = .ok (false, x) := by
  unfold CcdPlayerOne.EndExposure
  rw [hc]

theorem AbortExposure_state (s : CcdPlayerOne) (between wait : Nat) (stop : Bool) :
    ∃ (x : CcdPlayerOne) (es : List Event),
      s.AbortExposure between wait stop = x.EndExposure wait stop ∧
      x.bAbortBulb = true ∧ x.pCamera = s.pCamera ∧
      x.imageWaitingThread.isSome = s.imageWaitingThread.isSome ∧
      x.log = s.log ++ byWorker es := by
  obtain ⟨es, hes⟩ := workerSteps_byWorker between { s with bAbortBulb := true }
  exact ⟨workerSteps between { s with bAbortBulb := true }, es, rfl,
    workerSteps_flag between { s with bAbortBulb := true } rfl,
    workerSteps_pCamera between { s with bAbortBulb := true },
    workerSteps_joinable between { s with bAbortBulb := true }, hes⟩

end aborting

section workers

theorem joinIfJoinable_done {wait : Nat} {s s1 : CcdPlayerOne}
    (h : joinIfJoinable wait s = .ok s1) (hs : s.imageWaitingThread.isSome = true) :
    workerPc (workerSteps wait s) = some .done := by
  unfold joinIfJoinable at h
  split at h
  · rename_i hn
    simp [hn] at hs
  · simp only at h
    split at h
    · rename_i hd
      exact hd
    · cases h
    · cases h

theorem demoStart_join (wait : Nat) (s s1 : CcdPlayerOne) (e : ExposureScript)
    (cam : PlayerOneCamera) (hc : s.pCamera = some cam)
    (hj : joinIfJoinable wait s = .ok s1) :
    s.StartExposure releaseBuild wait demoStart e = .ok (true, startedFrom s1 e) := by
  rw [StartExposure_unfold releaseBuild wait demoStart e s s1 cam hc hj]
  simp [demoStart, PlayerOneImgFormatSize, startedFrom, mulInt32, wrapInt32]

theorem StartExposure_spawn {b : Build} {wait : Nat} {d : StartScript} {e : ExposureScript}
    {s s' : CcdPlayerOne} (h : s.StartExposure b wait d e = .ok (true, s')) :
    ∃ t, s'.log = s.log ++ t ∧
      (callerEvents t).filter Event.isSpawn = [Event.threadSwap false] := by
  obtain ⟨cam, sj, w, h', fmt, bits, bytes, -, hj, -, -, -, hs'⟩ := StartExposure_true h
  obtain ⟨-, -, -, -, t0, ht0, hJ⟩ := joinIfJoinable_ok hj
  subst hs'
  refine ⟨t0 ++ _, by simp only [ht0, List.append_assoc]; rfl, ?_⟩
  rw [callerEvents_append, hJ]
  cases s.imageWaitingThread.isSome <;>
    simp [byCaller, callerEvents, Event.isSpawn]

/-- C10: at most one exposure worker at any time.  In every state that a
sequence of facade calls and worker steps reaches from the constructor, a
`StartExposure` that creates a worker has first waited until the previous
worker (if its thread was joinable) had finished, the thread object it
swaps out is not joinable, and no swap in the whole history ever replaced
a joinable thread. -/
theorem C10_single_worker (b : Build) (as : List Action) (s : CcdPlayerOne) (wait : Nat)
    (d : StartScript) (e : ExposureScript) (r : Bool × CcdPlayerOne)
    (hreach : exec b as CcdPlayerOne.ctor = .ok s)
    (hcall : s.StartExposure b wait d e = .ok r) :
    (Origin.caller, Event.threadSwap true) ∉ r.2.log ∧
    (r.1 = true →
      (s.imageWaitingThread.isSome = true → workerPc (workerSteps wait s) = some .done) ∧
      ∃ t, r.2.log = s.log ++ t ∧
        (callerEvents t).filter Event.isSpawn = [Event.threadSwap false]) := by
  have hhist := (exec_history b as CcdPlayerOne.ctor s ⟨rfl, by simp [CcdPlayerOne.ctor]⟩ hreach).2
  obtain ⟨-, -, t, ht, hB⟩ := StartExposure_log hcall
  refine ⟨?_, ?_⟩
  · rw [ht]
    intro hmem
    rcases List.mem_append.1 hmem with hm | hm
    · exact hhist hm
    · rcases hB _ hm with hw | ⟨-, hs⟩
      · cases hw
      · simp [Event.isBadSwap] at hs
  · intro hr
    obtain ⟨r1, r2⟩ := r
    simp only at hr
    subst hr
    obtain ⟨cam, sj, w, h', fmt, bits, bytes, -, hj, -, -, -, -⟩ := StartExposure_true hcall
    exact ⟨joinIfJoinable_done hj, StartExposure_spawn hcall⟩

/-- C10 at an input: a second `StartExposure` while the thread of the first
exposure is still joinable. -/
theorem C10_single_worker_witness :
    (Origin.caller, Event.threadSwap true) ∉ secondStarted.log ∧
    (true = true →
      (firstStarted.imageWaitingThread.isSome = true →
        workerPc (workerSteps 10 firstStarted) = some .done) ∧
      ∃ t, secondStarted.log = firstStarted.log ++ t ∧
        (callerEvents t).filter Event.isSpawn = [Event.threadSwap false]) :=
  C10_single_worker releaseBuild [.Open 0 demoOpen, .StartExposure 0 demoStart (exposingFor 0)]
    firstStarted 10 demoStart (exposingFor 0) (true, secondStarted)
    (by
      have h1 : step releaseBuild (.Open 0 demoOpen) CcdPlayerOne.ctor = .ok demoOpened := rfl
      have h2 : step releaseBuild (.StartExposure 0 demoStart (exposingFor 0)) demoOpened =
          .ok firstStarted := by
        simp only [step, discard]
        rw [if_neg (by decide), demoStart_join 0 demoOpened demoOpened (exposingFor 0)
          demoCamera (by decide) rfl]
        rfl
      simp [exec, h1, h2])
    (demoStart_join 10 firstStarted firstJoined (exposingFor 0) demoCamera (by decide) rfl)

end workers

section timeout

theorem readTimeout_of_range (E : Int) (h1 : -2147483648 ≤ Int.tdiv E 1000 + 500)
    (h2 : Int.tdiv E 1000 + 500 < 2147483648) : readTimeout E = Int.tdiv E 1000 + 500 :=
  wrapInt32_of_range _ h1 h2

/-- C17 (as stated) fails: after `SetExposure(2147483148000)` returned true the
cached exposure is E = 2147483148000 and E / 1000 + 500 = 2147483648, yet the
timeout the worker passes to the image read is the `int` -2147483648. -/
theorem C17_counterexample :
    longExposure.m_nCurrentExposureCache = 2147483148000 ∧
    Int.tdiv 2147483148000 1000 + 500 = 2147483648 ∧
    attemptEvents (startedFrom longExposure (exposingFor 0))
        (workerSteps 10 (startedFrom longExposure (exposingFor 0))) =
      [.POAStartExposure true true, .sleep 100, .POAGetCameraState (some (.terminal 1)),
       .POAImageReady (some true), .POAGetImageData 24 (-2147483648) true,
       .imageReady 4 3 24] := by
  decide

/-- C17 (amended): in every state a schedule reaches from the constructor, a
worker at the image read passes the timeout E / 1000 + 500 (division
truncating toward zero) converted to `int`, where E is the cached exposure:
the argument of the most recent `SetExposure` that returned true, 0 if there
is none.  The conversion changes nothing whenever E / 1000 + 500 fits an
`int`; E = 1_000_000 gives 1500; a `SetExposure` that fails leaves E as it was. -/
theorem C17_read_timeout (b : Build) (as : List Action) (s : CcdPlayerOne) (w : Worker)
    (v : Int)
    (hreach : exec b as CcdPlayerOne.ctor = .ok s)
    (hw : s.imageWaitingThread = some w) (hpc : w.pc = .read)
    (hc : s.pCamera.isSome = true) :
    (∃ ok, (workerStep s).log = s.log ++
      [(.worker, .POAGetImageData w.bufLen (readTimeout (lastExposure s.log)) ok)]) ∧
    s.m_nCurrentExposureCache = lastExposure s.log ∧
    (-2147483648 ≤ Int.tdiv (lastExposure s.log) 1000 + 500 →
      Int.tdiv (lastExposure s.log) 1000 + 500 < 2147483648 →
      readTimeout (lastExposure s.log) = Int.tdiv (lastExposure s.log) 1000 + 500) ∧
    readTimeout 1000000 = 1500 ∧
    (s.SetExposure v false false).1 = false ∧
    (s.SetExposure v false false).2.m_nCurrentExposureCache = s.m_nCurrentExposureCache ∧
    lastExposure (s.SetExposure v false false).2.log = lastExposure s.log := by
  have hhist := (exec_history b as CcdPlayerOne.ctor s ⟨rfl, by simp [CcdPlayerOne.ctor]⟩ hreach).1
  obtain ⟨h1, h2, h3⟩ := SetExposure_open s v false false hc
  refine ⟨?_, hhist, readTimeout_of_range _, by decide, by simpa using h1, by simpa using h3, ?_⟩
  · obtain ⟨cam, hc⟩ := Option.isSome_iff_exists.1 hc
    refine ⟨w.dev.read w.bufLen (readTimeout (lastExposure s.log)), ?_⟩
    rw [← hhist]
    unfold workerStep
    simp [hw, hpc, hc, CcdPlayerOne.record, CcdPlayerOne.setWorker, PlayerOneCamera.GetImageData]
  · rw [h2, lastExposure, lastExposureFrom_append, lastExposureFrom_SetExposure]
    simp [lastExposure]

/-- C17 (amended) at an input: exposure 1_000_000, timeout 1500. -/
theorem C17_read_timeout_witness :
    (∃ ok, (workerStep atRead).log = atRead.log ++
      [(.worker, .POAGetImageData 24 (readTimeout (lastExposure atRead.log)) ok)]) ∧
    atRead.m_nCurrentExposureCache = lastExposure atRead.log ∧
    (-2147483648 ≤ Int.tdiv (lastExposure atRead.log) 1000 + 500 →
      Int.tdiv (lastExposure atRead.log) 1000 + 500 < 2147483648 →
      readTimeout (lastExposure atRead.log) = Int.tdiv (lastExposure atRead.log) 1000 + 500) ∧
    readTimeout 1000000 = 1500 ∧
    (atRead.SetExposure 7 false false).1 = false ∧
    (atRead.SetExposure 7 false false).2.m_nCurrentExposureCache =
      atRead.m_nCurrentExposureCache ∧
    lastExposure (atRead.SetExposure 7 false false).2.log = lastExposure atRead.log :=
  C17_read_timeout releaseBuild
    [.Open 0 demoOpen, .SetExposure 1000000 true true,
     .StartExposure 0 demoStart (exposingFor 0),
     .worker, .worker, .worker, .worker, .worker, .worker, .worker, .worker]
    atRead
    { CcdPlayerOne.newWorker 4 3 (exposingFor 0) with
      pc := .read, queries := 1, result := some ((exposingFor 0).state 0),
      state := some (.terminal 1), bufLen := 24 }
    7 rfl rfl rfl rfl

end timeout

section balance

theorem threadBalance_append (a b : Trace) :
    threadBalance (a ++ b) = threadBalance a + threadBalance b := by
  simp only [threadBalance, callerEvents_append, List.filter_append, List.length_append]
  push_cast
  ring

theorem threadBalance_byWorker (es : List Event) : threadBalance (byWorker es) = 0 := by
  simp [threadBalance, byWorker, callerEvents_worker]

theorem threadBalance_byCaller (es : List Event)
    (h : ∀ e ∈ es, e.isSpawn = false ∧ e.isJoin = false) : threadBalance (byCaller es) = 0 := by
  have h1 : es.filter Event.isSpawn = [] :=
    List.filter_eq_nil_iff.2 fun e he => by simp [(h e he).1]
  have h2 : es.filter Event.isJoin = [] :=
    List.filter_eq_nil_iff.2 fun e he => by simp [(h e he).2]
  simp [threadBalance, byCaller, callerEvents_caller, h1, h2]

/-- A join that returns takes the joined worker off the balance. -/
theorem joinIfJoinable_balance {wait : Nat} {s s1 : CcdPlayerOne}
    (h : joinIfJoinable wait s = .ok s1) :
    threadBalance s1.log - joinableCount s1 = threadBalance s.log - joinableCount s := by
  obtain ⟨-, -, -, hn, t, ht, hJ⟩ := joinIfJoinable_ok h
  rw [ht, threadBalance_append]
  have hb : threadBalance t = - joinableCount s := by
    unfold threadBalance joinableCount
    rw [hJ]
    cases s.imageWaitingThread.isSome <;> simp [Event.isSpawn, Event.isJoin]
  have h1 : joinableCount s1 = 0 := by simp [joinableCount, hn]
  rw [hb, h1]
  ring

theorem workerSteps_balance (n : Nat) (s : CcdPlayerOne) :
    threadBalance (workerSteps n s).log - joinableCount (workerSteps n s) =
      threadBalance s.log - joinableCount s := by
  obtain ⟨es, hes⟩ := workerSteps_byWorker n s
  have hj : joinableCount (workerSteps n s) = joinableCount s := by
    unfold joinableCount
    rw [workerSteps_joinable]
  rw [hes, threadBalance_append, threadBalance_byWorker, hj]
  ring

theorem record_balance (s : CcdPlayerOne) (es : List Event)
    (h : ∀ e ∈ es, e.isSpawn = false ∧ e.isJoin = false) :
    threadBalance (s.record .caller es).log - joinableCount (s.record .caller es) =
      threadBalance s.log - joinableCount s := by
  have hl : (s.record .caller es).log = s.log ++ byCaller es := rfl
  have hj : joinableCount (s.record .caller es) = joinableCount s := rfl
  rw [hl, threadBalance_append, threadBalance_byCaller es h, hj]
  ring

theorem EndExposure_balance {wait : Nat} {stop : Bool} {s : CcdPlayerOne}
    {r : Bool × CcdPlayerOne} (h : s.EndExposure wait stop = .ok r) :
    threadBalance r.2.log - joinableCount r.2 = threadBalance s.log - joinableCount s := by
  cases hc : s.pCamera with
  | none =>
    rw [EndExposure_closed wait stop s hc] at h
    cases h
    rfl
  | some cam =>
    rw [EndExposure_open wait stop s cam hc] at h
    cases hj : joinIfJoinable wait (s.record .caller [.POAStopExposure stop]) with
    | error e => simp [hj] at h
    | ok sj =>
      simp only [hj, Except.ok.injEq] at h
      subst h
      rw [joinIfJoinable_balance hj]
      exact record_balance s _ (by simp [Event.isSpawn, Event.isJoin])

theorem StartExposure_balance {b : Build} {wait : Nat} {d : StartScript} {e : ExposureScript}
    {s : CcdPlayerOne} {r : Bool × CcdPlayerOne} (h : s.StartExposure b wait d e = .ok r) :
    threadBalance r.2.log - joinableCount r.2 = threadBalance s.log - joinableCount s := by
  cases hc : s.pCamera with
  | none =>
    simp [CcdPlayerOne.StartExposure, hc] at h
    subst h
    rfl
  | some cam =>
    obtain ⟨s1, hj⟩ := StartExposure_join hc h
    obtain ⟨-, -, -, hn, -⟩ := joinIfJoinable_ok hj
    rw [← joinIfJoinable_balance hj]
    rw [StartExposure_unfold b wait d e s s1 cam hc hj] at h
    have h0 : joinableCount s1 = 0 := by simp [joinableCount, hn]
    cases hsz : d.imageSize with
    | none =>
      simp only [hsz] at h
      cases h
      simp only [threadBalance_append, joinableCount, hn]
      simp [threadBalance, callerEvents, Event.isSpawn, Event.isJoin]
    | some imageSize =>
      cases hf : d.imageFormat with
      | none =>
        simp only [hsz, hf] at h
        cases h
        simp only [threadBalance_append, joinableCount, hn]
        simp [threadBalance, callerEvents, Event.isSpawn, Event.isJoin]
      | some fmt =>
        cases hsize : PlayerOneImgFormatSize b fmt with
        | none => simp [hsz, hf, hsize] at h
        | some size =>
          simp only [hsz, hf, hsize] at h
          split at h
          · cases h
            simp only [threadBalance_append, joinableCount, hn]
            simp [threadBalance, callerEvents, Event.isSpawn, Event.isJoin]
          · cases h
            simp only [threadBalance_append, joinableCount, hn]
            simp [threadBalance, callerEvents, Event.isSpawn, Event.isJoin]

theorem Open_balance (nNo : Int) (d : OpenScript) (s : CcdPlayerOne) :
    threadBalance (s.Open nNo d).2.log - joinableCount (s.Open nNo d).2 =
      threadBalance s.log - joinableCount s := by
  have hplain : ∀ es : List Event, (∀ e ∈ es, e.isSpawn = false ∧ e.isJoin = false) →
      ∀ x : CcdPlayerOne, x.imageWaitingThread = s.imageWaitingThread →
        x.log = s.log ++ byCaller es →
        threadBalance x.log - joinableCount x = threadBalance s.log - joinableCount s := by
    intro es hes x hx hl
    rw [hl, threadBalance_append, threadBalance_byCaller es hes]
    unfold joinableCount
    rw [hx]
    ring
  have hlist : ∀ e ∈ (PlayerOneCamera.CameraList d).1, e.isSpawn = false ∧ e.isJoin = false := by
    intro e he
    unfold PlayerOneCamera.CameraList at he
    split at he
    · simp at he
      subst he
      exact ⟨rfl, rfl⟩
    · simp only [List.singleton_append, List.mem_cons, List.mem_map] at he
      rcases he with rfl | ⟨i, -, rfl⟩ <;> exact ⟨rfl, rfl⟩
  have hcreate : ∀ prop, ∀ e ∈ (PlayerOneCamera.Create prop d).1,
      e.isSpawn = false ∧ e.isJoin = false := by
    intro prop e he
    unfold PlayerOneCamera.Create at he
    split at he
    · simp at he
      subst he
      exact ⟨rfl, rfl⟩
    · simp only [List.singleton_append, List.mem_cons, List.mem_map] at he
      rcases he with rfl | ⟨i, -, rfl⟩ <;> exact ⟨rfl, rfl⟩
  have hopen : ∀ e ∈ (PlayerOneCamera.Open nNo d).1, e.isSpawn = false ∧ e.isJoin = false := by
    intro e he
    unfold PlayerOneCamera.Open at he
    split at he
    · simp at he
      subst he
      exact ⟨rfl, rfl⟩
    · split at he
      · simp at he
        rcases he with rfl | rfl <;> exact ⟨rfl, rfl⟩
      · rename_i prop _
        split at he
        · simp at he
          rcases he with rfl | rfl | rfl <;> exact ⟨rfl, rfl⟩
        · split at he
          · simp at he
            rcases he with rfl | rfl | rfl | rfl <;> exact ⟨rfl, rfl⟩
          · simp only [List.mem_append, List.mem_cons, List.mem_singleton, List.not_mem_nil,
              or_false] at he
            rcases he with (rfl | rfl | rfl | rfl) | he
            · exact ⟨rfl, rfl⟩
            · exact ⟨rfl, rfl⟩
            · exact ⟨rfl, rfl⟩
            · exact ⟨rfl, rfl⟩
            · exact hcreate prop e he
  unfold CcdPlayerOne.Open
  simp only
  split
  · exact hplain _ hlist _ rfl rfl
  · have hboth : ∀ e ∈ (PlayerOneCamera.CameraList d).1 ++ (PlayerOneCamera.Open nNo d).1,
        e.isSpawn = false ∧ e.isJoin = false := by
      intro e he
      rcases List.mem_append.1 he with h | h
      · exact hlist e h
      · exact hopen e h
    split
    · exact hplain _ hboth _ rfl (by simp [CcdPlayerOne.record, byCaller])
    · exact hplain _ hboth _ rfl (by simp [CcdPlayerOne.record, byCaller])

/-- Every move of a schedule keeps the balance of created and joined workers
equal to the number of joinable thread objects. -/
theorem step_balance {b : Build} {a : Action} {s s' : CcdPlayerOne}
    (h : step b a s = .ok s') :
    threadBalance s'.log - joinableCount s' = threadBalance s.log - joinableCount s := by
  unfold step at h
  split at h
  · cases h
  · cases a with
    | worker =>
      cases h
      exact workerSteps_balance 1 s
    | Open nNo d =>
      cases h
      exact Open_balance nNo d s
    | Close wait =>
      have h : s.Close wait = .ok s' := h
      unfold CcdPlayerOne.Close at h
      split at h
      · cases h
      · rename_i sj hj
        rw [← joinIfJoinable_balance hj]
        simp only at h
        split at h
        · cases h
          rfl
        · rename_i cam hc
          cases h
          exact record_balance { sj with bAbortBulb := true } cam.Close
            (by simp [PlayerOneCamera.Close, Event.isSpawn, Event.isJoin])
    | StartExposure wait d e =>
      simp only [discard] at h
      split at h
      · cases h
      · rename_i r hr
        cases h
        exact StartExposure_balance hr
    | AbortExposure between wait stop =>
      simp only [discard] at h
      split at h
      · cases h
      · rename_i r hr
        cases h
        have hr' : (workerSteps between { s with bAbortBulb := true }).EndExposure wait stop =
            .ok r := hr
        rw [EndExposure_balance hr', workerSteps_balance]
        rfl
    | EndExposure wait stop =>
      simp only [discard] at h
      split at h
      · cases h
      · rename_i r hr
        cases h
        exact EndExposure_balance hr
    | SetExposure v first retry =>
      cases h
      cases hc : s.pCamera with
      | none => simp [CcdPlayerOne.SetExposure, hc]
      | some cam =>
        cases first <;> cases retry <;>
          simp [CcdPlayerOne.SetExposure, hc, PlayerOneCamera.SetExposure,
            PlayerOneCamera.SetIntConfig, CcdPlayerOne.record, threadBalance_append,
            joinableCount, threadBalance, callerEvents, Event.isSpawn, Event.isJoin]
    | SetGain wait v ok =>
      simp only [discard] at h
      split at h
      · cases h
      · rename_i r hr
        cases h
        unfold CcdPlayerOne.SetGain at hr
        split at hr
        · cases hr
          rfl
        · split at hr
          · cases hr
          · rename_i sj hj
            cases hr
            rw [← joinIfJoinable_balance hj]
            exact record_balance sj _
              (by simp [PlayerOneCamera.SetGain, PlayerOneCamera.SetIntConfig, Event.isSpawn,
                Event.isJoin])
    | SetQuality wait v ok =>
      simp only [discard] at h
      split at h
      · cases h
      · rename_i r hr
        cases h
        unfold CcdPlayerOne.SetQuality at hr
        split at hr
        · cases hr
          rfl
        · split at hr
          · cases hr
          · rename_i sj hj
            cases hr
            rw [← joinIfJoinable_balance hj]
            exact record_balance sj _
              (by simp [PlayerOneCamera.SetImageBin, Event.isSpawn, Event.isJoin])

/-- In every state a schedule reaches from the constructor, the workers
created and not yet joined are as many as the joinable thread objects: one
or none. -/
theorem exec_balance (b : Build) (as : List Action) (s0 s : CcdPlayerOne)
    (h : exec b as s0 = .ok s) :
    threadBalance s.log - joinableCount s = threadBalance s0.log - joinableCount s0 := by
  induction as generalizing s0 with
  | nil =>
    simp only [exec] at h
    cases h
    rfl
  | cons a as ih =>
    simp only [exec] at h
    split at h
    · cases h
    · rename_i s1 hs1
      rw [ih s1 h, step_balance hs1]

end balance

section joined

theorem workerStep_done (s : CcdPlayerOne) (h : workerPc s = some .done) : workerStep s = s := by
  unfold workerPc at h
  unfold workerStep
  cases ht : s.imageWaitingThread with
  | none => rfl
  | some w =>
    simp only [ht, Option.map_some', Option.some.injEq] at h
    simp [h]

theorem workerSteps_done (n : Nat) (s : CcdPlayerOne) (h : workerPc s = some .done) :
    workerSteps n s = s := by
  induction n with
  | zero => rfl
  | succ n ih => rw [workerSteps, workerStep_done s h, ih]

/-- The step that takes the worker to its end emits a signal. -/
theorem workerStep_finishes (s : CcdPlayerOne) (h0 : workerPc s ≠ some .done)
    (h1 : workerPc (workerStep s) = some .done) :
    ∃ e, (workerStep s).log = s.log ++ byWorker [e] ∧ e.isNotification = true := by
  obtain ⟨cam, cache, buf, thr, flag, log⟩ := s
  cases thr with
  | none => simp [workerStep, workerPc] at h1
  | some w =>
    obtain ⟨nW, nH, dev, pc, q, res, st, bl⟩ := w
    cases pc with
    | emit =>
      exact ⟨.imageReady nW nH bl,
        by simp [workerStep, CcdPlayerOne.record, CcdPlayerOne.setWorker, byWorker], rfl⟩
    | abortEmit =>
      exact ⟨.aborted,
        by simp [workerStep, CcdPlayerOne.record, CcdPlayerOne.setWorker, byWorker], rfl⟩
    | done => simp [workerPc] at h0
    | _ =>
      exfalso
      revert h1
      simp only [workerStep, workerPc]
      repeat' split
      all_goals simp [CcdPlayerOne.setWorker, CcdPlayerOne.record]

/-- A worker that reaches its end from a point before it has, on the way,
emitted a signal as its last event. -/
theorem workerSteps_finishes (n : Nat) (s : CcdPlayerOne) (h0 : workerPc s ≠ some .done)
    (h1 : workerPc (workerSteps n s) = some .done) :
    ∃ W e, (workerSteps n s).log = s.log ++ byWorker (W ++ [e]) ∧ e.isNotification = true := by
  induction n generalizing s with
  | zero => exact absurd h1 h0
  | succ n ih =>
    simp only [workerSteps] at h1 ⊢
    by_cases hd : workerPc (workerStep s) = some .done
    · obtain ⟨e, hl, he⟩ := workerStep_finishes s h0 hd
      exact ⟨[], e, by rw [workerSteps_done n _ hd, hl]; rfl, he⟩
    · obtain ⟨W, e, hl, he⟩ := ih (workerStep s) hd h1
      obtain ⟨es, hes⟩ := workerSteps_byWorker 1 s
      have hes' : (workerStep s).log = s.log ++ byWorker es := hes
      refine ⟨es ++ W, e, ?_, he⟩
      rw [hl, hes']
      simp [byWorker]

end joined

section abortingFrame

/-- `AbortExposure` leaves the handle, the cached exposure and the buffer size
as they are. -/
theorem AbortExposure_frame {s : CcdPlayerOne} {between wait : Nat} {stop : Bool}
    {r : Bool × CcdPlayerOne} (h : s.AbortExposure between wait stop = .ok r) :
    r.2.pCamera = s.pCamera ∧ r.2.m_nCurrentExposureCache = s.m_nCurrentExposureCache ∧
    r.2.m_nCurrentBufferSize = s.m_nCurrentBufferSize := by
  have h0 : CcdPlayerOne.EndExposure wait stop
      (workerSteps between { s with bAbortBulb := true }) = .ok r := h
  have hp : (workerSteps between { s with bAbortBulb := true }).pCamera = s.pCamera :=
    workerSteps_pCamera between { s with bAbortBulb := true }
  have hcache : (workerSteps between { s with bAbortBulb := true }).m_nCurrentExposureCache =
      s.m_nCurrentExposureCache := workerSteps_cache between { s with bAbortBulb := true }
  have hbuf : (workerSteps between { s with bAbortBulb := true }).m_nCurrentBufferSize =
      s.m_nCurrentBufferSize := workerSteps_bufferSize between { s with bAbortBulb := true }
  cases hc : s.pCamera with
  | none =>
    rw [EndExposure_closed wait stop _ (hp.trans hc)] at h0
    cases h0
    exact ⟨hp.trans hc, hcache, hbuf⟩
  | some cam =>
    rw [EndExposure_open wait stop _ cam (hp.trans hc)] at h0
    split at h0
    · cases h0
    · rename_i sj hj
      cases h0
      obtain ⟨h1, h2, h3, -, -⟩ := joinIfJoinable_ok hj
      exact ⟨(h1.trans hp).trans hc, h2.trans hcache, h3.trans hbuf⟩

/-- `AbortExposure` on a worker that has already ended: the flag, the stop
command, the join; the worker adds nothing. -/
theorem AbortExposure_finished (s : CcdPlayerOne) (between wait : Nat) (stop : Bool)
    (cam : PlayerOneCamera) (hc : s.pCamera = some cam) (hd : workerPc s = some .done) :
    s.AbortExposure between wait stop =
      .ok (true, { s with
        bAbortBulb := true, imageWaitingThread := none,
        log := s.log ++ [(.caller, .POAStopExposure stop), (.caller, .threadJoin)] }) := by
  have hd0 : workerPc ({ s with bAbortBulb := true } : CcdPlayerOne) = some .done := hd
  unfold CcdPlayerOne.AbortExposure
  rw [workerSteps_done between _ hd0]
  have hd1 : workerPc (({ s with bAbortBulb := true } : CcdPlayerOne).record .caller
      [.POAStopExposure stop]) = some .done := hd
  rw [EndExposure_open wait stop ({ s with bAbortBulb := true } : CcdPlayerOne) cam hc]
  unfold joinIfJoinable
  rw [workerSteps_done wait _ hd1]
  unfold workerPc at hd
  cases ht : s.imageWaitingThread with
  | none => simp [ht] at hd
  | some w =>
    simp only [ht, Option.map_some', Option.some.injEq] at hd
    simp [CcdPlayerOne.record, workerPc, ht, hd]

end abortingFrame

section abortingClaim

/-- C11: with a device open `AbortExposure` sets the flag, sends exactly one
stop command of its own, then joins the worker if the thread is joinable,
and whatever the stop command answered every return value is true.  The
join is a real one: when a thread was joinable the call returns only in a
state in which the worker has run to its end, the trace holding all of the
worker's events, the last of them a signal, before the join; the join is
never blocked once the worker has been granted seven steps.  The call never
changes the handle, the cached exposure or the buffer size.  With no
exposure in flight (no joinable thread, or a worker that has already ended)
the call changes nothing but the flag, the thread object and the trace, to
which it adds its stop command and the join only: no signal.  With no device
open it returns false and issues no command. -/
theorem C11_AbortExposure (s : CcdPlayerOne) (between wait : Nat) (stop : Bool) :
    (s.pCamera = none →
      ∃ s', s.AbortExposure between wait stop = .ok (false, s') ∧
        ∃ t, s'.log = s.log ++ t ∧ callerEvents t = []) ∧
    (s.pCamera.isSome = true → ∀ r, s.AbortExposure between wait stop = .ok r →
      r.1 = true ∧ r.2.bAbortBulb = true ∧ r.2.imageWaitingThread = none ∧
      r.2.pCamera = s.pCamera ∧
      r.2.m_nCurrentExposureCache = s.m_nCurrentExposureCache ∧
      r.2.m_nCurrentBufferSize = s.m_nCurrentBufferSize ∧
      ∃ t, r.2.log = s.log ++ t ∧
        callerEvents t = [.POAStopExposure stop] ++
          (if s.imageWaitingThread.isSome then [.threadJoin] else [])) ∧
    (s.pCamera.isSome = true → s.imageWaitingThread.isSome = true →
      ∀ r, s.AbortExposure between wait stop = .ok r →
      workerPc (workerSteps wait (abortStopped between stop s)) = some .done ∧
      r.2 = ({ workerSteps wait (abortStopped between stop s) with
                imageWaitingThread := none }).record .caller [.threadJoin] ∧
      (workerPc s ≠ some .done →
        ∃ t W e, r.2.log = s.log ++ t ∧ workerEvents t = W ++ [e] ∧
          e.isNotification = true)) ∧
    (s.pCamera.isSome = true → 7 ≤ wait →
      s.AbortExposure between wait stop ≠ .error .blocked) ∧
    (s.pCamera.isSome = true → s.imageWaitingThread = none →
      s.AbortExposure between wait stop =
        .ok (true, { s with bAbortBulb := true,
                            log := s.log ++ [(.caller, .POAStopExposure stop)] })) ∧
    (s.pCamera.isSome = true → workerPc s = some .done →
      s.AbortExposure between wait stop =
        .ok (true, { s with
          bAbortBulb := true, imageWaitingThread := none,
          log := s.log ++ [(.caller, .POAStopExposure stop), (.caller, .threadJoin)] })) := by
  obtain ⟨x, es, hdef, hflag, hcam, hthr, hlog⟩ := AbortExposure_state s between wait stop
  refine ⟨?_, ?_, ?_, ?_, ?_, ?_⟩
  · intro hc
    rw [hdef]
    exact ⟨x, EndExposure_closed wait stop x (hcam.trans hc), byWorker es, hlog,
      callerEvents_worker es⟩
  · intro hc r hr
    obtain ⟨hf1, hf2, hf3⟩ := AbortExposure_frame hr
    obtain ⟨cam, hc⟩ := Option.isSome_iff_exists.1 hc
    rw [hdef, EndExposure_open wait stop x cam (hcam.trans hc)] at hr
    cases hj : joinIfJoinable wait (x.record .caller [.POAStopExposure stop]) with
    | error e => simp [hj] at hr
    | ok sj =>
      simp only [hj, Except.ok.injEq] at hr
      subst hr
      obtain ⟨-, -, -, hn, t0, ht0, hJ⟩ := joinIfJoinable_ok hj
      refine ⟨rfl, ?_, hn, hf1, hf2, hf3,
        byWorker es ++ ([(Origin.caller, Event.POAStopExposure stop)] ++ t0), ?_, ?_⟩
      · unfold joinIfJoinable at hj
        split at hj
        · cases hj
          exact hflag
        · simp only at hj
          split at hj
          · cases hj
            exact workerSteps_flag _ _ hflag
          · cases hj
          · cases hj
      · rw [ht0, record_log, hlog]
        simp [List.append_assoc]
      · rw [callerEvents_append, callerEvents_append, hJ]
        have : (x.record .caller [Event.POAStopExposure stop]).imageWaitingThread.isSome =
            s.imageWaitingThread.isSome := hthr
        rw [this]
        simp [callerEvents_worker, byWorker, callerEvents]
  · intro hc hs r hr
    obtain ⟨cam, hc⟩ := Option.isSome_iff_exists.1 hc
    have hcam0 : (workerSteps between { s with bAbortBulb := true }).pCamera = some cam :=
      (workerSteps_pCamera between { s with bAbortBulb := true }).trans hc
    have hr' : CcdPlayerOne.EndExposure wait stop
        (workerSteps between { s with bAbortBulb := true }) = .ok r := hr
    rw [EndExposure_open wait stop _ cam hcam0] at hr'
    have hsome : (abortStopped between stop s).imageWaitingThread.isSome = true := by
      show (workerSteps between { s with bAbortBulb := true }).imageWaitingThread.isSome = true
      rw [workerSteps_joinable]
      exact hs
    cases hj : joinIfJoinable wait (abortStopped between stop s) with
    | error e =>
      have hj' : joinIfJoinable wait ((workerSteps between { s with bAbortBulb := true }).record
          .caller [.POAStopExposure stop]) = .error e := hj
      simp [hj'] at hr'
    | ok sj =>
      have hj' : joinIfJoinable wait ((workerSteps between { s with bAbortBulb := true }).record
          .caller [.POAStopExposure stop]) = .ok sj := hj
      simp only [hj', Except.ok.injEq] at hr'
      subst hr'
      have hdone := joinIfJoinable_done hj hsome
      have hsj : sj = ({ workerSteps wait (abortStopped between stop s) with
          imageWaitingThread := none }).record .caller [.threadJoin] := by
        unfold joinIfJoinable at hj
        split at hj
        · rename_i hn
          simp [hn] at hsome
        · simp only at hj
          split at hj
          · cases hj
            rfl
          · cases hj
          · cases hj
      refine ⟨hdone, hsj, ?_⟩
      intro hnd
      obtain ⟨es1, hes1⟩ := workerSteps_byWorker between { s with bAbortBulb := true }
      have hes1' : (workerSteps between { s with bAbortBulb := true }).log =
          s.log ++ byWorker es1 := hes1
      have hstopped : (abortStopped between stop s).log =
          s.log ++ byWorker es1 ++ byCaller [.POAStopExposure stop] := by
        show (workerSteps between { s with bAbortBulb := true }).log ++ _ = _
        rw [hes1']
        rfl
      have hlogsj : (true, sj).2.log =
          (workerSteps wait (abortStopped between stop s)).log ++ byCaller [.threadJoin] := by
        rw [hsj]
        rfl
      by_cases hd1 : workerPc (workerSteps between { s with bAbortBulb := true }) = some .done
      · -- the worker finished before the stop command was sent
        have hnd0 : workerPc ({ s with bAbortBulb := true } : CcdPlayerOne) ≠ some .done := hnd
        obtain ⟨W, e, hl, he⟩ := workerSteps_finishes between _ hnd0 hd1
        have hl' : (workerSteps between { s with bAbortBulb := true }).log =
            s.log ++ byWorker (W ++ [e]) := hl
        have hd2 : workerPc (abortStopped between stop s) = some .done := hd1
        refine ⟨byWorker (W ++ [e]) ++ byCaller [.POAStopExposure stop] ++
          byCaller [.threadJoin], W, e, ?_, ?_, he⟩
        · rw [hlogsj, workerSteps_done wait _ hd2]
          show (workerSteps between { s with bAbortBulb := true }).log ++ _ ++ _ = _
          rw [hl']
          simp [List.append_assoc]
          rfl
        · rw [workerEvents_append, workerEvents_append, workerEvents_byCaller,
            workerEvents_byCaller, workerEvents_byWorker]
          simp
      · have hd2 : workerPc (abortStopped between stop s) ≠ some .done := hd1
        obtain ⟨W, e, hl, he⟩ := workerSteps_finishes wait _ hd2 hdone
        refine ⟨byWorker es1 ++ byCaller [.POAStopExposure stop] ++ byWorker (W ++ [e]) ++
          byCaller [.threadJoin], es1 ++ W, e, ?_, ?_, he⟩
        · rw [hlogsj, hl, hstopped]
          simp [List.append_assoc]
        · rw [workerEvents_append, workerEvents_append, workerEvents_append,
            workerEvents_byCaller, workerEvents_byCaller, workerEvents_byWorker,
            workerEvents_byWorker]
          simp
  · intro hc hw
    obtain ⟨cam, hc'⟩ := Option.isSome_iff_exists.1 hc
    rw [hdef, EndExposure_open wait stop x cam (hcam.trans hc')]
    have hj := joinIfJoinable_flagged wait (x.record .caller [.POAStopExposure stop])
      hflag (by show x.pCamera.isSome = true; rw [hcam]; exact hc) hw
    cases hj' : joinIfJoinable wait (x.record .caller [.POAStopExposure stop]) with
    | error e =>
      intro hb
      simp only [Except.error.injEq] at hb
      subst hb
      exact hj hj'
    | ok sj => simp
  · intro hc hn
    obtain ⟨cam, hc⟩ := Option.isSome_iff_exists.1 hc
    exact AbortExposure_noThread between wait stop s cam hc hn
  · intro hc hd
    obtain ⟨cam, hc⟩ := Option.isSome_iff_exists.1 hc
    exact AbortExposure_finished s between wait stop cam hc hd

end abortingClaim

section abortingWitness

/-- C11 at an input: `AbortExposure` is called while the worker of a started
exposure is in its first tick; the call returns after the worker has ended
with `aborted`, and the worker is joined. -/
theorem C11_AbortExposure_witness :
    ∃ r, (workerSteps 2 (startedFrom (opened demoCamera) (exposingFor 5))).AbortExposure 0 8 true =
        .ok r ∧
      workerPc (workerSteps 8 (abortStopped 0 true
        (workerSteps 2 (startedFrom (opened demoCamera) (exposingFor 5))))) = some .done ∧
      r.2 = ({ workerSteps 8 (abortStopped 0 true
                (workerSteps 2 (startedFrom (opened demoCamera) (exposingFor 5)))) with
                imageWaitingThread := none }).record .caller [.threadJoin] ∧
      (workerPc (workerSteps 2 (startedFrom (opened demoCamera) (exposingFor 5))) ≠ some .done →
        ∃ t W e, r.2.log =
            (workerSteps 2 (startedFrom (opened demoCamera) (exposingFor 5))).log ++ t ∧
          workerEvents t = W ++ [e] ∧ e.isNotification = true) :=
  ⟨_, rfl,
    (C11_AbortExposure (workerSteps 2 (startedFrom (opened demoCamera) (exposingFor 5)))
      0 8 true).2.2.1 rfl rfl _ rfl⟩

end abortingWitness

end PlayerOne
